import Mathlib

/-! # PostgreSQL client connection core (`connection.cpp`)

A shallow embedding of `core::postgresql::Connection` (the facade) and of
`Connection::ConnectionImpl` (the state machine).  Mutable C++ objects become
records that are passed in and returned; every call into libpq, libuv, the DNS
resolver, a timer or a user handler is appended to an effect trace, and every
value that such a call returns is an explicit argument of the embedded
function.  The record serializer of `serialize.c` is embedded after the
connection, in the namespace `Serialize`.
-/

namespace Postgresql

/-! ## Values -/

/-- The libpq type `Oid` (`unsigned int`). -/
abbrev Oid := Nat

/-- Modelled from the spec: `core/common/error.h` is absent; an `Error` is
either `Error::Success` or a failure carrying the formatted message. -/
inductive Error where
  | Success
  | Fail (message : String)
  deriving DecidableEq, Repr

/-- The predicate `Error::isFail`. -/
def Error.isFail : Error → Bool
  | Error.Success => false
  | Error.Fail _ => true

/-- Modelled from the spec: the macro `MAKE_ERROR` is absent; it constructs a
failing error from the formatted message (the callers below format the
message themselves, with `fmtD` for every `%d`). -/
def MAKE_ERROR (message : String) : Error := Error.Fail message

/-- The rendering of one `%d` conversion: the low 32 bits of the argument read
as a signed `int`, in decimal. -/
def fmtD (n : Nat) : String :=
  if n % 2 ^ 32 < 2 ^ 31 then toString (n % 2 ^ 32)
  else "-" ++ toString (2 ^ 32 - n % 2 ^ 32)

/-- Modelled from the spec: `types.h` is absent; a request id is either the
distinguished `InvalidRequestId` or an identifier chosen by the caller. -/
inductive RequestId where
  | Invalid
  | id (n : Nat)
  deriving DecidableEq, Repr

/-- The constant `InvalidRequestId`. -/
def InvalidRequestId : RequestId := RequestId.Invalid

/-- The libpq enumeration `ExecStatusType`: the twelve enumerators the source
names, and `other` for any further value of the enumeration (such a value
reaches the statement after the `switch`). -/
inductive ExecStatusType where
  | PGRES_EMPTY_QUERY
  | PGRES_COMMAND_OK
  | PGRES_TUPLES_OK
  | PGRES_COPY_OUT
  | PGRES_COPY_IN
  | PGRES_BAD_RESPONSE
  | PGRES_NONFATAL_ERROR
  | PGRES_FATAL_ERROR
  | PGRES_COPY_BOTH
  | PGRES_SINGLE_TUPLE
  | PGRES_PIPELINE_SYNC
  | PGRES_PIPELINE_ABORTED
  | other (code : Nat)
  deriving DecidableEq, Repr

/-- A libpq result object (`PGresult`), as far as the source looks into it. -/
structure PGresult where
  status : ExecStatusType
  rows : List (List String)
  errorMessage : String
  paramTypes : List Oid
  deriving DecidableEq, Repr

/-- The libpq function `PQresultStatus`; a null result reads as a fatal error. -/
def PQresultStatus : Option PGresult → ExecStatusType
  | some r => r.status
  | none => ExecStatusType.PGRES_FATAL_ERROR

/-- The libpq function `PQresultErrorMessage`. -/
def PQresultErrorMessage : Option PGresult → String
  | some r => r.errorMessage
  | none => ""

/-- The libpq functions `PQnparams` and `PQparamtype`, read together: the
parameter types `PQparamtype(r, 0) .. PQparamtype(r, PQnparams(r) - 1)`. -/
def PQparamtypes : Option PGresult → List Oid
  | some r => r.paramTypes
  | none => []

/-- Modelled from the spec: `recordset.h` is absent; a `Recordset` owns a
result pointer, which is null for the empty record set `{}`. -/
abbrev Recordset := Option PGresult

/-- The method `Recordset::clear`. -/
def Recordset.clear (_r : Recordset) : Recordset := none

/-- Rows held by a record set. -/
def Recordset.rows : Recordset → List (List String)
  | some r => r.rows
  | none => []

/-- A `std::function` object: `none` is the empty function, `some k` holds the
callable tagged `k`. -/
abbrev Handler := Option Nat

/-- The type `ExecuteHandler`. -/
abbrev ExecuteHandler := Handler

/-- One parameter of a query. -/
structure QueryParam where
  value : List Nat
  length : Int
  format : Int
  type : Oid
  deriving DecidableEq, Repr

/-- Modelled from the spec: `querydata.h` is absent; the parallel sequences
`values`, `lengths`, `formats` and `types` have the same length, `count`. -/
structure QueryData where
  params : List QueryParam
  deriving DecidableEq, Repr

def QueryData.count (q : QueryData) : Nat := q.params.length
def QueryData.values (q : QueryData) : List (List Nat) := q.params.map QueryParam.value
def QueryData.lengths (q : QueryData) : List Int := q.params.map QueryParam.length
def QueryData.formats (q : QueryData) : List Int := q.params.map QueryParam.format
def QueryData.types (q : QueryData) : List Oid := q.params.map QueryParam.type

/-- Modelled from the spec: `options.h` is absent; the TLS part of the
configuration. -/
structure SslOptions where
  isAllow : Bool
  certificatePemData : String
  privateKeyPemData : String
  trustedCertificatesPemData : List String
  deriving DecidableEq, Repr

/-- Modelled from the spec: `options.h` is absent; the recognised
configuration fields (durations in milliseconds). -/
structure Options where
  hosts : List String
  port : Nat
  databaseName : String
  userName : String
  password : String
  connectTimeout : Nat
  reconnectInterval : Nat
  isAutoReconnect : Bool
  isCheckQueryParameters : Bool
  sslOptions : SslOptions
  deriving DecidableEq, Repr

/-- The value-initialised configuration `Options{}`. -/
def Options.empty : Options :=
  { hosts := [], port := 0, databaseName := "", userName := "", password := "",
    connectTimeout := 0, reconnectInterval := 0, isAutoReconnect := false,
    isCheckQueryParameters := false,
    sslOptions := { isAllow := false, certificatePemData := "", privateKeyPemData := "",
                    trustedCertificatesPemData := [] } }

/-- The libuv event bits. -/
def UV_READABLE : Nat := 1
def UV_WRITABLE : Nat := 2

/-- The two poll callbacks that are registered with `uv_poll_start`. -/
inductive PollCb where
  | pollConnectionCallback
  | pollCommandsCallback
  deriving DecidableEq, Repr

/-- The libpq enumeration `PostgresPollingStatusType`. -/
inductive PostgresPollingStatusType where
  | PGRES_POLLING_FAILED
  | PGRES_POLLING_READING
  | PGRES_POLLING_WRITING
  | PGRES_POLLING_OK
  | PGRES_POLLING_ACTIVE
  deriving DecidableEq, Repr

/-- The calls the code makes into its collaborators, in the order made.
`badFunctionCall` is the exception `std::bad_function_call` that the call of
an empty `std::function` throws in place of an invocation. -/
inductive Effect where
  | executeHandler (h : ExecuteHandler) (error : Error) (result : Recordset) (connection : Bool)
  | connectedHandler (h : Handler)
  | disconnectedHandler (h : Handler) (error : Error)
  | PQsendQueryPrepared (stmtName : String) (nParams : Nat) (values : List (List Nat))
      (lengths : List Int) (formats : List Int) (resultFormat : Nat)
  | PQexecParams (query : String) (nParams : Nat) (types : List Oid) (values : List (List Nat))
      (lengths : List Int) (formats : List Int) (resultFormat : Nat)
  | PQprepare (stmtName : String) (query : String) (nParams : Nat) (types : List Oid)
  | PQdescribePrepared (stmtName : String)
  | PQclear
  | PQconnectStartParams (keywords : List String) (values : List String) (expandDbname : Nat)
  | PQsetNoticeReceiver
  | PQsetNoticeProcessor
  | PQsocket
  | fcntlDupFd (fd : Int)
  | applySocketOptions (fd : Int)
  | uvPollInit (fd : Int)
  | PQconnectPoll
  | PQresetPoll
  | PQstatus
  | PQflush
  | PQconsumeInput
  | PQisBusy
  | PQgetResult
  | PQfinish
  | closeFd (fd : Int)
  | uvPollStart (events : Nat) (cb : PollCb)
  | uvPollStop
  | uvClose
  | deletePoll
  | deleteThis
  | connectTimerRestart (timeout : Nat)
  | connectTimerStop
  | reconnectTimerRestart (interval : Nat)
  | reconnectTimerStop
  | dnsResolve (host : String)
  | dnsCancelResolve (fire : Bool)
  | badFunctionCall
  deriving DecidableEq, Repr

/-! ## The state machine and the facade -/

/-- The enumeration `ConnectionImpl::State`. -/
inductive State where
  | Disconnected
  | Connecting
  | Connected
  | Disconnecting
  deriving DecidableEq, Repr

/-- The data members of `Connection::ConnectionImpl`.  Pointers are kept as
"is set" flags: `base_` (the back-reference to the facade), `handle_`,
`pollHandle_`, and `dnsRequestId_` (a lookup is pending). -/
structure ConnectionImpl where
  base_ : Bool
  handle_ : Bool
  dnsRequestId_ : Bool
  fd_ : Int
  pollHandle_ : Bool
  eventmask_ : Nat
  state_ : State
  executeHandler_ : ExecuteHandler
  isExecuting_ : Bool
  requestId_ : RequestId
  connectTimer_ : Bool
  preparedStmtOids_ : List (String × List Oid)
  deriving DecidableEq, Repr

/-- The paths of the three staged TLS files (empty when not staged). -/
structure SslTemporaryFiles where
  certificate_ : String
  key_ : String
  ca_ : String
  deriving DecidableEq, Repr

/-- The data members of the facade `Connection`; `connectionImpl_` is the owned
state machine, `none` for the null pointer.  `reconnectTimer_` tells whether
the timer is armed and `eventLoopRunning` is `eventLoop()->state() == Running`. -/
structure Connection where
  id_ : Nat
  options_ : Options
  hostIndex_ : Nat
  connectedHandler_ : Handler
  disconnectedHandler_ : Handler
  connectionImpl_ : Option ConnectionImpl
  reconnectTimer_ : Bool
  sslTemporaryFiles_ : SslTemporaryFiles
  eventLoopRunning : Bool
  deriving DecidableEq, Repr

/-- The lookup `preparedStmtOids_.find(name)`. -/
def oidsFind : List (String × List Oid) → String → Option (List Oid)
  | [], _ => none
  | (k, v) :: rest, name => if k = name then some v else oidsFind rest name

/-- The update `preparedStmtOids_.insert_or_assign(name, oids)`. -/
def oidsInsertOrAssign : List (String × List Oid) → String → List Oid → List (String × List Oid)
  | [], name, oids => [(name, oids)]
  | (k, v) :: rest, name, oids =>
    if k = name then (k, oids) :: rest else (k, v) :: oidsInsertOrAssign rest name oids

/-- The member `ConnectionImpl::isBusy`. -/
def ConnectionImpl.isBusy (self : ConnectionImpl) : Bool := self.isExecuting_

/-- The member `ConnectionImpl::state`. -/
def ConnectionImpl.state (self : ConnectionImpl) : State := self.state_

/-- The test of the `for` loop over `i < oids.size()` in the asynchronous
execute: parameter `i` has a non-zero declared type other than `oids[i]`. -/
def oidMismatchAt (types oids : List Oid) (i : Nat) : Bool :=
  types.getD i 0 != 0 && oids.getD i 0 != types.getD i 0

/-- The `for` loop itself: the first index at which the test holds. -/
def firstOidMismatch (types oids : List Oid) : Option Nat :=
  (List.range oids.length).find? (oidMismatchAt types oids)

/-- The block under the comment `check oids` of the asynchronous execute: the
error reported through the handler, if any. -/
def checkOids (self : ConnectionImpl) (base : Connection) (preparedName : String)
    (queryData : QueryData) : Option Error :=
  if base.options_.isCheckQueryParameters then
    match oidsFind self.preparedStmtOids_ preparedName with
    | some oids =>
      if queryData.count ≠ oids.length then
        some (MAKE_ERROR "Wrong parameter count.")
      else
        match firstOidMismatch queryData.types oids with
        | some i =>
          some (MAKE_ERROR ("Wrong parameter type " ++ fmtD (queryData.types.getD i 0)
            ++ " for parameter " ++ fmtD i ++ ". Must be " ++ fmtD (oids.getD i 0) ++ "."))
        | none => none
    | none => none
  else none

/-- The expression `handler(error, result, connection)` on a handler that the
code has not tested: the target is invoked, or, when the `std::function` is
empty, `std::bad_function_call` is thrown and nothing is invoked. -/
def callExecuteHandler (handler : ExecuteHandler) (error : Error) (result : Recordset)
    (connection : Bool) : Effect :=
  if handler.isSome then Effect.executeHandler handler error result connection
  else Effect.badFunctionCall

/-- The asynchronous `ConnectionImpl::execute(preparedName, queryData, handler,
requestId)` (`executeAsync` here, the synchronous overload keeps the name
`execute`).  `base` is the facade behind `base_`; `rc` is what
`PQsendQueryPrepared` returns and `errorMessage` what `PQerrorMessage` returns,
when they are called.  The source calls `handler` without testing it, so an
empty handler makes the member leave by `std::bad_function_call`
(`callExecuteHandler`); every such call is the last statement before a
`return` and nothing has been stored by then, so the state machine handed
back is the same whether the member returns or throws. -/
def ConnectionImpl.executeAsync (self : ConnectionImpl) (base : Connection)
    (preparedName : String) (queryData : Option QueryData) (handler : ExecuteHandler)
    (requestId : RequestId) (rc : Int) (errorMessage : String) : ConnectionImpl × List Effect :=
  if self.state_ ≠ State.Connected then
    (self, [callExecuteHandler handler (MAKE_ERROR "Connection is currently disconnected")
      none self.base_])
  else if self.isBusy then
    (self, [callExecuteHandler handler (MAKE_ERROR "Connection is busy") none self.base_])
  else
    let checked : Option Error :=
      match queryData with
      | some qd => checkOids self base preparedName qd
      | none => none
    match checked with
    | some error => (self, [callExecuteHandler handler error none self.base_])
    | none =>
      let send : Effect :=
        match queryData with
        | some qd => Effect.PQsendQueryPrepared preparedName qd.values.length qd.values
            qd.lengths qd.formats 1
        | none => Effect.PQsendQueryPrepared preparedName 0 [] [] [] 1
      if rc = 0 then
        (self, [send, callExecuteHandler handler
          (MAKE_ERROR ("Unable to execute query. " ++ errorMessage)) none self.base_])
      else
        ({ self with executeHandler_ := handler, requestId_ := requestId, isExecuting_ := true },
          [send])

/-- The synchronous `ConnectionImpl::execute(query, queryData, resultPtr)`.
`resultPtr` is `none` for a null pointer and otherwise the record set it points
to; `r` is what `PQexecParams` returns.  The outcome is the returned error,
the record set behind `resultPtr` afterwards, and the calls made. -/
def ConnectionImpl.execute (self : ConnectionImpl) (query : String)
    (queryData : Option QueryData) (resultPtr : Option Recordset) (r : Option PGresult) :
    Error × Option Recordset × List Effect :=
  if self.state_ ≠ State.Connected then
    (MAKE_ERROR "Connection is currently disconnected", resultPtr, [])
  else if self.isBusy then
    (MAKE_ERROR "Connection is busy", resultPtr, [])
  else
    let call : Effect :=
      match queryData with
      | none => Effect.PQexecParams query 0 [] [] [] [] 1
      | some qd => Effect.PQexecParams query qd.values.length qd.types qd.values qd.lengths
          qd.formats 1
    match r with
    | none => (MAKE_ERROR "Unable to create query", resultPtr, [call])
    | some res =>
      match PQresultStatus (some res) with
      | ExecStatusType.PGRES_EMPTY_QUERY => (Error.Success, resultPtr, [call])
      | ExecStatusType.PGRES_COMMAND_OK => (Error.Success, resultPtr, [call])
      | ExecStatusType.PGRES_TUPLES_OK =>
        match resultPtr with
        | some _ => (Error.Success, some (some res), [call])
        | none => (Error.Success, none, [call])
      | ExecStatusType.PGRES_NONFATAL_ERROR =>
        (MAKE_ERROR ("Unable to execute query. " ++ PQresultErrorMessage (some res)), resultPtr,
          [call])
      | ExecStatusType.PGRES_BAD_RESPONSE =>
        (MAKE_ERROR ("Unable to execute query. " ++ PQresultErrorMessage (some res)), resultPtr,
          [call])
      | ExecStatusType.PGRES_FATAL_ERROR =>
        (MAKE_ERROR ("Unable to execute query. " ++ PQresultErrorMessage (some res)), resultPtr,
          [call])
      | ExecStatusType.PGRES_COPY_OUT => (MAKE_ERROR "Unsupported query", resultPtr, [call])
      | ExecStatusType.PGRES_COPY_IN => (MAKE_ERROR "Unsupported query", resultPtr, [call])
      | ExecStatusType.PGRES_COPY_BOTH => (MAKE_ERROR "Unsupported query", resultPtr, [call])
      | ExecStatusType.PGRES_SINGLE_TUPLE => (MAKE_ERROR "Unsupported query", resultPtr, [call])
      | ExecStatusType.PGRES_PIPELINE_SYNC => (MAKE_ERROR "Unsupported query", resultPtr, [call])
      | ExecStatusType.PGRES_PIPELINE_ABORTED =>
        (MAKE_ERROR "Unsupported query", resultPtr, [call])
      | ExecStatusType.other _ => (Error.Success, resultPtr, [call])

/-- The member `ConnectionImpl::prepare(name, query, types)`.  `types` is `none`
for a null pointer; `r` is what `PQprepare` returns and `described` what
`PQdescribePrepared` returns, when it is called. -/
def ConnectionImpl.prepare (self : ConnectionImpl) (name query : String)
    (types : Option (List Oid)) (r : Option PGresult) (described : Option PGresult) :
    Error × ConnectionImpl × List Effect :=
  if self.state_ ≠ State.Connected then
    (MAKE_ERROR "Connection is currently disconnected", self, [])
  else if self.isBusy then
    (MAKE_ERROR "Connection is busy", self, [])
  else
    let call : Effect :=
      match types with
      | some ts => Effect.PQprepare name query ts.length ts
      | none => Effect.PQprepare name query 0 []
    match r with
    | none => (MAKE_ERROR "Unable to create query", self, [call])
    | some res =>
      match PQresultStatus (some res) with
      | ExecStatusType.PGRES_COMMAND_OK =>
        if PQresultStatus described = ExecStatusType.PGRES_COMMAND_OK then
          (Error.Success,
            { self with preparedStmtOids_ :=
                oidsInsertOrAssign self.preparedStmtOids_ name (PQparamtypes described) },
            [call, Effect.PQdescribePrepared name, Effect.PQclear])
        else
          (Error.Success, self, [call, Effect.PQdescribePrepared name, Effect.PQclear])
      | ExecStatusType.PGRES_NONFATAL_ERROR =>
        (MAKE_ERROR ("Unable to execute query. " ++ PQresultErrorMessage (some res)), self, [call])
      | ExecStatusType.PGRES_BAD_RESPONSE =>
        (MAKE_ERROR ("Unable to execute query. " ++ PQresultErrorMessage (some res)), self, [call])
      | ExecStatusType.PGRES_FATAL_ERROR =>
        (MAKE_ERROR ("Unable to execute query. " ++ PQresultErrorMessage (some res)), self, [call])
      | ExecStatusType.PGRES_EMPTY_QUERY => (MAKE_ERROR "Unsupported query", self, [call])
      | ExecStatusType.PGRES_TUPLES_OK => (MAKE_ERROR "Unsupported query", self, [call])
      | ExecStatusType.PGRES_COPY_OUT => (MAKE_ERROR "Unsupported query", self, [call])
      | ExecStatusType.PGRES_COPY_IN => (MAKE_ERROR "Unsupported query", self, [call])
      | ExecStatusType.PGRES_COPY_BOTH => (MAKE_ERROR "Unsupported query", self, [call])
      | ExecStatusType.PGRES_SINGLE_TUPLE => (MAKE_ERROR "Unsupported query", self, [call])
      | ExecStatusType.PGRES_PIPELINE_SYNC => (MAKE_ERROR "Unsupported query", self, [call])
      | ExecStatusType.PGRES_PIPELINE_ABORTED => (MAKE_ERROR "Unsupported query", self, [call])
      | ExecStatusType.other _ => (Error.Success, self, [call])

/-- The member `ConnectionImpl::finishRequest(error, result)`. -/
def ConnectionImpl.finishRequest (self : ConnectionImpl) (error : Error) (result : Recordset) :
    ConnectionImpl × List Effect :=
  let executeHandler := self.executeHandler_
  let self1 : ConnectionImpl :=
    { self with isExecuting_ := false, executeHandler_ := none, requestId_ := InvalidRequestId }
  if executeHandler.isSome then
    if error.isFail then
      (self1, [Effect.executeHandler executeHandler error result self1.base_])
    else
      (self1, [Effect.executeHandler executeHandler Error.Success result self1.base_])
  else
    (self1, [])

/-- The values handed back by the collaborators during one event: one field
per call site whose result the code inspects. -/
structure Responses where
  errorMessage : String
  timerRestartOk : Bool
  connectStartOk : Bool
  connectionStarted : Bool
  socket : Int
  dupFd : Int
  connectPoll : PostgresPollingStatusType
  pollStartRc : Int
  connectionOk : Bool
  connectedHandlerResult : Error
  flushRc : Int
  consumeInput : Bool
  isBusy : Bool
  results : List PGresult
  deriving DecidableEq, Repr

/-- The member `Connection::startReconnectTimer`; the timer callback is
`Connection.reconnectTimerFired` below. -/
def Connection.startReconnectTimer (c : Connection) (r : Responses) :
    Error × Connection × List Effect :=
  if ¬ c.eventLoopRunning then
    (Error.Success, c, [])
  else if ¬ r.timerRestartOk then
    (MAKE_ERROR "Unable to start reconnect timer", { c with reconnectTimer_ := false },
      [Effect.reconnectTimerRestart c.options_.reconnectInterval])
  else
    (Error.Success, { c with reconnectTimer_ := true },
      [Effect.reconnectTimerRestart c.options_.reconnectInterval])

/-- The callback that `ConnectionImpl::disconnect` hands to `uv_close`:
`delete poll; delete _this;`.  The event loop runs it in a later iteration,
after the member that called `disconnect` and its callers have returned. -/
def ConnectionImpl.closeCallback : List Effect := [Effect.deletePoll, Effect.deleteThis]

/-- The member `ConnectionImpl::disconnect`.  `base` is the facade behind
`base_` (left alone when `base_` is null).  With a poll handle the trace ends
with the request `uvClose`: the two deletions are left to
`ConnectionImpl.closeCallback`, a later event.  Without one the state machine
is deleted at once.  The state machine handed back is the object as it is
deleted. -/
def ConnectionImpl.disconnect (self : ConnectionImpl) (base : Connection) :
    ConnectionImpl × Connection × List Effect :=
  let s0 : ConnectionImpl := { self with state_ := State.Disconnecting }
  if s0.base_ then
    let base1 : Connection := { base with connectionImpl_ := none }
    let s1 : ConnectionImpl := { s0 with base_ := false }
    let e1 : List Effect := if s1.dnsRequestId_ then [Effect.dnsCancelResolve false] else []
    let s2 : ConnectionImpl := { s1 with dnsRequestId_ := false, connectTimer_ := false }
    let e2 : List Effect := [Effect.connectTimerStop]
    if s2.handle_ then
      let e3 : List Effect := if s2.fd_ ≥ 0 then [Effect.closeFd s2.fd_] else []
      let s3 : ConnectionImpl := { s2 with fd_ := if s2.fd_ ≥ 0 then -1 else s2.fd_ }
      let s4 : ConnectionImpl := { s3 with handle_ := false }
      if s4.pollHandle_ then
        (s4, base1, e1 ++ e2 ++ e3 ++ [Effect.PQfinish, Effect.uvPollStop, Effect.uvClose])
      else
        (s4, base1, e1 ++ e2 ++ e3 ++ [Effect.PQfinish, Effect.deleteThis])
    else
      (s2, base1, e1 ++ e2 ++ [Effect.deleteThis])
  else
    (s0, base, [])

/-- The member `ConnectionImpl::reconnect(error)`. -/
def ConnectionImpl.reconnect (self : ConnectionImpl) (base : Connection) (error : Error)
    (r : Responses) : ConnectionImpl × Connection × List Effect :=
  let hadBase := self.base_
  let d := self.disconnect base
  if hadBase then
    let t : Connection × List Effect :=
      if d.2.1.options_.isAutoReconnect then
        ((d.2.1.startReconnectTimer r).2.1, (d.2.1.startReconnectTimer r).2.2)
      else (d.2.1, [])
    let e3 : List Effect :=
      if t.1.disconnectedHandler_.isSome then
        [Effect.disconnectedHandler t.1.disconnectedHandler_ error]
      else []
    (d.1, t.1, d.2.2 ++ t.2 ++ e3)
  else
    (d.1, d.2.1, d.2.2)

/-- The bitwise complement of a 32-bit `int` kept as its two's-complement
word. -/
def complement32 (x : Nat) : Nat := 2 ^ 32 - 1 - x % 2 ^ 32

/-- The member `ConnectionImpl::updatePollEventmask(eventmask)`. -/
def ConnectionImpl.updatePollEventmask (self : ConnectionImpl) (eventmask : Nat)
    (r : Responses) : Error × ConnectionImpl × List Effect :=
  if eventmask ≠ self.eventmask_ then
    if r.pollStartRc ≠ 0 then
      (MAKE_ERROR ("Unable to start poll. " ++ r.errorMessage ++ "\n"), self,
        [Effect.uvPollStart eventmask PollCb.pollCommandsCallback])
    else
      (Error.Success, { self with eventmask_ := eventmask },
        [Effect.uvPollStart eventmask PollCb.pollCommandsCallback])
  else
    (Error.Success, self, [])

/-- The part of `ConnectionImpl::pollCommands` from `if(events & UV_READABLE)`
to the end, entered with the local `eventmask`.  `r.results` lists the
non-null results that successive `PQgetResult` calls hand out. -/
def ConnectionImpl.pollCommandsReadable (self : ConnectionImpl) (events eventmask : Nat)
    (r : Responses) : Error × ConnectionImpl × List Effect :=
  if events &&& UV_READABLE ≠ 0 then
    if ¬ r.consumeInput then
      (MAKE_ERROR ("Unable to receive data from server. " ++ r.errorMessage), self,
        [Effect.PQconsumeInput])
    else if ¬ r.isBusy then
      let result : Recordset := r.results.head?
      let res := PQresultStatus result
      if res ≠ ExecStatusType.PGRES_TUPLES_OK ∧ res ≠ ExecStatusType.PGRES_COMMAND_OK then
        let f := self.finishRequest (MAKE_ERROR ("Unable to execute " ++ r.errorMessage)) result
        (Error.Success, f.1,
          [Effect.PQconsumeInput, Effect.PQisBusy, Effect.PQgetResult]
            ++ List.replicate (r.results.tail.length + 1) Effect.PQgetResult ++ f.2)
      else if r.results.tail ≠ [] then
        (MAKE_ERROR "handling of more results is not supported", self,
          [Effect.PQconsumeInput, Effect.PQisBusy, Effect.PQgetResult, Effect.PQgetResult])
      else
        let f := self.finishRequest Error.Success result
        let u := f.1.updatePollEventmask eventmask r
        (u.1, u.2.1,
          [Effect.PQconsumeInput, Effect.PQisBusy, Effect.PQgetResult, Effect.PQgetResult]
            ++ f.2 ++ u.2.2)
    else
      let u := self.updatePollEventmask eventmask r
      (u.1, u.2.1, [Effect.PQconsumeInput, Effect.PQisBusy] ++ u.2.2)
  else
    self.updatePollEventmask eventmask r

/-- The member `ConnectionImpl::pollCommands(events)`: the `writable` block,
followed by `ConnectionImpl.pollCommandsReadable`. -/
def ConnectionImpl.pollCommands (self : ConnectionImpl) (events : Nat) (r : Responses) :
    Error × ConnectionImpl × List Effect :=
  let eventmask := self.eventmask_
  if events &&& UV_WRITABLE ≠ 0 then
    let rc := r.flushRc
    let eventmask1 := if rc = 0 then eventmask &&& complement32 UV_WRITABLE else eventmask
    if rc = 1 then
      let p := self.pollCommandsReadable events (eventmask1 ||| (UV_READABLE ||| UV_WRITABLE)) r
      (p.1, p.2.1, Effect.PQflush :: p.2.2)
    else if rc ≠ 0 ∧ rc = -1 then
      (MAKE_ERROR ("Unable to flush data to server. " ++ r.errorMessage), self, [Effect.PQflush])
    else
      let p := self.pollCommandsReadable events eventmask1 r
      (p.1, p.2.1, Effect.PQflush :: p.2.2)
  else
    self.pollCommandsReadable events eventmask r

/-- The second `switch` of `ConnectionImpl::pollConnection` and what follows
it; `rc` is the polling status and `call` the libpq call that produced it. -/
def ConnectionImpl.pollConnectionSwitch (self : ConnectionImpl) (base : Connection)
    (call : Effect) (r : Responses) : Error × ConnectionImpl × List Effect :=
  let start (s : ConnectionImpl) (pre : List Effect) (events : Nat) (cb : PollCb)
      (callConnectedHandler : Bool) : Error × ConnectionImpl × List Effect :=
    if r.pollStartRc ≠ 0 then
      (MAKE_ERROR ("Unable to start poll. " ++ r.errorMessage ++ "\n"), s,
        call :: pre ++ [Effect.uvPollStart events cb])
    else if r.connectionOk ∧ callConnectedHandler ∧ base.connectedHandler_.isSome then
      if r.connectedHandlerResult.isFail then
        (r.connectedHandlerResult, s, call :: pre ++ [Effect.uvPollStart events cb,
          Effect.PQstatus, Effect.connectedHandler base.connectedHandler_])
      else
        (Error.Success, s, call :: pre ++ [Effect.uvPollStart events cb, Effect.PQstatus,
          Effect.connectedHandler base.connectedHandler_])
    else
      (Error.Success, s, call :: pre ++ [Effect.uvPollStart events cb, Effect.PQstatus])
  match r.connectPoll with
  | PostgresPollingStatusType.PGRES_POLLING_READING =>
    start self [] UV_READABLE PollCb.pollConnectionCallback false
  | PostgresPollingStatusType.PGRES_POLLING_WRITING =>
    start self [] UV_WRITABLE PollCb.pollConnectionCallback false
  | PostgresPollingStatusType.PGRES_POLLING_OK =>
    start { self with connectTimer_ := false, state_ := State.Connected,
                      eventmask_ := UV_WRITABLE ||| UV_READABLE }
      [Effect.connectTimerStop] (UV_WRITABLE ||| UV_READABLE) PollCb.pollCommandsCallback
      self.base_
  | PostgresPollingStatusType.PGRES_POLLING_FAILED =>
    (MAKE_ERROR ("Polling failed. " ++ r.errorMessage), self, [call])
  | PostgresPollingStatusType.PGRES_POLLING_ACTIVE =>
    (MAKE_ERROR "Unknown poll status", self, [call])

/-- The member `ConnectionImpl::pollConnection`. -/
def ConnectionImpl.pollConnection (self : ConnectionImpl) (base : Connection) (r : Responses) :
    Error × ConnectionImpl × List Effect :=
  match self.state_ with
  | State.Connecting => self.pollConnectionSwitch base Effect.PQconnectPoll r
  | State.Disconnecting => self.pollConnectionSwitch base Effect.PQresetPoll r
  | _ => (MAKE_ERROR "Invalid state", self, [])

/-- The static `ConnectionImpl::pollConnectionCallback(handle, status, events)`
for a handle whose data is this state machine. -/
def ConnectionImpl.pollConnectionCallback (self : ConnectionImpl) (base : Connection)
    (status : Int) (events : Nat) (r : Responses) : ConnectionImpl × Connection × List Effect :=
  if status < 0 then
    if status = -9 then
      self.reconnect base
        (MAKE_ERROR ("Unable to connect to postgresql server. " ++ r.errorMessage)) r
    else
      self.reconnect base (MAKE_ERROR ("Bad status " ++ toString status)) r
  else if events &&& complement32 (UV_READABLE ||| UV_WRITABLE) ≠ 0 then
    self.reconnect base (MAKE_ERROR ("Unexpected event " ++ fmtD events)) r
  else
    let p := self.pollConnection base r
    if p.1.isFail then
      let q := p.2.1.reconnect base p.1 r
      (q.1, q.2.1, p.2.2 ++ q.2.2)
    else
      (p.2.1, base, p.2.2)

/-- The static `ConnectionImpl::pollCommandsCallback(handle, status, events)`
for a handle whose data is this state machine. -/
def ConnectionImpl.pollCommandsCallback (self : ConnectionImpl) (base : Connection)
    (status : Int) (events : Nat) (r : Responses) : ConnectionImpl × Connection × List Effect :=
  if status < 0 then
    self.reconnect base (MAKE_ERROR ("Bad status " ++ toString status)) r
  else
    let p := self.pollCommands events r
    if p.1.isFail then
      let q := p.2.1.reconnect base p.1 r
      (q.1, q.2.1, p.2.2 ++ q.2.2)
    else
      (p.2.1, base, p.2.2)

/-- The keyword and value vectors composed by `ConnectionImpl::connect`, each
built by its own sequence of `push_back` calls (without the closing null
entries). -/
def connectKeywordsValues (base : Connection) (address : String) : List String × List String :=
  let port := toString base.options_.port
  let connect_timeout := toString (base.options_.connectTimeout / 1000)
  let k0 : List String := if base.options_.databaseName ≠ "" then ["dbname"] else []
  let v0 : List String :=
    if base.options_.databaseName ≠ "" then [base.options_.databaseName] else []
  let k1 := k0 ++ ["hostaddr", "port", "user"]
  let v1 := v0 ++ [address, port, base.options_.userName]
  let k2 :=
    if base.options_.sslOptions.isAllow then
      k1 ++ ["host", "sslmode"]
        ++ (if base.sslTemporaryFiles_.ca_ ≠ "" then ["sslrootcert"] else [])
        ++ ["sslcert", "sslkey"]
    else k1 ++ ["password"]
  let v2 :=
    if base.options_.sslOptions.isAllow then
      v1 ++ [base.options_.hosts.getD base.hostIndex_ ""]
        ++ (if base.sslTemporaryFiles_.ca_ ≠ "" then ["verify-full", base.sslTemporaryFiles_.ca_]
            else ["require"])
        ++ [base.sslTemporaryFiles_.certificate_, base.sslTemporaryFiles_.key_]
    else v1 ++ [base.options_.password]
  (k2 ++ ["connect_timeout"], v2 ++ [connect_timeout])

/-- The member `ConnectionImpl::connect(address)`. -/
def ConnectionImpl.connect (self : ConnectionImpl) (base : Connection) (address : String)
    (r : Responses) : ConnectionImpl × Connection × List Effect :=
  let kv := connectKeywordsValues base address
  let e0 : List Effect :=
    [Effect.PQconnectStartParams kv.1 kv.2 (if base.options_.databaseName = "" then 0 else 1)]
  if ¬ r.connectStartOk then
    let q := self.reconnect base (MAKE_ERROR "Connection to database failed.") r
    (q.1, q.2.1, e0 ++ q.2.2)
  else
    let s1 : ConnectionImpl := { self with handle_ := true }
    if ¬ r.connectionStarted then
      let q := s1.reconnect base
        (MAKE_ERROR ("Connection to database failed. " ++ r.errorMessage)) r
      (q.1, q.2.1, e0 ++ [Effect.PQstatus] ++ q.2.2)
    else
      let e1 := e0 ++ [Effect.PQstatus, Effect.PQsetNoticeReceiver, Effect.PQsetNoticeProcessor,
        Effect.PQsocket]
      if r.socket < 0 then
        let q := s1.reconnect base (MAKE_ERROR "Unable to get socket description") r
        (q.1, q.2.1, e1 ++ q.2.2)
      else
        let s2 : ConnectionImpl := { s1 with fd_ := r.dupFd }
        let e2 := e1 ++ [Effect.fcntlDupFd r.socket]
        if s2.fd_ < 0 then
          let q := s2.reconnect base (MAKE_ERROR "Unable to duplicate socket description") r
          (q.1, q.2.1, e2 ++ q.2.2)
        else
          let s3 : ConnectionImpl := { s2 with pollHandle_ := true }
          let e3 := e2 ++ [Effect.applySocketOptions r.socket, Effect.uvPollInit s2.fd_]
          let p := s3.pollConnection base r
          if p.1.isFail then
            let q := p.2.1.reconnect base p.1 r
            (q.1, q.2.1, e3 ++ p.2.2 ++ q.2.2)
          else
            (p.2.1, base, e3 ++ p.2.2)

/-- The constructor `ConnectionImpl::ConnectionImpl(base)`; the two lambdas it
registers are `connectTimerCallback` and `dnsCallback` below. -/
def ConnectionImpl.new (base : Connection) : ConnectionImpl × List Effect :=
  ({ base_ := true, handle_ := false, dnsRequestId_ := true, fd_ := -1, pollHandle_ := false,
     eventmask_ := 0, state_ := State.Connecting, executeHandler_ := none,
     isExecuting_ := false, requestId_ := InvalidRequestId, connectTimer_ := true,
     preparedStmtOids_ := [] },
   [Effect.connectTimerRestart base.options_.connectTimeout,
    Effect.dnsResolve (base.options_.hosts.getD base.hostIndex_ "")])

/-- The lambda handed to `connectTimer_->restart` in the constructor. -/
def ConnectionImpl.connectTimerCallback (self : ConnectionImpl) (base : Connection)
    (r : Responses) : ConnectionImpl × Connection × List Effect :=
  self.reconnect base (MAKE_ERROR "Connection timeout") r

/-- The lambda handed to `DnsResolver::resolve` in the constructor. -/
def ConnectionImpl.dnsCallback (self : ConnectionImpl) (base : Connection)
    (addresses : List String) (r : Responses) : ConnectionImpl × Connection × List Effect :=
  let s : ConnectionImpl := { self with dnsRequestId_ := false }
  if ¬ s.base_ then
    (s, base, [])
  else if addresses = [] then
    s.reconnect base
      (MAKE_ERROR ("Unable to resolve host address \"" ++
        base.options_.hosts.getD base.hostIndex_ "" ++ "\"")) r
  else
    s.connect base (addresses.headD "") r

/-! ## The facade -/

/-- The facade after one member of its state machine has run: the pointer
`connectionImpl_` still refers to the state machine exactly when `disconnect`
has not cleared it (and the back-reference) in between. -/
def attach (p : ConnectionImpl × Connection × List Effect) : Connection × List Effect :=
  if p.1.base_ then ({ p.2.1 with connectionImpl_ := some p.1 }, p.2.2) else (p.2.1, p.2.2)

/-- The constructor `Connection::Connection(eventLoop)`. -/
def Connection.new (eventLoopRunning : Bool) : Connection :=
  { id_ := 0, options_ := Options.empty, hostIndex_ := 0, connectedHandler_ := none,
    disconnectedHandler_ := none, connectionImpl_ := none, reconnectTimer_ := false,
    sslTemporaryFiles_ := { certificate_ := "", key_ := "", ca_ := "" },
    eventLoopRunning := eventLoopRunning }

/-- The member `Connection::destroy`. -/
def Connection.destroy (c : Connection) : Connection × List Effect :=
  let c1 : Connection := { c with reconnectTimer_ := false }
  let d : Connection × List Effect :=
    match c1.connectionImpl_ with
    | some impl =>
      let q := impl.disconnect c1
      let c2 : Connection := { q.2.1 with connectionImpl_ := none }
      (c2, q.2.2 ++
        (if c2.disconnectedHandler_.isSome then
          [Effect.disconnectedHandler c2.disconnectedHandler_ Error.Success] else []))
    | none => (c1, [])
  ({ d.1 with connectedHandler_ := none, disconnectedHandler_ := none,
              options_ := Options.empty, id_ := 0,
              sslTemporaryFiles_ := { certificate_ := "", key_ := "", ca_ := "" } },
    Effect.reconnectTimerStop :: d.2)

/-- The member `Connection::isValid`. -/
def Connection.isValid (c : Connection) : Bool :=
  match c.connectionImpl_ with
  | some impl => impl.state == State.Connected
  | none => false

/-- The member `Connection::isBusy`. -/
def Connection.isBusy (c : Connection) : Bool :=
  match c.connectionImpl_ with
  | some impl => impl.isBusy
  | none => false

/-- The member `Connection::currentRequestId`. -/
def Connection.currentRequestId (c : Connection) : RequestId :=
  match c.connectionImpl_ with
  | some impl => impl.requestId_
  | none => InvalidRequestId

/-- The member `Connection::currentExecuteHandler`. -/
def Connection.currentExecuteHandler (c : Connection) : ExecuteHandler :=
  match c.connectionImpl_ with
  | some impl => impl.executeHandler_
  | none => none

/-- The method `SslTmpFile::path` after `SslTmpFile::create` got the
descriptor `fd` from `std::tmpfile`. -/
def sslTmpFilePath (fd : Nat) : String := "/proc/self/fd/" ++ toString fd

/-- The member `Connection::initialize` (the trailing underscore keeps the name
apart from a reserved word).  `certFile`, `keyFile` and `caFile` are
the descriptors `std::tmpfile` yields for the three TLS files (`none` when it
fails, with `r.errorMessage` as `strerror(errno)`), `commonName` is what
`getX509CommonName` returns. -/
def Connection.initialize_ (c : Connection) (id : Nat) (options : Options) (hostIndex : Nat)
    (connectedHandler disconnectedHandler : Handler) (certFile keyFile caFile : Option Nat)
    (commonName : String) (r : Responses) : Error × Connection × List Effect :=
  let d := c.destroy
  let c1 : Connection :=
    { d.1 with id_ := id, options_ := options, hostIndex_ := hostIndex,
               connectedHandler_ := connectedHandler,
               disconnectedHandler_ := disconnectedHandler }
  let fail : Error := MAKE_ERROR ("Unable to initialize postgresql connection: "
    ++ "Unable to create temporary ssl file. " ++ r.errorMessage)
  let construct (c2 : Connection) : Error × Connection × List Effect :=
    (Error.Success, { c2 with connectionImpl_ := some (ConnectionImpl.new c2).1 },
      d.2 ++ (ConnectionImpl.new c2).2)
  if c1.options_.sslOptions.isAllow then
    match certFile with
    | none => (fail, c1, d.2)
    | some cf =>
      let c2 : Connection :=
        { c1 with sslTemporaryFiles_ := { c1.sslTemporaryFiles_ with
            certificate_ := sslTmpFilePath cf } }
      match keyFile with
      | none => (fail, c2, d.2)
      | some kf =>
        let c3 : Connection :=
          { c2 with sslTemporaryFiles_ := { c2.sslTemporaryFiles_ with
              key_ := sslTmpFilePath kf } }
        let named (c4 : Connection) : Connection :=
          if c4.options_.userName = "" then
            { c4 with options_ := { c4.options_ with userName := commonName } }
          else c4
        if c3.options_.sslOptions.trustedCertificatesPemData ≠ [] then
          match caFile with
          | none => (fail, c3, d.2)
          | some af =>
            construct (named { c3 with sslTemporaryFiles_ := { c3.sslTemporaryFiles_ with
              ca_ := sslTmpFilePath af } })
        else construct (named c3)
  else construct c1

/-- The lambda handed to `reconnectTimer_->restart` in `startReconnectTimer`. -/
def Connection.reconnectTimerCallback (c : Connection) : Connection × List Effect :=
  let c1 : Connection := { c with reconnectTimer_ := false }
  ({ c1 with connectionImpl_ := some (ConnectionImpl.new c1).1 }, (ConnectionImpl.new c1).2)

/-- The synchronous `Connection::execute(query, queryData, result)`. -/
def Connection.execute (c : Connection) (query : String) (queryData : Option QueryData)
    (result : Option Recordset) (r : Option PGresult) : Error × Option Recordset × List Effect :=
  let result1 : Option Recordset := result.map Recordset.clear
  match c.connectionImpl_ with
  | none => (MAKE_ERROR "Connection is currently disconnected", result1, [])
  | some impl => impl.execute query queryData result1 r

/-- The member `Connection::prepare(name, query, types)`. -/
def Connection.prepare (c : Connection) (name query : String) (types : Option (List Oid))
    (r : Option PGresult) (described : Option PGresult) : Error × Connection × List Effect :=
  match c.connectionImpl_ with
  | none => (MAKE_ERROR "Connection is currently disconnected", c, [])
  | some impl =>
    let p := impl.prepare name query types r described
    (p.1, { c with connectionImpl_ := some p.2.1 }, p.2.2)

/-- The asynchronous `Connection::execute(preparedName, queryData, handler,
requestId)`.  Without a state machine the untested `handler` is called here
(`callExecuteHandler`); otherwise the call is forwarded, and an exception of
the state machine's member passes through. -/
def Connection.executeAsync (c : Connection) (preparedName : String)
    (queryData : Option QueryData) (handler : ExecuteHandler) (requestId : RequestId)
    (rc : Int) (errorMessage : String) : Connection × List Effect :=
  match c.connectionImpl_ with
  | none =>
    (c, [callExecuteHandler handler (MAKE_ERROR "Connection is currently disconnected")
      none false])
  | some impl =>
    let p := impl.executeAsync c preparedName queryData handler requestId rc errorMessage
    ({ c with connectionImpl_ := some p.1 }, p.2)

/-! ## Operations on the facade and its state machine, as a transition system -/

/-- One operation: a call of a public member of the facade, a callback that
the event loop, a timer or the resolver delivers, or a member of the attached
state machine, each with its arguments and with the values its collaborators
hand back.  `closeCallback` is the callback of a requested `uv_close`; it
acts on the state machine that a teardown has detached and leaves the facade
alone. -/
inductive Op where
  | initialize_ (id : Nat) (options : Options) (hostIndex : Nat)
      (connectedHandler disconnectedHandler : Handler) (certFile keyFile caFile : Option Nat)
      (commonName : String) (r : Responses)
  | destroy
  | reconnectTimerCallback
  | connectTimerCallback (r : Responses)
  | dnsCallback (addresses : List String) (r : Responses)
  | connect (address : String) (r : Responses)
  | pollConnection (r : Responses)
  | pollConnectionCallback (status : Int) (events : Nat) (r : Responses)
  | pollCommands (events : Nat) (r : Responses)
  | pollCommandsCallback (status : Int) (events : Nat) (r : Responses)
  | execute (query : String) (queryData : Option QueryData) (result : Option Recordset)
      (r : Option PGresult)
  | prepare (name query : String) (types : Option (List Oid)) (r described : Option PGresult)
  | executeAsync (preparedName : String) (queryData : Option QueryData)
      (handler : ExecuteHandler) (requestId : RequestId) (rc : Int) (errorMessage : String)
  | finishRequest (error : Error) (result : Recordset)
  | disconnect
  | reconnect (error : Error) (r : Responses)
  | closeCallback
  deriving DecidableEq, Repr

/-- Runs a member of the attached state machine; without a state machine
nothing happens (no callback is delivered, and the facade has nothing to
forward to). -/
def Connection.onImpl (c : Connection)
    (f : ConnectionImpl → Connection → ConnectionImpl × Connection × List Effect) :
    Connection × List Effect :=
  match c.connectionImpl_ with
  | some impl => attach (f impl c)
  | none => (c, [])

/-- The effect of one operation on the facade, with the calls it makes. -/
def step (c : Connection) : Op → Connection × List Effect
  | Op.initialize_ id options hostIndex ch dh certFile keyFile caFile commonName r =>
    (c.initialize_ id options hostIndex ch dh certFile keyFile caFile commonName r).2
  | Op.destroy => c.destroy
  | Op.reconnectTimerCallback => c.reconnectTimerCallback
  | Op.connectTimerCallback r => c.onImpl (fun impl b => impl.connectTimerCallback b r)
  | Op.dnsCallback addresses r => c.onImpl (fun impl b => impl.dnsCallback b addresses r)
  | Op.connect address r => c.onImpl (fun impl b => impl.connect b address r)
  | Op.pollConnection r =>
    c.onImpl (fun impl b => ((impl.pollConnection b r).2.1, b, (impl.pollConnection b r).2.2))
  | Op.pollConnectionCallback status events r =>
    c.onImpl (fun impl b => impl.pollConnectionCallback b status events r)
  | Op.pollCommands events r =>
    c.onImpl (fun impl b => ((impl.pollCommands events r).2.1, b, (impl.pollCommands events r).2.2))
  | Op.pollCommandsCallback status events r =>
    c.onImpl (fun impl b => impl.pollCommandsCallback b status events r)
  | Op.execute query queryData result r => (c, (c.execute query queryData result r).2.2)
  | Op.prepare name query types r described => (c.prepare name query types r described).2
  | Op.executeAsync name queryData handler requestId rc errorMessage =>
    c.executeAsync name queryData handler requestId rc errorMessage
  | Op.finishRequest error result =>
    c.onImpl (fun impl b => ((impl.finishRequest error result).1, b,
      (impl.finishRequest error result).2))
  | Op.disconnect => c.onImpl (fun impl b => impl.disconnect b)
  | Op.reconnect error r => c.onImpl (fun impl b => impl.reconnect b error r)
  | Op.closeCallback => (c, ConnectionImpl.closeCallback)

/-- The facade after a sequence of operations, with the whole trace. -/
def run (c : Connection) : List Op → Connection × List Effect
  | [] => (c, [])
  | op :: ops => ((run (step c op).1 ops).1, (step c op).2 ++ (run (step c op).1 ops).2)

/-- The property P1 of one state machine: busy implies that the stored execute
handler is set and the stored request id is not `InvalidRequestId`. -/
def ConnectionImpl.Exclusive (self : ConnectionImpl) : Prop :=
  self.isBusy = true → self.executeHandler_.isSome = true ∧ self.requestId_ ≠ InvalidRequestId

/-- The property P1 of the state machine attached to a facade, if any. -/
def Connection.Exclusive (c : Connection) : Prop :=
  ∀ impl, c.connectionImpl_ = some impl → impl.Exclusive

/-- An asynchronous execute is called with a non-empty handler and a request
id other than `InvalidRequestId`; nothing is asked of other operations. -/
def Op.suppliesHandlerAndId : Op → Bool
  | Op.executeAsync _ _ handler requestId _ _ =>
    handler.isSome && decide (requestId ≠ InvalidRequestId)
  | _ => true

/-- Tells the invocations of an execute handler from the other calls. -/
def Effect.isExecuteHandler : Effect → Bool
  | Effect.executeHandler _ _ _ _ => true
  | _ => false

/-- The invocations of execute handlers in a trace. -/
def handlerCalls (trace : List Effect) : List Effect := trace.filter Effect.isExecuteHandler

/-- The command-poll events `(status, events, responses)` as operations. -/
def commandPolls (events : List (Int × Nat × Responses)) : List Op :=
  events.map (fun e => Op.pollCommandsCallback e.1 e.2.1 e.2.2)

/-- Relates a state machine to itself after a member has run: the request
in flight is the same as before, or there is none any more. -/
def Frame (a b : ConnectionImpl) : Prop :=
  b.isExecuting_ = false ∨
    (b.isExecuting_ = a.isExecuting_ ∧ b.executeHandler_ = a.executeHandler_ ∧
      b.requestId_ = a.requestId_)

/-- Relates a facade to itself after a member of its state machine has run:
the pointer to the state machine is as before, or null. -/
def BaseOk (c d : Connection) : Prop :=
  d.connectionImpl_ = none ∨ d.connectionImpl_ = c.connectionImpl_

/-- The four ways in which a command-poll notification fails the connection
before any request is completed: a negative poll status, a flush failure, a
consume-input failure, or a second result after a TUPLES_OK or COMMAND_OK
one. -/
def CommandPollFailure (status : Int) (events : Nat) (r : Responses) : Prop :=
  status < 0 ∨
  (0 ≤ status ∧ events &&& UV_WRITABLE ≠ 0 ∧ r.flushRc = -1) ∨
  (0 ≤ status ∧ ¬ (events &&& UV_WRITABLE ≠ 0 ∧ r.flushRc = -1) ∧
    events &&& UV_READABLE ≠ 0 ∧ r.consumeInput = false) ∨
  (0 ≤ status ∧ ¬ (events &&& UV_WRITABLE ≠ 0 ∧ r.flushRc = -1) ∧
    events &&& UV_READABLE ≠ 0 ∧ r.consumeInput = true ∧ r.isBusy = false ∧
    (PQresultStatus r.results.head? = ExecStatusType.PGRES_TUPLES_OK ∨
      PQresultStatus r.results.head? = ExecStatusType.PGRES_COMMAND_OK) ∧
    r.results.tail ≠ [])

/-- The completion that a command poll with the responses `r` hands to an
execute handler: the record set is the first result the library handed out
(empty only if it handed out none), and the error is either Success, that
result being the only one and of status TUPLES_OK or COMMAND_OK, or "Unable to
execute" followed by the library's message, the status of the record set being
neither. -/
def Completion (r : Responses) (e : Error) (res : Recordset) : Prop :=
  res = r.results.head? ∧
  ((e = Error.Success ∧
    ∃ p : PGresult, r.results = [p] ∧
      (p.status = ExecStatusType.PGRES_TUPLES_OK ∨ p.status = ExecStatusType.PGRES_COMMAND_OK)) ∨
  (e = MAKE_ERROR ("Unable to execute " ++ r.errorMessage) ∧
    PQresultStatus res ≠ ExecStatusType.PGRES_TUPLES_OK ∧
    PQresultStatus res ≠ ExecStatusType.PGRES_COMMAND_OK))

/-- Relates the handler `h` stored before a member runs to the handler `h2`
stored afterwards and to the calls made: no execute handler is invoked and
the stored handler stays, or the stored handler is invoked once, with the
connection argument `conn` and with an error and a record set that satisfy
`P`, and is cleared. -/
def CallsOk (P : Error → Recordset → Prop) (conn : Bool) (h h2 : ExecuteHandler)
    (trace : List Effect) : Prop :=
  (handlerCalls trace = [] ∧ h2 = h) ∨
  (h.isSome = true ∧ h2 = none ∧
    ∃ (e : Error) (res : Recordset),
      handlerCalls trace = [Effect.executeHandler h e res conn] ∧ P e res)

/-- The state machine attached to the facade, if any, stores the handler `h`
and has its back-reference set. -/
def Connection.Stores (c : Connection) (h : ExecuteHandler) : Prop :=
  ∀ impl, c.connectionImpl_ = some impl → impl.executeHandler_ = h ∧ impl.base_ = true

/-! ## Sample values (scenarios 1 to 3 of the specification) -/

/-- The options of the TLS-less scenario, with parameter checking enabled. -/
def sampleOptions : Options :=
  { hosts := ["h1"], port := 5432, databaseName := "", userName := "u", password := "p",
    connectTimeout := 5000, reconnectInterval := 1000, isAutoReconnect := false,
    isCheckQueryParameters := true,
    sslOptions := { isAllow := false, certificatePemData := "", privateKeyPemData := "",
                    trustedCertificatesPemData := [] } }

/-- A Connected, idle state machine whose cache holds `s1 -> [23]`. -/
def sampleImpl : ConnectionImpl :=
  { base_ := true, handle_ := true, dnsRequestId_ := false, fd_ := 5, pollHandle_ := true,
    eventmask_ := 3, state_ := State.Connected, executeHandler_ := none, isExecuting_ := false,
    requestId_ := InvalidRequestId, connectTimer_ := false,
    preparedStmtOids_ := [("s1", [23])] }

/-- The facade that owns `sampleImpl`. -/
def sampleBase : Connection :=
  { id_ := 1, options_ := sampleOptions, hostIndex_ := 0, connectedHandler_ := some 10,
    disconnectedHandler_ := some 11, connectionImpl_ := some sampleImpl,
    reconnectTimer_ := false,
    sslTemporaryFiles_ := { certificate_ := "", key_ := "", ca_ := "" },
    eventLoopRunning := true }

/-- One binary parameter `7` with declared type `t`. -/
def sampleParams (t : Oid) : QueryData :=
  { params := [{ value := [0, 0, 0, 7], length := 4, format := 1, type := t }] }

/-- The state machine of scenario 1 with an older cache: `s0 -> [20]` and a
stale entry `s1 -> [25, 1043]`. -/
def sampleStaleImpl : ConnectionImpl :=
  { sampleImpl with preparedStmtOids_ := [("s0", [20]), ("s1", [25, 1043])] }

/-- A COMMAND_OK result that describes the parameter OIDs `paramTypes`. -/
def sampleDescribed (paramTypes : List Oid) : PGresult :=
  { status := ExecStatusType.PGRES_COMMAND_OK, rows := [], errorMessage := "",
    paramTypes := paramTypes }

/-- A Connected state machine with the request `42` of handler `7` in flight. -/
def sampleBusyImpl : ConnectionImpl :=
  { sampleImpl with executeHandler_ := some 7, isExecuting_ := true,
                    requestId_ := RequestId.id 42 }

/-- The facade that owns `sampleBusyImpl`. -/
def sampleBusyBase : Connection := { sampleBase with connectionImpl_ := some sampleBusyImpl }

/-- A result object with the given status and rows. -/
def sampleResult (status : ExecStatusType) (rows : List (List String)) : PGresult :=
  { status := status, rows := rows, errorMessage := "ERROR: boom", paramTypes := [] }

/-- Responses of collaborators that all succeed: the handshake is complete,
nothing is left to flush and one COMMAND_OK result is ready. -/
def sampleResponses : Responses :=
  { errorMessage := "", timerRestartOk := true, connectStartOk := true,
    connectionStarted := true, socket := 4, dupFd := 5,
    connectPoll := PostgresPollingStatusType.PGRES_POLLING_OK, pollStartRc := 0,
    connectionOk := true, connectedHandlerResult := Error.Success, flushRc := 0,
    consumeInput := true, isBusy := false,
    results := [sampleResult ExecStatusType.PGRES_COMMAND_OK []] }

/-- Scenario 1 up to the Connected state: initialize, the resolver answers
with one address and the handshake asks to write, then completes. -/
def sampleConnectOps : List Op :=
  [Op.initialize_ 1 sampleOptions 0 (some 10) (some 11) none none none "" sampleResponses,
   Op.dnsCallback ["1.2.3.4"]
     { sampleResponses with connectPoll := PostgresPollingStatusType.PGRES_POLLING_WRITING },
   Op.pollConnectionCallback 0 2 sampleResponses]

/-- Scenario 1 followed by an asynchronous execute that is handed an empty
handler and `InvalidRequestId`, and that the library accepts. -/
def sampleUnsetOps : List Op :=
  sampleConnectOps ++ [Op.executeAsync "s1" none none InvalidRequestId 1 ""]

/-- Scenario 1 followed by the asynchronous execute of scenario 2. -/
def sampleExecuteOps : List Op :=
  sampleConnectOps ++ [Op.executeAsync "s1" (some (sampleParams 23)) (some 7) (RequestId.id 42) 1 ""]

/-- A readable notification on which the library hands out one FATAL_ERROR
result and reports the server's message. -/
def sampleErrorPoll : Int × Nat × Responses :=
  (0, 1, { sampleResponses with
    errorMessage := "ERROR: boom",
    results := [sampleResult ExecStatusType.PGRES_FATAL_ERROR []] })

/-- Tells the invocations of the disconnected handler from the other calls. -/
def Effect.isDisconnectedHandler : Effect → Bool
  | Effect.disconnectedHandler _ _ => true
  | _ => false

/-- Tells the requests to restart the reconnect timer from the other calls. -/
def Effect.isReconnectTimerRestart : Effect → Bool
  | Effect.reconnectTimerRestart _ => true
  | _ => false

/-- The facade of `sampleBase` with auto-reconnect enabled. -/
def sampleAutoBase : Connection :=
  { sampleBase with options_ := { sampleOptions with isAutoReconnect := true } }

/-- The facade of `sampleAutoBase` on an event loop that is not running. -/
def sampleStoppedBase : Connection := { sampleAutoBase with eventLoopRunning := false }

/-- The facade of `sampleBase` with no disconnected handler registered. -/
def sampleSilentBase : Connection := { sampleBase with disconnectedHandler_ := none }

/-- The facade of a TLS connection with a staged CA, a database name and the
three temporary files. -/
def sampleTlsBase : Connection :=
  { sampleBase with
    options_ := { sampleOptions with
      databaseName := "db",
      sslOptions := { isAllow := true, certificatePemData := "CERT", privateKeyPemData := "KEY",
                      trustedCertificatesPemData := ["CA"] } },
    sslTemporaryFiles_ := { certificate_ := sslTmpFilePath 7, key_ := sslTmpFilePath 8,
                            ca_ := sslTmpFilePath 9 } }

/-- Tells the two handshake polls of libpq from the other calls. -/
def Effect.isHandshakePoll : Effect → Bool
  | Effect.PQconnectPoll => true
  | Effect.PQresetPoll => true
  | _ => false

/-- An attached state machine in the handshake: Connecting, poll handle
allocated, connect timer running. -/
def sampleConnectingImpl : ConnectionImpl :=
  { sampleImpl with state_ := State.Connecting, eventmask_ := 0, connectTimer_ := true,
                    preparedStmtOids_ := [] }

/-- Responses of a completed handshake on which `uv_poll_start` fails. -/
def samplePollStartFailure : Responses :=
  { sampleResponses with pollStartRc := -22, errorMessage := "invalid argument" }

/-- A state machine after `finishRequest`: no request in flight. -/
def ConnectionImpl.cleared (self : ConnectionImpl) : ConnectionImpl :=
  { self with isExecuting_ := false, executeHandler_ := none, requestId_ := InvalidRequestId }

/-- The call of `PQflush` that a command-poll step makes first when the
writable bit is set. -/
def flushCall (events : Nat) : List Effect :=
  if events &&& UV_WRITABLE ≠ 0 then [Effect.PQflush] else []

/-- The invocation by which `finishRequest` completes the pending request, if
a handler is stored. -/
def completionCall (self : ConnectionImpl) (error : Error) (result : Recordset) : List Effect :=
  if self.executeHandler_.isSome = true then
    [Effect.executeHandler self.executeHandler_ error result self.base_]
  else []

/-- The responses of a notification on which everything is flushed and the
library hands out one FATAL_ERROR result. -/
def sampleErrorResponses : Responses := sampleErrorPoll.2.2

/-- Tells the five teardown events (poll stop, fd close, protocol finalize,
deletion of the poll handle, deletion of the state machine) from the other
calls. -/
def Effect.isTeardown : Effect → Bool
  | Effect.uvPollStop => true
  | Effect.closeFd _ => true
  | Effect.PQfinish => true
  | Effect.deletePoll => true
  | Effect.deleteThis => true
  | _ => false

/-- The teardown events of a trace, in the order made. -/
def teardownEvents (trace : List Effect) : List Effect := trace.filter Effect.isTeardown

/-- Tells the connect attempts (`PQconnectStartParams`) from the other calls. -/
def Effect.isConnectStart : Effect → Bool
  | Effect.PQconnectStartParams _ _ _ => true
  | _ => false

/-- A freshly constructed state machine of `sampleBase`: Connecting, the DNS
lookup pending. -/
def sampleFreshImpl : ConnectionImpl := (ConnectionImpl.new sampleBase).1

/-- The interest mask that a command-poll step computes: the stored mask
adjusted by the flush result, when the writable bit is set. -/
def computedMask (self : ConnectionImpl) (events : Nat) (r : Responses) : Nat :=
  if events &&& UV_WRITABLE ≠ 0 then
    if r.flushRc = 1 then self.eventmask_ ||| (UV_READABLE ||| UV_WRITABLE)
    else if r.flushRc = 0 then self.eventmask_ &&& complement32 UV_WRITABLE
    else self.eventmask_
  else self.eventmask_

/-- The branch of a command-poll step that completes the pending request with
an error: readable, input consumed, library not busy, first result neither
TUPLES_OK nor COMMAND_OK. -/
def ErrorResultBranch (events : Nat) (r : Responses) : Prop :=
  events &&& UV_READABLE ≠ 0 ∧ r.consumeInput = true ∧ r.isBusy = false ∧
    PQresultStatus r.results.head? ≠ ExecStatusType.PGRES_TUPLES_OK ∧
    PQresultStatus r.results.head? ≠ ExecStatusType.PGRES_COMMAND_OK

/-- Tells the calls of `uv_poll_start` from the other calls. -/
def Effect.isPollStart : Effect → Bool
  | Effect.uvPollStart _ _ => true
  | _ => false

/-- The condition under which the parameter check refuses a parameter set
against the cached OIDs: the counts differ, or some parameter has a non-zero
declared type other than the cached OID at its position. -/
def ParamMismatch (queryData : QueryData) (oids : List Oid) : Prop :=
  queryData.count ≠ oids.length ∨
    ∃ i, i < queryData.count ∧ i < oids.length ∧ queryData.types.getD i 0 ≠ 0 ∧
      queryData.types.getD i 0 ≠ oids.getD i 0

end Postgresql

/-! ## Container serializer (`serialize.c`)

A shallow embedding of `pack_layer_block_index_record` and
`unpack_layer_block_index_record`.  A buffer is the list of the bytes behind
the pointer; the write cursor `offset` is the number of bytes stored so far.
The field macros of `internal/serialize.h` and the checksum of
`internal/utility.h` are not part of the sources at hand and are parameters of
the embedding.
-/

namespace Serialize

/-- The primitives that `serialize.c` takes from `internal/serialize.h`
(`pack64`, `pack32`, `pack_bytes`, `unpack64`, `unpack32`, `unpack_bytes`) and
from `internal/utility.h` (`crc32c`).  A pack primitive gives the bytes it
stores at `offset` (the cursor advances by their number); an unpack primitive
gives the value it reads from the bytes of its field; `crc32c seed bytes` is
the checksum of a byte range. -/
structure Primitives where
  pack64 : Nat → List Nat
  pack32 : Nat → List Nat
  pack_bytes : List Nat → Nat → List Nat
  unpack64 : List Nat → Nat
  unpack32 : List Nat → Nat
  unpack_bytes : List Nat → Nat → List Nat
  crc32c : Nat → List Nat → Nat

/-- What the names of the primitives promise: a 64-bit field takes 8 bytes, a
32-bit field 4 bytes and a byte field `size` bytes; each unpack primitive reads
back what its pack primitive stored; `unpack32` and `crc32c` give 32-bit
values. -/
structure Primitives.Lawful (m : Primitives) : Prop where
  pack64_length : ∀ v, (m.pack64 v).length = 8
  pack32_length : ∀ v, (m.pack32 v).length = 4
  pack_bytes_length : ∀ src size, src.length = size → (m.pack_bytes src size).length = size
  unpack64_pack64 : ∀ v, v < 2 ^ 64 → m.unpack64 (m.pack64 v) = v
  unpack32_pack32 : ∀ v, v < 2 ^ 32 → m.unpack32 (m.pack32 v) = v
  unpack_bytes_pack_bytes : ∀ src size, src.length = size →
    m.unpack_bytes (m.pack_bytes src size) size = src
  unpack32_lt : ∀ bytes, m.unpack32 bytes < 2 ^ 32
  crc32c_lt : ∀ seed bytes, m.crc32c seed bytes < 2 ^ 32

/-- `pack_layer_block_index_record`: block id, key, iv, then the checksum of
everything stored so far (`uint32_t crc`, 0 when `buffer` is null).  `buffer`
tells whether the pointer is non-null; the result is the bytes stored from the
start of the buffer (none for a null buffer, which is only measured) and the
returned `offset - buffer`.  `cipher_key_size` and `cipher_iv_size` are the
fields of `layer->container`. -/
def pack_layer_block_index_record (m : Primitives) (buffer : Bool)
    (cipher_key_size cipher_iv_size : Nat) (block_id : Nat) (key iv : List Nat) :
    Option (List Nat) × Int :=
  let stored := m.pack64 block_id
  let stored := stored ++ m.pack_bytes key cipher_key_size
  let stored := stored ++ m.pack_bytes iv cipher_iv_size
  let crc := if buffer then m.crc32c 0 stored % 2 ^ 32 else 0
  let stored := stored ++ m.pack32 crc
  (if buffer then some stored else none, stored.length)

/-- `unpack_layer_block_index_record`: reads block id, key, iv and the stored
checksum, recomputes the checksum over the bytes before the last four read
(`offset - buffer - sizeof(uint32_t)`), and returns 0 when both agree and -1
otherwise; a null buffer returns -1.  The second component is what was
delivered through `block_id`, `key` and `iv` (delivered before the comparison,
so also when -1 is returned). -/
def unpack_layer_block_index_record (m : Primitives) (buffer : Option (List Nat))
    (cipher_key_size cipher_iv_size : Nat) : Int × Option (Nat × List Nat × List Nat) :=
  match buffer with
  | none => (-1, none)
  | some bytes =>
    let offset := 0
    let block_id := m.unpack64 ((bytes.drop offset).take 8)
    let offset := offset + 8
    let key := m.unpack_bytes ((bytes.drop offset).take cipher_key_size) cipher_key_size
    let offset := offset + cipher_key_size
    let iv := m.unpack_bytes ((bytes.drop offset).take cipher_iv_size) cipher_iv_size
    let offset := offset + cipher_iv_size
    let crc := m.unpack32 ((bytes.drop offset).take 4) % 2 ^ 32
    let offset := offset + 4
    let real_crc := m.crc32c 0 (bytes.take (offset - 4)) % 2 ^ 32
    if real_crc = crc then (0, some (block_id, key, iv)) else (-1, some (block_id, key, iv))

/-- One bit of the reflected CRC-32C (Castagnoli) division. -/
def sampleCrcStep (crc : Nat) : Nat :=
  if crc % 2 = 1 then (crc / 2) ^^^ 0x82F63B78 else crc / 2

/-- A sample checksum: bitwise CRC-32C, eight division steps per byte. -/
def sampleCrc32c (seed : Nat) (bytes : List Nat) : Nat :=
  (bytes.foldl (fun crc b => sampleCrcStep^[8] (crc ^^^ (b % 256))) (seed ^^^ 0xFFFFFFFF)
    ^^^ 0xFFFFFFFF) % 2 ^ 32

/-- A sample `pack64`: the eight bytes of the value, most significant first. -/
def samplePack64 (v : Nat) : List Nat :=
  [v / 2 ^ 56 % 256, v / 2 ^ 48 % 256, v / 2 ^ 40 % 256, v / 2 ^ 32 % 256,
   v / 2 ^ 24 % 256, v / 2 ^ 16 % 256, v / 2 ^ 8 % 256, v % 256]

/-- A sample `pack32`: the four bytes of the value, most significant first. -/
def samplePack32 (v : Nat) : List Nat :=
  [v / 2 ^ 24 % 256, v / 2 ^ 16 % 256, v / 2 ^ 8 % 256, v % 256]

/-- A sample `unpack64`, reading most significant byte first. -/
def sampleUnpack64 (bytes : List Nat) : Nat :=
  bytes.foldl (fun acc b => acc * 256 + b % 256) 0 % 2 ^ 64

/-- A sample `unpack32`, reading most significant byte first. -/
def sampleUnpack32 (bytes : List Nat) : Nat :=
  bytes.foldl (fun acc b => acc * 256 + b % 256) 0 % 2 ^ 32

/-- Sample primitives: big-endian integers, byte fields copied as they are,
and the bitwise CRC-32C. -/
def samplePrimitives : Primitives where
  pack64 := samplePack64
  pack32 := samplePack32
  pack_bytes := fun src size => src.take size
  unpack64 := sampleUnpack64
  unpack32 := sampleUnpack32
  unpack_bytes := fun src size => src.take size
  crc32c := sampleCrc32c

/-- A two-byte sample key. -/
def sampleKey : List Nat := [0xAA, 0xBB]

/-- A three-byte sample iv. -/
def sampleIv : List Nat := [1, 2, 3]

/-- The record that the sample primitives store for block 0x0102030405060708
with `sampleKey` and `sampleIv`. -/
def sampleRecord : List Nat :=
  [1, 2, 3, 4, 5, 6, 7, 8, 0xAA, 0xBB, 1, 2, 3, 60, 146, 137, 234]

/-- The 13 bytes before the checksum of `sampleRecord`, with the last byte of
the block id changed from 8 to 9. -/
def sampleChangedBody : List Nat := [1, 2, 3, 4, 5, 6, 7, 9, 0xAA, 0xBB, 1, 2, 3]

end Serialize

namespace Postgresql

/-! ## Theorems -/

theorem find?_range_eq_none (p : Nat → Bool) (n : Nat) :
    (List.range n).find? p = none ↔ ∀ j, j < n → p j = false := by
  simp [List.find?_eq_none]

theorem find?_range_eq_some (p : Nat → Bool) (n i : Nat) :
    (List.range n).find? p = some i ↔ i < n ∧ p i = true ∧ ∀ j, j < i → p j = false := by
  induction n generalizing i with
  | zero => simp
  | succ n ih =>
    rw [List.range_succ, List.find?_append]
    cases h : (List.range n).find? p with
    | some k =>
      have hk := (ih k).mp h
      constructor
      · intro e
        simp at e
        subst e
        exact ⟨by omega, hk.2⟩
      · rintro ⟨_, hpi, hmin⟩
        simp
        rcases Nat.lt_trichotomy k i with hlt | heq | hgt
        · have := hmin k hlt
          simp [hk.2.1] at this
        · exact heq
        · have := hk.2.2 i hgt
          simp [hpi] at this
    | none =>
      have hn := (find?_range_eq_none p n).mp h
      simp only [Option.none_or, List.find?_cons, List.find?_nil]
      constructor
      · intro e
        by_cases hp : p n = true
        · simp [hp] at e
          subst e
          exact ⟨by omega, hp, fun j hj => hn j hj⟩
        · simp [hp] at e
      · rintro ⟨hi, hpi, hmin⟩
        have : i = n := by
          by_contra hne
          have := hn i (by omega)
          simp [hpi] at this
        subst this
        simp [hpi]

theorem oidMismatchAt_eq_true (types oids : List Oid) (i : Nat) :
    oidMismatchAt types oids i = true ↔ types.getD i 0 ≠ 0 ∧ types.getD i 0 ≠ oids.getD i 0 := by
  simp only [oidMismatchAt, Bool.and_eq_true, bne_iff_ne, ne_eq]
  constructor
  · rintro ⟨h1, h2⟩
    exact ⟨h1, fun h => h2 h.symm⟩
  · rintro ⟨h1, h2⟩
    exact ⟨h1, fun h => h2 h.symm⟩

theorem oidMismatchAt_eq_false (types oids : List Oid) (i : Nat) :
    oidMismatchAt types oids i = false ↔ ¬ (types.getD i 0 ≠ 0 ∧ types.getD i 0 ≠ oids.getD i 0) := by
  rw [← oidMismatchAt_eq_true]
  simp

theorem checkOids_eq_none_iff (self : ConnectionImpl) (base : Connection) (name : String)
    (qd : QueryData) (oids : List Oid)
    (hc : base.options_.isCheckQueryParameters = true)
    (hf : oidsFind self.preparedStmtOids_ name = some oids) :
    checkOids self base name qd = none ↔ ¬ ParamMismatch qd oids := by
  unfold checkOids ParamMismatch
  simp only [hc, hf, if_true]
  by_cases hcount : qd.count = oids.length
  · simp only [hcount, ne_eq, not_true_eq_false, if_false, false_or]
    cases hfm : firstOidMismatch qd.types oids with
    | some i =>
      have := (find?_range_eq_some _ _ _).mp hfm
      constructor
      · intro h
        cases h
      · intro h
        exact absurd ⟨i, this.1, this.1, (oidMismatchAt_eq_true _ _ _).mp this.2.1⟩ h
    | none =>
      have hn := (find?_range_eq_none _ _).mp hfm
      refine ⟨fun _ => ?_, fun _ => rfl⟩
      rintro ⟨i, hi, _, hne⟩
      exact (oidMismatchAt_eq_false _ _ _).mp (hn i hi) hne
  · simp [hcount]

theorem checkOids_isFail (self : ConnectionImpl) (base : Connection) (name : String)
    (qd : QueryData) (e : Error) (h : checkOids self base name qd = some e) :
    e.isFail = true := by
  unfold checkOids at h
  split at h
  · split at h
    · split at h
      · cases h; rfl
      · split at h
        · cases h; rfl
        · cases h
    · cases h
  · cases h

theorem callExecuteHandler_some (handler : ExecuteHandler) (error : Error) (result : Recordset)
    (connection : Bool) (hh : handler.isSome = true) :
    callExecuteHandler handler error result connection
      = Effect.executeHandler handler error result connection := by
  unfold callExecuteHandler
  rw [if_pos hh]

theorem callExecuteHandler_none (error : Error) (result : Recordset) (connection : Bool) :
    callExecuteHandler none error result connection = Effect.badFunctionCall := rfl

/-- C1: on a Connected, non-busy state machine with checkQueryParameters
enabled and a prepared name found in the OID cache, the asynchronous execute
with a non-null parameter set and a non-empty handler rejects the call
through the handler, leaving
the state machine as it was and sending nothing, if and only if the parameter
count differs from the cached OID count or some parameter has a non-zero
declared type other than the cached OID at its position; in every other case
the first thing it does is to send the query. -/
theorem executeAsync_rejects_iff_mismatch (self : ConnectionImpl) (base : Connection)
    (name : String) (qd : QueryData) (handler : ExecuteHandler) (requestId : RequestId)
    (rc : Int) (errorMessage : String) (oids : List Oid)
    (hs : self.state_ = State.Connected) (hb : self.isBusy = false)
    (hc : base.options_.isCheckQueryParameters = true)
    (hf : oidsFind self.preparedStmtOids_ name = some oids)
    (hh : handler.isSome = true) :
    ((∃ e : Error, e.isFail = true ∧
        self.executeAsync base name (some qd) handler requestId rc errorMessage
          = (self, [Effect.executeHandler handler e none self.base_]))
      ↔ ParamMismatch qd oids) ∧
    (¬ ParamMismatch qd oids →
      (self.executeAsync base name (some qd) handler requestId rc errorMessage).2.head?
        = some (Effect.PQsendQueryPrepared name qd.values.length qd.values qd.lengths
            qd.formats 1)) := by
  have hnone := checkOids_eq_none_iff self base name qd oids hc hf
  unfold ConnectionImpl.executeAsync
  simp only [hs, hb, ne_eq, not_true_eq_false, if_false, Bool.false_eq_true,
    callExecuteHandler_some _ _ _ _ hh]
  cases hchk : checkOids self base name qd with
  | some e =>
    have hm : ParamMismatch qd oids := by
      by_contra hcon
      rw [hnone.mpr hcon] at hchk
      cases hchk
    refine ⟨⟨fun _ => hm, fun _ => ⟨e, checkOids_isFail _ _ _ _ _ hchk, rfl⟩⟩, fun h => absurd hm h⟩
  | none =>
    have hm : ¬ ParamMismatch qd oids := hnone.mp hchk
    refine ⟨⟨?_, fun h => absurd h hm⟩, fun _ => ?_⟩
    · rintro ⟨e, _, he⟩
      exfalso
      by_cases hrc : rc = 0
      · simp [hrc] at he
      · simp [hrc] at he
    · by_cases hrc : rc = 0
      · simp [hrc]
      · simp [hrc]

/-- Witness for C1: scenario 3, the cache holds `s1 -> [23]` and the parameter is
declared with type 25. -/
theorem executeAsync_rejects_iff_mismatch_witness :
    ((∃ e : Error, e.isFail = true ∧
        sampleImpl.executeAsync sampleBase "s1" (some (sampleParams 25)) (some 1)
            (RequestId.id 42) 1 ""
          = (sampleImpl, [Effect.executeHandler (some 1) e none sampleImpl.base_]))
      ↔ ParamMismatch (sampleParams 25) [23]) ∧
    (¬ ParamMismatch (sampleParams 25) [23] →
      (sampleImpl.executeAsync sampleBase "s1" (some (sampleParams 25)) (some 1)
          (RequestId.id 42) 1 "").2.head?
        = some (Effect.PQsendQueryPrepared "s1" (sampleParams 25).values.length
            (sampleParams 25).values (sampleParams 25).lengths (sampleParams 25).formats 1)) :=
  executeAsync_rejects_iff_mismatch sampleImpl sampleBase "s1" (sampleParams 25) (some 1)
    (RequestId.id 42) 1 "" [23] (by decide) (by decide) (by decide) (by decide) (by decide)

theorem fmtD_of_lt (n : Nat) (h : n < 2 ^ 31) : fmtD n = toString n := by
  have h1 : n % 2 ^ 32 = n := Nat.mod_eq_of_lt (by omega)
  simp only [fmtD, h1, h, if_true]

/-- C2 (as stated, refuted): in scenario 3 the handler does not receive the
message "wrong parameter type 25 for parameter 0. Must be 23."; the message
built by the code starts with a capital letter. -/
theorem executeAsync_wrong_type_counterexample :
    sampleImpl.state_ = State.Connected ∧ sampleImpl.isBusy = false ∧
    sampleBase.options_.isCheckQueryParameters = true ∧
    oidsFind sampleImpl.preparedStmtOids_ "s1" = some [23] ∧
    (sampleParams 25).count = [23].length ∧
    (sampleParams 25).types = [25] ∧
    (sampleImpl.executeAsync sampleBase "s1" (some (sampleParams 25)) (some 1)
        (RequestId.id 42) 1 "").2
      = [Effect.executeHandler (some 1)
          (Error.Fail "Wrong parameter type 25 for parameter 0. Must be 23.") none true] ∧
    (sampleImpl.executeAsync sampleBase "s1" (some (sampleParams 25)) (some 1)
        (RequestId.id 42) 1 "").2
      ≠ [Effect.executeHandler (some 1)
          (Error.Fail "wrong parameter type 25 for parameter 0. Must be 23.") none true] := by
  decide

/-- C2 (amended): on a Connected, non-busy state machine with
checkQueryParameters enabled and a cached prepared name whose OID count equals
the parameter count, if some parameter has a non-zero declared type other than
the cached OID, the asynchronous execute with a non-empty handler leaves the
state machine as it was and does nothing but invoke the handler once, with an
empty result and the
error "Wrong parameter type k for parameter i. Must be j.", where i is the
smallest offending index, k the declared type at i and j the cached OID at i,
each printed by a `%d` conversion, which is its decimal form when the number
is below 2^31. -/
theorem executeAsync_wrong_type (self : ConnectionImpl) (base : Connection)
    (name : String) (qd : QueryData) (handler : ExecuteHandler) (requestId : RequestId)
    (rc : Int) (errorMessage : String) (oids : List Oid)
    (hs : self.state_ = State.Connected) (hb : self.isBusy = false)
    (hc : base.options_.isCheckQueryParameters = true)
    (hf : oidsFind self.preparedStmtOids_ name = some oids)
    (hcount : qd.count = oids.length)
    (hex : ∃ i, i < oids.length ∧ qd.types.getD i 0 ≠ 0 ∧ qd.types.getD i 0 ≠ oids.getD i 0)
    (hh : handler.isSome = true) :
    ∃ i, i < oids.length ∧
      (qd.types.getD i 0 ≠ 0 ∧ qd.types.getD i 0 ≠ oids.getD i 0) ∧
      (∀ j, j < i → ¬ (qd.types.getD j 0 ≠ 0 ∧ qd.types.getD j 0 ≠ oids.getD j 0)) ∧
      self.executeAsync base name (some qd) handler requestId rc errorMessage
        = (self, [Effect.executeHandler handler
            (Error.Fail ("Wrong parameter type " ++ fmtD (qd.types.getD i 0)
              ++ " for parameter " ++ fmtD i ++ ". Must be " ++ fmtD (oids.getD i 0) ++ "."))
            none self.base_]) ∧
      (qd.types.getD i 0 < 2 ^ 31 → i < 2 ^ 31 → oids.getD i 0 < 2 ^ 31 →
        self.executeAsync base name (some qd) handler requestId rc errorMessage
          = (self, [Effect.executeHandler handler
              (Error.Fail ("Wrong parameter type " ++ toString (qd.types.getD i 0)
                ++ " for parameter " ++ toString i ++ ". Must be "
                ++ toString (oids.getD i 0) ++ "."))
              none self.base_])) := by
  cases hfm : firstOidMismatch qd.types oids with
  | none =>
    exfalso
    obtain ⟨i, hi, hne⟩ := hex
    have hn := (find?_range_eq_none _ _).mp hfm
    exact (oidMismatchAt_eq_false _ _ _).mp (hn i hi) hne
  | some i =>
    have hi := (find?_range_eq_some _ _ _).mp hfm
    have hout : self.executeAsync base name (some qd) handler requestId rc errorMessage
        = (self, [Effect.executeHandler handler
            (Error.Fail ("Wrong parameter type " ++ fmtD (qd.types.getD i 0)
              ++ " for parameter " ++ fmtD i ++ ". Must be " ++ fmtD (oids.getD i 0) ++ "."))
            none self.base_]) := by
      unfold ConnectionImpl.executeAsync checkOids
      simp [hs, hb, hc, hf, hcount, hfm, MAKE_ERROR, callExecuteHandler_some _ _ _ _ hh]
    refine ⟨i, hi.1, (oidMismatchAt_eq_true _ _ _).mp hi.2.1,
      fun j hj => (oidMismatchAt_eq_false _ _ _).mp (hi.2.2 j hj), hout, ?_⟩
    intro hk hilt hj
    rw [hout, fmtD_of_lt _ hk, fmtD_of_lt _ hilt, fmtD_of_lt _ hj]

/-- Witness for C2 (amended): scenario 3. -/
theorem executeAsync_wrong_type_witness :
    ∃ i, i < [23].length ∧
      ((sampleParams 25).types.getD i 0 ≠ 0 ∧ (sampleParams 25).types.getD i 0 ≠ [23].getD i 0) ∧
      (∀ j, j < i → ¬ ((sampleParams 25).types.getD j 0 ≠ 0 ∧
        (sampleParams 25).types.getD j 0 ≠ [23].getD j 0)) ∧
      sampleImpl.executeAsync sampleBase "s1" (some (sampleParams 25)) (some 1)
          (RequestId.id 42) 1 ""
        = (sampleImpl, [Effect.executeHandler (some 1)
            (Error.Fail ("Wrong parameter type " ++ fmtD ((sampleParams 25).types.getD i 0)
              ++ " for parameter " ++ fmtD i ++ ". Must be " ++ fmtD ([23].getD i 0) ++ "."))
            none sampleImpl.base_]) ∧
      ((sampleParams 25).types.getD i 0 < 2 ^ 31 → i < 2 ^ 31 → [23].getD i 0 < 2 ^ 31 →
        sampleImpl.executeAsync sampleBase "s1" (some (sampleParams 25)) (some 1)
            (RequestId.id 42) 1 ""
          = (sampleImpl, [Effect.executeHandler (some 1)
              (Error.Fail ("Wrong parameter type " ++ toString ((sampleParams 25).types.getD i 0)
                ++ " for parameter " ++ toString i ++ ". Must be "
                ++ toString ([23].getD i 0) ++ "."))
              none sampleImpl.base_])) :=
  executeAsync_wrong_type sampleImpl sampleBase "s1" (sampleParams 25) (some 1)
    (RequestId.id 42) 1 "" [23] (by decide) (by decide) (by decide) (by decide) (by decide)
    ⟨0, by decide, by decide, by decide⟩ (by decide)

theorem oidsFind_insertOrAssign_self (m : List (String × List Oid)) (name : String)
    (oids : List Oid) : oidsFind (oidsInsertOrAssign m name oids) name = some oids := by
  induction m with
  | nil => simp [oidsInsertOrAssign, oidsFind]
  | cons kv rest ih =>
    obtain ⟨k, v⟩ := kv
    by_cases hk : k = name
    · simp [oidsInsertOrAssign, oidsFind, hk]
    · simp [oidsInsertOrAssign, oidsFind, hk, ih]

theorem oidsFind_insertOrAssign_other (m : List (String × List Oid)) (name other : String)
    (oids : List Oid) (hne : other ≠ name) :
    oidsFind (oidsInsertOrAssign m name oids) other = oidsFind m other := by
  induction m with
  | nil =>
    have : ¬ name = other := fun h => hne h.symm
    simp [oidsInsertOrAssign, oidsFind, this]
  | cons kv rest ih =>
    obtain ⟨k, v⟩ := kv
    by_cases hk : k = name
    · have : ¬ name = other := fun h => hne h.symm
      simp [oidsInsertOrAssign, oidsFind, hk, this]
    · by_cases hko : k = other
      · subst hko
        simp [oidsInsertOrAssign, oidsFind, hne]
      · simp [oidsInsertOrAssign, oidsFind, hk, hko, ih]

theorem executeAsync_rejected_iff_checked (self : ConnectionImpl) (base : Connection)
    (name : String) (qd : QueryData) (handler : ExecuteHandler) (requestId : RequestId)
    (rc : Int) (errorMessage : String)
    (hs : self.state_ = State.Connected) (hb : self.isBusy = false)
    (hh : handler.isSome = true) :
    (∃ e : Error, e.isFail = true ∧
        self.executeAsync base name (some qd) handler requestId rc errorMessage
          = (self, [Effect.executeHandler handler e none self.base_]))
      ↔ checkOids self base name qd ≠ none := by
  unfold ConnectionImpl.executeAsync
  simp only [hs, hb, ne_eq, not_true_eq_false, if_false, Bool.false_eq_true,
    callExecuteHandler_some _ _ _ _ hh]
  cases hchk : checkOids self base name qd with
  | some e =>
    simp only [reduceCtorEq, not_false_eq_true, iff_true]
    exact ⟨e, checkOids_isFail _ _ _ _ _ hchk, rfl⟩
  | none =>
    simp only [not_true_eq_false, iff_false]
    rintro ⟨e, _, he⟩
    by_cases hrc : rc = 0
    · simp [hrc] at he
    · simp [hrc] at he

/-- C3: when `PQprepare` returns COMMAND_OK and the describe issued after it
returns COMMAND_OK with parameter OIDs D, prepare succeeds whatever the client
type list is, the OID cache afterwards maps the name to exactly D (whatever it
held for the name before), every other name is looked up as before, and a
following asynchronous execute of the name with checkQueryParameters enabled
and a non-empty handler is rejected through the handler exactly on a mismatch
with D. -/
theorem prepare_caches_described_oids (self : ConnectionImpl) (name query : String)
    (types : Option (List Oid)) (r described : Option PGresult) (D : List Oid)
    (hs : self.state_ = State.Connected) (hb : self.isBusy = false)
    (hr : PQresultStatus r = ExecStatusType.PGRES_COMMAND_OK)
    (hd : PQresultStatus described = ExecStatusType.PGRES_COMMAND_OK)
    (hD : PQparamtypes described = D) :
    (self.prepare name query types r described).1 = Error.Success ∧
    oidsFind (self.prepare name query types r described).2.1.preparedStmtOids_ name = some D ∧
    (∀ other : String, other ≠ name →
      oidsFind (self.prepare name query types r described).2.1.preparedStmtOids_ other
        = oidsFind self.preparedStmtOids_ other) ∧
    (∀ (base : Connection) (qd : QueryData) (handler : ExecuteHandler) (requestId : RequestId)
        (rc : Int) (errorMessage : String),
      base.options_.isCheckQueryParameters = true → handler.isSome = true →
      ((∃ e : Error, e.isFail = true ∧
          (self.prepare name query types r described).2.1.executeAsync base name (some qd)
              handler requestId rc errorMessage
            = ((self.prepare name query types r described).2.1,
                [Effect.executeHandler handler e none
                  (self.prepare name query types r described).2.1.base_]))
        ↔ ParamMismatch qd D)) := by
  have hp : self.prepare name query types r described
      = (Error.Success,
          { self with preparedStmtOids_ := oidsInsertOrAssign self.preparedStmtOids_ name D },
          [(match types with
            | some ts => Effect.PQprepare name query ts.length ts
            | none => Effect.PQprepare name query 0 []),
           Effect.PQdescribePrepared name, Effect.PQclear]) := by
    cases r with
    | none => simp [PQresultStatus] at hr
    | some res =>
      unfold ConnectionImpl.prepare
      simp [hs, hb, hr, hd, hD]
  rw [hp]
  refine ⟨rfl, oidsFind_insertOrAssign_self _ _ _,
    fun other hne => oidsFind_insertOrAssign_other _ _ _ _ hne, ?_⟩
  intro base qd handler requestId rc errorMessage hc hh
  dsimp only
  rw [executeAsync_rejected_iff_checked
    { self with preparedStmtOids_ := oidsInsertOrAssign self.preparedStmtOids_ name D }
    base name qd handler requestId rc errorMessage hs hb hh]
  have := checkOids_eq_none_iff
    { self with preparedStmtOids_ := oidsInsertOrAssign self.preparedStmtOids_ name D }
    base name qd D hc (oidsFind_insertOrAssign_self _ _ _)
  constructor
  · intro h
    by_contra hcon
    exact h (this.mpr hcon)
  · intro h hnone
    exact (this.mp hnone) h

/-- Witness for C3: the cache holds `s0 -> [20]` and a stale `s1 -> [25, 1043]`;
`s1` is prepared again with the client type list `[25]` and the server
describes `[23]`.  The entry of `s1` is replaced by `[23]`, `s0` is looked up
as before, and an execute that declares type 25, the type of the client list,
is rejected. -/
theorem prepare_caches_described_oids_witness :
    (oidsFind sampleStaleImpl.preparedStmtOids_ "s1" = some [25, 1043] ∧
      (sampleStaleImpl.prepare "s1" "SELECT $1::int" (some [25])
          (some (sampleDescribed [])) (some (sampleDescribed [23]))).2.1.preparedStmtOids_
        = [("s0", [20]), ("s1", [23])] ∧
      (sampleStaleImpl.prepare "s1" "SELECT $1::int" (some [25])
          (some (sampleDescribed [])) (some (sampleDescribed [23]))).2.1.executeAsync sampleBase
          "s1" (some (sampleParams 25)) (some 1) (RequestId.id 42) 1 ""
        = ((sampleStaleImpl.prepare "s1" "SELECT $1::int" (some [25])
              (some (sampleDescribed [])) (some (sampleDescribed [23]))).2.1,
            [Effect.executeHandler (some 1)
              (Error.Fail "Wrong parameter type 25 for parameter 0. Must be 23.") none true])) ∧
    (sampleStaleImpl.prepare "s1" "SELECT $1::int" (some [25])
        (some (sampleDescribed [])) (some (sampleDescribed [23]))).1 = Error.Success ∧
    oidsFind (sampleStaleImpl.prepare "s1" "SELECT $1::int" (some [25])
        (some (sampleDescribed [])) (some (sampleDescribed [23]))).2.1.preparedStmtOids_ "s1"
      = some [23] ∧
    oidsFind (sampleStaleImpl.prepare "s1" "SELECT $1::int" (some [25])
        (some (sampleDescribed [])) (some (sampleDescribed [23]))).2.1.preparedStmtOids_ "s0"
      = oidsFind sampleStaleImpl.preparedStmtOids_ "s0" :=
  ⟨by decide,
   (prepare_caches_described_oids sampleStaleImpl "s1" "SELECT $1::int" (some [25])
      (some (sampleDescribed [])) (some (sampleDescribed [23]))
      [23] (by decide) (by decide) (by decide) (by decide) (by decide)).1,
   (prepare_caches_described_oids sampleStaleImpl "s1" "SELECT $1::int" (some [25])
      (some (sampleDescribed [])) (some (sampleDescribed [23]))
      [23] (by decide) (by decide) (by decide) (by decide) (by decide)).2.1,
   (prepare_caches_described_oids sampleStaleImpl "s1" "SELECT $1::int" (some [25])
      (some (sampleDescribed [])) (some (sampleDescribed [23]))
      [23] (by decide) (by decide) (by decide) (by decide) (by decide)).2.2.1 "s0" (by decide)⟩

/-- C4: an asynchronous execute with a non-empty handler whose precondition
fails (no state machine attached, state machine not Connected, or state
machine busy) leaves the facade and its state machine exactly as they were
(busy flag, stored handler and stored request id included) and does nothing
but invoke the supplied handler once, with an empty result and the error
"Connection is currently disconnected", respectively "Connection is busy";
nothing is sent. -/
theorem executeAsync_precondition_failure (c : Connection) (name : String)
    (queryData : Option QueryData) (handler : ExecuteHandler) (requestId : RequestId)
    (rc : Int) (errorMessage : String) (hh : handler.isSome = true) :
    (c.connectionImpl_ = none →
      c.executeAsync name queryData handler requestId rc errorMessage
        = (c, [Effect.executeHandler handler
            (Error.Fail "Connection is currently disconnected") none false])) ∧
    (∀ impl, c.connectionImpl_ = some impl → impl.state_ ≠ State.Connected →
      c.executeAsync name queryData handler requestId rc errorMessage
        = (c, [Effect.executeHandler handler
            (Error.Fail "Connection is currently disconnected") none impl.base_])) ∧
    (∀ impl, c.connectionImpl_ = some impl → impl.state_ = State.Connected →
      impl.isBusy = true →
      c.executeAsync name queryData handler requestId rc errorMessage
        = (c, [Effect.executeHandler handler (Error.Fail "Connection is busy") none
            impl.base_])) := by
  refine ⟨?_, ?_, ?_⟩
  · intro h
    simp [Connection.executeAsync, h, MAKE_ERROR, callExecuteHandler_some _ _ _ _ hh]
  · intro impl h hs
    cases c
    simp only at h
    subst h
    simp [Connection.executeAsync, ConnectionImpl.executeAsync, hs, MAKE_ERROR,
      callExecuteHandler_some _ _ _ _ hh]
  · intro impl h hs hb
    cases c
    simp only at h
    subst h
    simp [Connection.executeAsync, ConnectionImpl.executeAsync, hs, hb, MAKE_ERROR,
      callExecuteHandler_some _ _ _ _ hh]

/-- Witness for C4: a second request while request 42 is in flight. -/
theorem executeAsync_precondition_failure_witness :
    sampleBusyBase.executeAsync "s1" none (some 8) (RequestId.id 43) 1 ""
      = (sampleBusyBase, [Effect.executeHandler (some 8) (Error.Fail "Connection is busy") none
          sampleBusyImpl.base_]) :=
  (executeAsync_precondition_failure sampleBusyBase "s1" none (some 8) (RequestId.id 43) 1 ""
    (by decide)).2.2 sampleBusyImpl rfl (by decide) (by decide)

/-- With an empty handler every rejection of the asynchronous execute (state
machine not Connected, busy, parameter check failed, or query not taken by the
library) ends in `std::bad_function_call`: no handler is invoked and the state
machine is as it was. -/
theorem executeAsync_empty_handler (self : ConnectionImpl) (base : Connection) (name : String)
    (queryData : Option QueryData) (requestId : RequestId) (rc : Int) (errorMessage : String)
    (hrej : self.state_ ≠ State.Connected ∨ self.isBusy = true ∨
      (∃ qd, queryData = some qd ∧ checkOids self base name qd ≠ none) ∨ rc = 0) :
    (self.executeAsync base name queryData none requestId rc errorMessage).1 = self ∧
    (self.executeAsync base name queryData none requestId rc errorMessage).2.getLast?
      = some Effect.badFunctionCall ∧
    ∀ eff ∈ (self.executeAsync base name queryData none requestId rc errorMessage).2,
      eff.isExecuteHandler = false := by
  unfold ConnectionImpl.executeAsync
  by_cases hs : self.state_ ≠ State.Connected
  · rw [if_pos hs]
    simp [callExecuteHandler_none, Effect.isExecuteHandler]
  · rw [if_neg hs]
    by_cases hb : self.isBusy = true
    · rw [if_pos hb]
      simp [callExecuteHandler_none, Effect.isExecuteHandler]
    · rw [if_neg hb]
      cases hq : queryData with
      | none =>
        have hrc : rc = 0 := by
          rcases hrej with h | h | ⟨qd, h, _⟩ | h
          · exact absurd h hs
          · exact absurd h hb
          · rw [hq] at h
            cases h
          · exact h
        simp [hrc, callExecuteHandler_none, Effect.isExecuteHandler]
      | some qd =>
        cases hchk : checkOids self base name qd with
        | some e => simp [hchk, callExecuteHandler_none, Effect.isExecuteHandler]
        | none =>
          have hrc : rc = 0 := by
            rcases hrej with h | h | ⟨qd2, h, h2⟩ | h
            · exact absurd h hs
            · exact absurd h hb
            · rw [hq] at h
              simp only [Option.some.injEq] at h
              subst h
              exact absurd hchk h2
            · exact h
          simp [hchk, hrc, callExecuteHandler_none, Effect.isExecuteHandler]

/-- C5: the synchronous execute and prepare, called with no state machine
attached or with a state machine that is not Connected, return the failing
error "Connection is currently disconnected", and called on a Connected busy
state machine return the failing error "Connection is busy"; in both cases
they call nothing and prepare leaves the facade with its state machine (OID
cache and in-flight request included) as it was, the synchronous execute
having no access to them at all.  On a Connected, non-busy state machine the
query is issued: `PQexecParams` respectively `PQprepare` is called first. -/
theorem sync_precondition (c : Connection) (query name : String)
    (queryData : Option QueryData) (result : Option Recordset) (types : Option (List Oid))
    (r described : Option PGresult) :
    ((c.connectionImpl_ = none ∨
        ∃ impl, c.connectionImpl_ = some impl ∧ impl.state_ ≠ State.Connected) →
      c.execute query queryData result r
        = (Error.Fail "Connection is currently disconnected", result.map Recordset.clear, []) ∧
      c.prepare name query types r described
        = (Error.Fail "Connection is currently disconnected", c, [])) ∧
    ((∃ impl, c.connectionImpl_ = some impl ∧ impl.state_ = State.Connected ∧
        impl.isBusy = true) →
      c.execute query queryData result r
        = (Error.Fail "Connection is busy", result.map Recordset.clear, []) ∧
      c.prepare name query types r described = (Error.Fail "Connection is busy", c, [])) ∧
    ((∃ impl, c.connectionImpl_ = some impl ∧ impl.state_ = State.Connected ∧
        impl.isBusy = false) →
      (c.execute query queryData result r).2.2
        = [match queryData with
           | none => Effect.PQexecParams query 0 [] [] [] [] 1
           | some qd => Effect.PQexecParams query qd.values.length qd.types qd.values
               qd.lengths qd.formats 1] ∧
      (c.prepare name query types r described).2.2.head?
        = some (match types with
           | some ts => Effect.PQprepare name query ts.length ts
           | none => Effect.PQprepare name query 0 [])) := by
  refine ⟨?_, ?_, ?_⟩
  · rintro (h | ⟨impl, h, hs⟩)
    · simp [Connection.execute, Connection.prepare, h, MAKE_ERROR]
    · cases c
      simp only at h
      subst h
      simp [Connection.execute, Connection.prepare, ConnectionImpl.execute,
        ConnectionImpl.prepare, hs, MAKE_ERROR]
  · rintro ⟨impl, h, hs, hb⟩
    cases c
    simp only at h
    subst h
    simp [Connection.execute, Connection.prepare, ConnectionImpl.execute,
      ConnectionImpl.prepare, hs, hb, MAKE_ERROR]
  · rintro ⟨impl, h, hs, hb⟩
    constructor
    · simp only [Connection.execute, h, ConnectionImpl.execute, hs, hb, ne_eq,
        not_true_eq_false, if_false, Bool.false_eq_true]
      cases r with
      | none => rfl
      | some res =>
        simp only [PQresultStatus]
        cases res.status <;> try rfl
        cases result <;> rfl
    · simp only [Connection.prepare, h, ConnectionImpl.prepare, hs, hb, ne_eq,
        not_true_eq_false, if_false, Bool.false_eq_true]
      cases r with
      | none => rfl
      | some res =>
        simp only [PQresultStatus]
        cases res.status <;> first | rfl | (split_ifs <;> rfl)

/-- Witness for C5: a synchronous execute and a prepare while request 42 is in
flight. -/
theorem sync_precondition_witness :
    sampleBusyBase.execute "SELECT 1" none (some none) none
        = (Error.Fail "Connection is busy", (some none : Option Recordset).map Recordset.clear,
            []) ∧
    sampleBusyBase.prepare "s2" "SELECT 1" none none none
        = (Error.Fail "Connection is busy", sampleBusyBase, []) :=
  (sync_precondition sampleBusyBase "SELECT 1" "s2" none (some none) none none none).2.1
    ⟨sampleBusyImpl, rfl, by decide, by decide⟩

/-- C6: for every result the blocking query of the synchronous execute
returns on a Connected, non-busy state machine: EMPTY_QUERY and COMMAND_OK
yield Success and leave the record set behind `result` cleared, without rows;
TUPLES_OK yields Success and a non-null `result` then holds the returned
result with its rows; NONFATAL_ERROR, BAD_RESPONSE and FATAL_ERROR yield the
failure "Unable to execute query. " followed by the server's error message;
every COPY, SINGLE_TUPLE and PIPELINE status yields the failure "Unsupported
query"; and the call fails for no other status. -/
theorem execute_status_outcomes (c : Connection) (impl : ConnectionImpl) (query : String)
    (queryData : Option QueryData) (result : Option Recordset) (res : PGresult)
    (h : c.connectionImpl_ = some impl) (hs : impl.state_ = State.Connected)
    (hb : impl.isBusy = false) :
    ((res.status = ExecStatusType.PGRES_EMPTY_QUERY ∨
        res.status = ExecStatusType.PGRES_COMMAND_OK) →
      (c.execute query queryData result (some res)).1 = Error.Success ∧
      (c.execute query queryData result (some res)).2.1 = result.map Recordset.clear ∧
      ∀ rs, (c.execute query queryData result (some res)).2.1 = some rs →
        Recordset.rows rs = []) ∧
    (res.status = ExecStatusType.PGRES_TUPLES_OK →
      (c.execute query queryData result (some res)).1 = Error.Success ∧
      (c.execute query queryData result (some res)).2.1 = result.map (fun _ => some res) ∧
      ∀ rs, (c.execute query queryData result (some res)).2.1 = some rs →
        Recordset.rows rs = res.rows) ∧
    ((res.status = ExecStatusType.PGRES_NONFATAL_ERROR ∨
        res.status = ExecStatusType.PGRES_BAD_RESPONSE ∨
        res.status = ExecStatusType.PGRES_FATAL_ERROR) →
      (c.execute query queryData result (some res)).1
        = Error.Fail ("Unable to execute query. " ++ res.errorMessage)) ∧
    ((res.status = ExecStatusType.PGRES_COPY_OUT ∨ res.status = ExecStatusType.PGRES_COPY_IN ∨
        res.status = ExecStatusType.PGRES_COPY_BOTH ∨
        res.status = ExecStatusType.PGRES_SINGLE_TUPLE ∨
        res.status = ExecStatusType.PGRES_PIPELINE_SYNC ∨
        res.status = ExecStatusType.PGRES_PIPELINE_ABORTED) →
      (c.execute query queryData result (some res)).1 = Error.Fail "Unsupported query") ∧
    ((c.execute query queryData result (some res)).1.isFail = true ↔
      (res.status = ExecStatusType.PGRES_NONFATAL_ERROR ∨
        res.status = ExecStatusType.PGRES_BAD_RESPONSE ∨
        res.status = ExecStatusType.PGRES_FATAL_ERROR ∨
        res.status = ExecStatusType.PGRES_COPY_OUT ∨ res.status = ExecStatusType.PGRES_COPY_IN ∨
        res.status = ExecStatusType.PGRES_COPY_BOTH ∨
        res.status = ExecStatusType.PGRES_SINGLE_TUPLE ∨
        res.status = ExecStatusType.PGRES_PIPELINE_SYNC ∨
        res.status = ExecStatusType.PGRES_PIPELINE_ABORTED)) := by
  simp only [Connection.execute, h, ConnectionImpl.execute, hs, hb, ne_eq, not_true_eq_false,
    if_false, Bool.false_eq_true, PQresultStatus, PQresultErrorMessage, MAKE_ERROR]
  refine ⟨?_, ?_, ?_, ?_, ?_⟩
  · rintro (h1 | h1) <;> rw [h1] <;> refine ⟨rfl, rfl, ?_⟩ <;>
      cases result <;> simp [Recordset.clear, Recordset.rows]
  · intro h1
    rw [h1]
    cases result <;> simp [Recordset.rows]
  · rintro (h1 | h1 | h1) <;> rw [h1]
  · rintro (h1 | h1 | h1 | h1 | h1 | h1) <;> rw [h1]
  · cases hst : res.status <;> simp [Error.isFail]
    cases result <;> simp [Error.isFail]

/-- Witness for C6: a TUPLES_OK result with one row, written to a non-null
`result`. -/
theorem execute_status_outcomes_witness :
    (sampleBase.execute "SELECT 1" none (some none)
        (some (sampleResult ExecStatusType.PGRES_TUPLES_OK [["1"]]))).1 = Error.Success ∧
    (sampleBase.execute "SELECT 1" none (some none)
        (some (sampleResult ExecStatusType.PGRES_TUPLES_OK [["1"]]))).2.1
      = (some none : Option Recordset).map
          (fun _ => some (sampleResult ExecStatusType.PGRES_TUPLES_OK [["1"]])) ∧
    ∀ rs, (sampleBase.execute "SELECT 1" none (some none)
        (some (sampleResult ExecStatusType.PGRES_TUPLES_OK [["1"]]))).2.1 = some rs →
      Recordset.rows rs = (sampleResult ExecStatusType.PGRES_TUPLES_OK [["1"]]).rows :=
  (execute_status_outcomes sampleBase sampleImpl "SELECT 1" none (some none)
    (sampleResult ExecStatusType.PGRES_TUPLES_OK [["1"]]) rfl (by decide) (by decide)).2.1 rfl

/-- C7 (as stated, refuted): on a TUPLES_OK result the synchronous execute
succeeds while prepare fails, and likewise on EMPTY_QUERY. -/
theorem prepare_mirrors_execute_counterexample :
    (sampleImpl.execute "SELECT 1" none none
        (some (sampleResult ExecStatusType.PGRES_TUPLES_OK []))).1 = Error.Success ∧
    (sampleImpl.prepare "s2" "SELECT 1" none
        (some (sampleResult ExecStatusType.PGRES_TUPLES_OK [])) none).1
      = Error.Fail "Unsupported query" ∧
    (sampleImpl.execute "" none none
        (some (sampleResult ExecStatusType.PGRES_EMPTY_QUERY []))).1 = Error.Success ∧
    (sampleImpl.prepare "s2" "" none
        (some (sampleResult ExecStatusType.PGRES_EMPTY_QUERY [])) none).1
      = Error.Fail "Unsupported query" ∧
    ¬ ((sampleImpl.prepare "s2" "SELECT 1" none
          (some (sampleResult ExecStatusType.PGRES_TUPLES_OK [])) none).1.isFail = true ↔
       (sampleImpl.execute "SELECT 1" none none
          (some (sampleResult ExecStatusType.PGRES_TUPLES_OK []))).1.isFail = true) := by
  decide

/-- C7 (amended): on a Connected, non-busy state machine, for every result
whose status is neither EMPTY_QUERY nor TUPLES_OK, prepare returns the very
error the synchronous execute returns on that result (so one fails if and only
if the other does, with the same message); on EMPTY_QUERY and TUPLES_OK the
synchronous execute succeeds and prepare fails with "Unsupported query". -/
theorem prepare_mirrors_execute (self : ConnectionImpl) (name query : String)
    (types : Option (List Oid)) (queryData : Option QueryData) (resultPtr : Option Recordset)
    (res : PGresult) (described : Option PGresult)
    (hs : self.state_ = State.Connected) (hb : self.isBusy = false) :
    ((res.status ≠ ExecStatusType.PGRES_EMPTY_QUERY ∧
        res.status ≠ ExecStatusType.PGRES_TUPLES_OK) →
      (self.prepare name query types (some res) described).1
        = (self.execute query queryData resultPtr (some res)).1) ∧
    ((res.status = ExecStatusType.PGRES_EMPTY_QUERY ∨
        res.status = ExecStatusType.PGRES_TUPLES_OK) →
      (self.execute query queryData resultPtr (some res)).1 = Error.Success ∧
      (self.prepare name query types (some res) described).1
        = Error.Fail "Unsupported query") := by
  simp only [ConnectionImpl.execute, ConnectionImpl.prepare, hs, hb, ne_eq, not_true_eq_false,
    if_false, Bool.false_eq_true, PQresultStatus, PQresultErrorMessage, MAKE_ERROR]
  constructor
  · rintro ⟨h1, h2⟩
    cases hst : res.status <;> simp_all
    split_ifs <;> rfl
  · rintro (h1 | h1) <;> rw [h1]
    · exact ⟨rfl, rfl⟩
    · cases resultPtr <;> exact ⟨rfl, rfl⟩

/-- Witness for C7 (amended): a FATAL_ERROR result fails both calls alike. -/
theorem prepare_mirrors_execute_witness :
    (sampleImpl.prepare "s2" "SELEC 1" none
        (some (sampleResult ExecStatusType.PGRES_FATAL_ERROR [])) none).1
      = (sampleImpl.execute "SELEC 1" none none
          (some (sampleResult ExecStatusType.PGRES_FATAL_ERROR []))).1 :=
  (prepare_mirrors_execute sampleImpl "s2" "SELEC 1" none none none
    (sampleResult ExecStatusType.PGRES_FATAL_ERROR []) none (by decide) (by decide)).1
    ⟨by decide, by decide⟩

/-! ### Exclusivity (P1) along operations -/

theorem frame_refl (a : ConnectionImpl) : Frame a a := Or.inr ⟨rfl, rfl, rfl⟩

theorem frame_trans {a b c : ConnectionImpl} (hab : Frame a b) (hbc : Frame b c) : Frame a c := by
  rcases hbc with h | ⟨h1, h2, h3⟩
  · exact Or.inl h
  · rcases hab with h | ⟨g1, g2, g3⟩
    · exact Or.inl (h1.trans h)
    · exact Or.inr ⟨h1.trans g1, h2.trans g2, h3.trans g3⟩

theorem exclusive_of_frame {a b : ConnectionImpl} (ha : a.Exclusive) (hab : Frame a b) :
    b.Exclusive := by
  intro hb
  rcases hab with h | ⟨h1, h2, h3⟩
  · simp [ConnectionImpl.isBusy, h] at hb
  · have := ha (by simpa [ConnectionImpl.isBusy, h1] using hb)
    rw [h2, h3]
    exact this

theorem baseOk_refl (c : Connection) : BaseOk c c := Or.inr rfl

theorem baseOk_trans {a b c : Connection} (hab : BaseOk a b) (hbc : BaseOk b c) : BaseOk a c := by
  rcases hbc with h | h
  · exact Or.inl h
  · rcases hab with g | g
    · exact Or.inl (h.trans g)
    · exact Or.inr (h.trans g)

theorem disconnect_frame (self : ConnectionImpl) (base : Connection) :
    Frame self (self.disconnect base).1 := by
  unfold ConnectionImpl.disconnect
  simp only
  split_ifs <;> exact Or.inr ⟨rfl, rfl, rfl⟩

theorem disconnect_baseOk (self : ConnectionImpl) (base : Connection) :
    BaseOk base (self.disconnect base).2.1 := by
  unfold ConnectionImpl.disconnect
  simp only
  split_ifs <;> first | exact Or.inl rfl | exact Or.inr rfl

theorem startReconnectTimer_impl (c : Connection) (r : Responses) :
    (c.startReconnectTimer r).2.1.connectionImpl_ = c.connectionImpl_ := by
  unfold Connection.startReconnectTimer
  split_ifs <;> rfl

theorem reconnect_fst (self : ConnectionImpl) (base : Connection) (error : Error)
    (r : Responses) : (self.reconnect base error r).1 = (self.disconnect base).1 := by
  unfold ConnectionImpl.reconnect
  simp only
  split_ifs <;> rfl

theorem reconnect_frame (self : ConnectionImpl) (base : Connection) (error : Error)
    (r : Responses) : Frame self (self.reconnect base error r).1 := by
  rw [reconnect_fst]
  exact disconnect_frame self base

theorem reconnect_baseOk (self : ConnectionImpl) (base : Connection) (error : Error)
    (r : Responses) : BaseOk base (self.reconnect base error r).2.1 := by
  have hd := disconnect_baseOk self base
  unfold ConnectionImpl.reconnect
  simp only
  split_ifs <;>
    first
    | exact hd
    | (unfold BaseOk
       simp only [startReconnectTimer_impl]
       exact hd)

theorem finishRequest_frame (self : ConnectionImpl) (error : Error) (result : Recordset) :
    Frame self (self.finishRequest error result).1 := by
  unfold ConnectionImpl.finishRequest
  simp only
  split_ifs <;> exact Or.inl rfl

theorem updatePollEventmask_frame (self : ConnectionImpl) (eventmask : Nat) (r : Responses) :
    Frame self (self.updatePollEventmask eventmask r).2.1 := by
  unfold ConnectionImpl.updatePollEventmask
  split_ifs <;> exact Or.inr ⟨rfl, rfl, rfl⟩

theorem pollCommandsReadable_frame (self : ConnectionImpl) (events eventmask : Nat)
    (r : Responses) : Frame self (self.pollCommandsReadable events eventmask r).2.1 := by
  unfold ConnectionImpl.pollCommandsReadable
  simp only
  split_ifs <;>
    first
    | exact frame_refl self
    | exact finishRequest_frame self _ _
    | exact frame_trans (finishRequest_frame self _ _) (updatePollEventmask_frame _ _ _)
    | exact updatePollEventmask_frame _ _ _

theorem pollCommands_frame (self : ConnectionImpl) (events : Nat) (r : Responses) :
    Frame self (self.pollCommands events r).2.1 := by
  unfold ConnectionImpl.pollCommands
  simp only
  split_ifs <;>
    first
    | exact frame_refl self
    | exact pollCommandsReadable_frame _ _ _ _

theorem pollConnectionSwitch_frame (self : ConnectionImpl) (base : Connection) (call : Effect)
    (r : Responses) : Frame self (self.pollConnectionSwitch base call r).2.1 := by
  unfold ConnectionImpl.pollConnectionSwitch
  simp only
  split <;> first
    | exact Or.inr ⟨rfl, rfl, rfl⟩
    | (split_ifs <;> exact Or.inr ⟨rfl, rfl, rfl⟩)

theorem pollConnection_frame (self : ConnectionImpl) (base : Connection) (r : Responses) :
    Frame self (self.pollConnection base r).2.1 := by
  unfold ConnectionImpl.pollConnection
  split
  · exact pollConnectionSwitch_frame _ _ _ _
  · exact pollConnectionSwitch_frame _ _ _ _
  · exact frame_refl self

theorem pollConnectionCallback_frame (self : ConnectionImpl) (base : Connection) (status : Int)
    (events : Nat) (r : Responses) :
    Frame self (self.pollConnectionCallback base status events r).1 ∧
    BaseOk base (self.pollConnectionCallback base status events r).2.1 := by
  unfold ConnectionImpl.pollConnectionCallback
  simp only
  split_ifs <;>
    first
    | exact ⟨reconnect_frame _ _ _ _, reconnect_baseOk _ _ _ _⟩
    | exact ⟨frame_trans (pollConnection_frame _ _ _) (reconnect_frame _ _ _ _),
        reconnect_baseOk _ _ _ _⟩
    | exact ⟨pollConnection_frame _ _ _, baseOk_refl _⟩

theorem pollCommandsCallback_frame (self : ConnectionImpl) (base : Connection) (status : Int)
    (events : Nat) (r : Responses) :
    Frame self (self.pollCommandsCallback base status events r).1 ∧
    BaseOk base (self.pollCommandsCallback base status events r).2.1 := by
  unfold ConnectionImpl.pollCommandsCallback
  simp only
  split_ifs <;>
    first
    | exact ⟨reconnect_frame _ _ _ _, reconnect_baseOk _ _ _ _⟩
    | exact ⟨frame_trans (pollCommands_frame _ _ _) (reconnect_frame _ _ _ _),
        reconnect_baseOk _ _ _ _⟩
    | exact ⟨pollCommands_frame _ _ _, baseOk_refl _⟩

theorem frame_update {a b c : ConnectionImpl} (hbc : Frame b c)
    (h1 : b.isExecuting_ = a.isExecuting_) (h2 : b.executeHandler_ = a.executeHandler_)
    (h3 : b.requestId_ = a.requestId_) : Frame a c :=
  frame_trans (Or.inr ⟨h1, h2, h3⟩) hbc

theorem connect_frame (self : ConnectionImpl) (base : Connection) (address : String)
    (r : Responses) :
    Frame self (self.connect base address r).1 ∧
    BaseOk base (self.connect base address r).2.1 := by
  unfold ConnectionImpl.connect
  simp only
  split_ifs <;>
    first
    | exact ⟨reconnect_frame _ _ _ _, reconnect_baseOk _ _ _ _⟩
    | exact ⟨frame_update (reconnect_frame _ _ _ _) rfl rfl rfl, reconnect_baseOk _ _ _ _⟩
    | exact ⟨frame_update (frame_trans (pollConnection_frame _ _ _)
        (reconnect_frame _ _ _ _)) rfl rfl rfl, reconnect_baseOk _ _ _ _⟩
    | exact ⟨frame_update (pollConnection_frame _ _ _) rfl rfl rfl, baseOk_refl _⟩

theorem dnsCallback_frame (self : ConnectionImpl) (base : Connection) (addresses : List String)
    (r : Responses) :
    Frame self (self.dnsCallback base addresses r).1 ∧
    BaseOk base (self.dnsCallback base addresses r).2.1 := by
  unfold ConnectionImpl.dnsCallback
  simp only
  split_ifs <;>
    first
    | exact ⟨Or.inr ⟨rfl, rfl, rfl⟩, baseOk_refl _⟩
    | exact ⟨frame_update (reconnect_frame _ _ _ _) rfl rfl rfl, reconnect_baseOk _ _ _ _⟩
    | exact ⟨frame_update (connect_frame _ _ _ _).1 rfl rfl rfl, (connect_frame _ _ _ _).2⟩

theorem attach_exclusive (c : Connection) (impl : ConnectionImpl)
    (p : ConnectionImpl × Connection × List Effect) (hc : c.Exclusive)
    (hi : c.connectionImpl_ = some impl) (hf : Frame impl p.1) (hb : BaseOk c p.2.1) :
    (attach p).1.Exclusive := by
  unfold attach
  split_ifs
  · intro impl2 h2
    simp only [Option.some.injEq] at h2
    subst h2
    exact exclusive_of_frame (hc impl hi) hf
  · intro impl2 h2
    rcases hb with h | h
    · simp only [h] at h2
      cases h2
    · simp only [h] at h2
      exact hc impl2 h2

theorem onImpl_exclusive (c : Connection)
    (f : ConnectionImpl → Connection → ConnectionImpl × Connection × List Effect)
    (hc : c.Exclusive)
    (hf : ∀ impl, Frame impl (f impl c).1 ∧ BaseOk c (f impl c).2.1) :
    (c.onImpl f).1.Exclusive := by
  unfold Connection.onImpl
  cases h : c.connectionImpl_ with
  | none =>
    intro impl2 h2
    simp only [h] at h2
    cases h2
  | some impl => exact attach_exclusive c impl _ hc h (hf impl).1 (hf impl).2

theorem new_exclusive (base : Connection) : (ConnectionImpl.new base).1.Exclusive := by
  intro h
  simp [ConnectionImpl.new, ConnectionImpl.isBusy] at h

theorem destroy_impl (c : Connection) : c.destroy.1.connectionImpl_ = none := by
  unfold Connection.destroy
  cases c.connectionImpl_ <;> rfl

theorem executeAsync_exclusive (self : ConnectionImpl) (base : Connection) (name : String)
    (queryData : Option QueryData) (handler : ExecuteHandler) (requestId : RequestId)
    (rc : Int) (errorMessage : String) (hs : self.Exclusive)
    (hh : handler.isSome = true) (hr : requestId ≠ InvalidRequestId) :
    (self.executeAsync base name queryData handler requestId rc errorMessage).1.Exclusive := by
  unfold ConnectionImpl.executeAsync
  simp only
  repeat' first
    | exact hs
    | exact fun _ => ⟨hh, hr⟩
    | split

theorem prepare_frame (self : ConnectionImpl) (name query : String) (types : Option (List Oid))
    (r described : Option PGresult) :
    Frame self (self.prepare name query types r described).2.1 := by
  unfold ConnectionImpl.prepare
  simp only
  repeat' first
    | exact frame_refl self
    | exact Or.inr ⟨rfl, rfl, rfl⟩
    | split

theorem initialize_impl (c : Connection) (id : Nat) (options : Options) (hostIndex : Nat)
    (ch dh : Handler) (certFile keyFile caFile : Option Nat) (commonName : String)
    (r : Responses) :
    (c.initialize_ id options hostIndex ch dh certFile keyFile caFile commonName r).2.1.connectionImpl_
        = none ∨
    ∃ b, (c.initialize_ id options hostIndex ch dh certFile keyFile caFile commonName
        r).2.1.connectionImpl_ = some (ConnectionImpl.new b).1 := by
  have hd := destroy_impl c
  unfold Connection.initialize_
  simp only
  repeat' first
    | exact Or.inl hd
    | exact Or.inr ⟨_, rfl⟩
    | split

theorem step_exclusive (c : Connection) (op : Op) (hc : c.Exclusive)
    (hw : op.suppliesHandlerAndId = true) : (step c op).1.Exclusive := by
  cases op with
  | initialize_ id options hostIndex ch dh certFile keyFile caFile commonName r =>
    intro impl h
    rcases initialize_impl c id options hostIndex ch dh certFile keyFile caFile commonName r
      with h0 | ⟨b, hb⟩
    · simp only [step, h0] at h
      cases h
    · simp only [step, hb, Option.some.injEq] at h
      subst h
      exact new_exclusive b
  | destroy =>
    intro impl h
    simp only [step, destroy_impl] at h
    cases h
  | reconnectTimerCallback =>
    intro impl h
    simp only [step, Connection.reconnectTimerCallback, Option.some.injEq] at h
    subst h
    exact new_exclusive _
  | connectTimerCallback r =>
    exact onImpl_exclusive c _ hc
      (fun impl => ⟨reconnect_frame _ _ _ _, reconnect_baseOk _ _ _ _⟩)
  | dnsCallback addresses r =>
    exact onImpl_exclusive c _ hc (fun impl => dnsCallback_frame impl c addresses r)
  | connect address r =>
    exact onImpl_exclusive c _ hc (fun impl => connect_frame impl c address r)
  | pollConnection r =>
    exact onImpl_exclusive c _ hc (fun impl => ⟨pollConnection_frame impl c r, baseOk_refl c⟩)
  | pollConnectionCallback status events r =>
    exact onImpl_exclusive c _ hc (fun impl => pollConnectionCallback_frame impl c status events r)
  | pollCommands events r =>
    exact onImpl_exclusive c _ hc (fun impl => ⟨pollCommands_frame impl events r, baseOk_refl c⟩)
  | pollCommandsCallback status events r =>
    exact onImpl_exclusive c _ hc (fun impl => pollCommandsCallback_frame impl c status events r)
  | execute query queryData result r => exact hc
  | prepare name query types r described =>
    intro impl h
    simp only [step, Connection.prepare] at h
    cases hi : c.connectionImpl_ with
    | none =>
      simp only [hi] at h
      cases h
    | some impl0 =>
      simp only [hi, Option.some.injEq] at h
      subst h
      exact exclusive_of_frame (hc impl0 hi) (prepare_frame _ _ _ _ _ _)
  | executeAsync name queryData handler requestId rc errorMessage =>
    intro impl h
    simp only [Op.suppliesHandlerAndId, Bool.and_eq_true, decide_eq_true_eq] at hw
    simp only [step, Connection.executeAsync] at h
    cases hi : c.connectionImpl_ with
    | none =>
      simp only [hi] at h
      cases h
    | some impl0 =>
      simp only [hi, Option.some.injEq] at h
      subst h
      exact executeAsync_exclusive _ _ _ _ _ _ _ _ (hc impl0 hi) hw.1 hw.2
  | finishRequest error result =>
    exact onImpl_exclusive c _ hc
      (fun impl => ⟨finishRequest_frame impl error result, baseOk_refl c⟩)
  | disconnect =>
    exact onImpl_exclusive c _ hc (fun impl => ⟨disconnect_frame impl c, disconnect_baseOk impl c⟩)
  | reconnect error r =>
    exact onImpl_exclusive c _ hc
      (fun impl => ⟨reconnect_frame impl c error r, reconnect_baseOk impl c error r⟩)
  | closeCallback => exact hc

theorem run_exclusive (c : Connection) (ops : List Op) (hc : c.Exclusive)
    (hw : ∀ op ∈ ops, op.suppliesHandlerAndId = true) : (run c ops).1.Exclusive := by
  induction ops generalizing c with
  | nil => exact hc
  | cons op ops ih =>
    simp only [run]
    exact ih _ (step_exclusive c op hc (hw op (List.mem_cons_self _ _)))
      (fun o ho => hw o (List.mem_cons_of_mem _ ho))

/-- C8 (as stated, refuted): after scenario 1, an asynchronous execute that is
handed an empty handler and `InvalidRequestId` is accepted; the state machine
is then busy with no handler stored and with the request id Invalid. -/
theorem exclusive_counterexample :
    (run (Connection.new true) sampleUnsetOps).1.isBusy = true ∧
    (run (Connection.new true) sampleUnsetOps).1.currentExecuteHandler = none ∧
    (run (Connection.new true) sampleUnsetOps).1.currentRequestId = InvalidRequestId ∧
    ¬ (run (Connection.new true) sampleUnsetOps).1.Exclusive := by
  refine ⟨by decide, by decide, by decide, ?_⟩
  intro h
  have h1 := h { sampleImpl with isExecuting_ := true, preparedStmtOids_ := [] } (by decide)
    (by decide)
  exact absurd h1.1 (by decide)

/-- C8 (amended): in every state reached from a freshly constructed facade by
any sequence of operations (initialize, destroy, the timer, resolver and poll
callbacks, connect, the handshake and command polls, synchronous and
asynchronous execute, prepare, finishRequest, disconnect, reconnect) with
arbitrary arguments and arbitrary answers of the collaborators, in which every
asynchronous execute is handed a non-empty handler and a request id other than
Invalid, busy implies that the stored execute handler is set and the stored
request id is not Invalid. -/
theorem exclusive_reachable (eventLoopRunning : Bool) (ops : List Op)
    (hw : ∀ op ∈ ops, op.suppliesHandlerAndId = true) :
    (run (Connection.new eventLoopRunning) ops).1.Exclusive := by
  apply run_exclusive _ _ _ hw
  intro impl h
  simp [Connection.new] at h

/-- Witness for C8 (amended): scenario 2, the state machine is busy with
handler 7 and request id 42. -/
theorem exclusive_reachable_witness :
    (run (Connection.new true) sampleExecuteOps).1.isBusy = true ∧
    (run (Connection.new true) sampleExecuteOps).1.Exclusive :=
  ⟨by decide, exclusive_reachable true sampleExecuteOps (by decide)⟩

/-! ### Connection failure with a request in flight -/

theorem handlerCalls_append (a b : List Effect) :
    handlerCalls (a ++ b) = handlerCalls a ++ handlerCalls b := by
  simp [handlerCalls]

theorem disconnect_handlerCalls (self : ConnectionImpl) (base : Connection) :
    handlerCalls (self.disconnect base).2.2 = [] := by
  unfold ConnectionImpl.disconnect
  simp only
  split_ifs <;> simp [handlerCalls, Effect.isExecuteHandler]

theorem startReconnectTimer_handlerCalls (c : Connection) (r : Responses) :
    handlerCalls (c.startReconnectTimer r).2.2 = [] := by
  unfold Connection.startReconnectTimer
  split_ifs <;> simp [handlerCalls, Effect.isExecuteHandler]

theorem reconnect_handlerCalls (self : ConnectionImpl) (base : Connection) (error : Error)
    (r : Responses) : handlerCalls (self.reconnect base error r).2.2 = [] := by
  unfold ConnectionImpl.reconnect
  simp only
  split_ifs <;>
    simp [handlerCalls_append, disconnect_handlerCalls, startReconnectTimer_handlerCalls] <;>
    simp [handlerCalls, Effect.isExecuteHandler]

theorem disconnect_detaches (self : ConnectionImpl) (base : Connection)
    (hbase : self.base_ = true) :
    (self.disconnect base).2.1 = { base with connectionImpl_ := none } ∧
    (self.disconnect base).1.base_ = false := by
  unfold ConnectionImpl.disconnect
  simp only [hbase, if_true]
  split_ifs <;> exact ⟨rfl, rfl⟩

theorem reconnect_detaches (self : ConnectionImpl) (base : Connection) (error : Error)
    (r : Responses) (hbase : self.base_ = true) :
    (self.reconnect base error r).2.1.connectionImpl_ = none ∧
    (self.reconnect base error r).1.base_ = false := by
  have hd := disconnect_detaches self base hbase
  refine ⟨?_, by rw [reconnect_fst]; exact hd.2⟩
  unfold ConnectionImpl.reconnect
  simp only [hbase, if_true]
  split_ifs <;> simp [startReconnectTimer_impl, hd.1]

theorem reconnect_reports (self : ConnectionImpl) (base : Connection) (error : Error)
    (r : Responses) (hbase : self.base_ = true) (hd : base.disconnectedHandler_.isSome = true) :
    (self.reconnect base error r).2.2.getLast?
      = some (Effect.disconnectedHandler base.disconnectedHandler_ error) := by
  have hdis := (disconnect_detaches self base hbase).1
  have hh : ∀ r, ((self.disconnect base).2.1.startReconnectTimer r).2.1.disconnectedHandler_
      = base.disconnectedHandler_ := by
    intro r
    rw [hdis]
    unfold Connection.startReconnectTimer
    split_ifs <;> rfl
  have hh0 : (self.disconnect base).2.1.disconnectedHandler_ = base.disconnectedHandler_ := by
    rw [hdis]
  unfold ConnectionImpl.reconnect
  simp only [hbase, if_true]
  split_ifs with h1 h2 h2
  · simp [hh]
  · simp [hh, hd] at h2
  · simp [hh0]
  · simp [hh0, hd] at h2

theorem pollCommandsCallback_of_failure (self : ConnectionImpl) (base : Connection)
    (status : Int) (events : Nat) (r : Responses) (hf : CommandPollFailure status events r) :
    ∃ (pre : List Effect) (error : Error), error.isFail = true ∧ handlerCalls pre = [] ∧
      self.pollCommandsCallback base status events r
        = ((self.reconnect base error r).1, (self.reconnect base error r).2.1,
            pre ++ (self.reconnect base error r).2.2) := by
  rcases hf with h | ⟨h0, hw, hfl⟩ | ⟨h0, hnw, hr, hci⟩ | ⟨h0, hnw, hr, hci, hbusy, hst, htail⟩
  · refine ⟨[], MAKE_ERROR ("Bad status " ++ toString status), rfl, rfl, ?_⟩
    simp [ConnectionImpl.pollCommandsCallback, h]
  · refine ⟨[Effect.PQflush], MAKE_ERROR ("Unable to flush data to server. " ++ r.errorMessage),
      rfl, rfl, ?_⟩
    have hs : ¬ status < 0 := by omega
    simp [ConnectionImpl.pollCommandsCallback, ConnectionImpl.pollCommands, hs, hw, hfl,
      MAKE_ERROR, Error.isFail]
  · have hs : ¬ status < 0 := by omega
    have hp : ∀ m, self.pollCommandsReadable events m r
        = (MAKE_ERROR ("Unable to receive data from server. " ++ r.errorMessage), self,
            [Effect.PQconsumeInput]) := by
      intro m
      simp [ConnectionImpl.pollCommandsReadable, hr, hci]
    by_cases hw : events &&& UV_WRITABLE ≠ 0
    · have hfl : r.flushRc ≠ -1 := fun h => hnw ⟨hw, h⟩
      refine ⟨[Effect.PQflush, Effect.PQconsumeInput],
        MAKE_ERROR ("Unable to receive data from server. " ++ r.errorMessage), rfl, rfl, ?_⟩
      unfold ConnectionImpl.pollCommandsCallback ConnectionImpl.pollCommands
      simp only [hs, hw, hfl, hp, if_false, if_true, ne_eq, not_false_eq_true, and_false]
      split_ifs <;> simp_all [MAKE_ERROR, Error.isFail]
    · refine ⟨[Effect.PQconsumeInput],
        MAKE_ERROR ("Unable to receive data from server. " ++ r.errorMessage), rfl, rfl, ?_⟩
      unfold ConnectionImpl.pollCommandsCallback ConnectionImpl.pollCommands
      simp only [hs, hw, hp, if_false]
      simp [MAKE_ERROR, Error.isFail]
  · have hs : ¬ status < 0 := by omega
    have hok : ¬ (PQresultStatus r.results.head? ≠ ExecStatusType.PGRES_TUPLES_OK ∧
        PQresultStatus r.results.head? ≠ ExecStatusType.PGRES_COMMAND_OK) := by
      rintro ⟨h1, h2⟩
      rcases hst with h | h
      · exact h1 h
      · exact h2 h
    have hp : ∀ m, self.pollCommandsReadable events m r
        = (MAKE_ERROR "handling of more results is not supported", self,
            [Effect.PQconsumeInput, Effect.PQisBusy, Effect.PQgetResult, Effect.PQgetResult]) := by
      intro m
      unfold ConnectionImpl.pollCommandsReadable
      simp only [hr, hci, hbusy, hok, htail, if_true, if_false, not_true_eq_false,
        Bool.false_eq_true, not_false_eq_true, ne_eq]
    by_cases hw : events &&& UV_WRITABLE ≠ 0
    · have hfl : r.flushRc ≠ -1 := fun h => hnw ⟨hw, h⟩
      refine ⟨[Effect.PQflush, Effect.PQconsumeInput, Effect.PQisBusy, Effect.PQgetResult,
        Effect.PQgetResult], MAKE_ERROR "handling of more results is not supported", rfl, rfl, ?_⟩
      unfold ConnectionImpl.pollCommandsCallback ConnectionImpl.pollCommands
      simp only [hs, hw, hfl, hp, if_false, if_true, ne_eq, not_false_eq_true, and_false]
      split_ifs <;> simp_all [MAKE_ERROR, Error.isFail]
    · refine ⟨[Effect.PQconsumeInput, Effect.PQisBusy, Effect.PQgetResult, Effect.PQgetResult],
        MAKE_ERROR "handling of more results is not supported", rfl, rfl, ?_⟩
      unfold ConnectionImpl.pollCommandsCallback ConnectionImpl.pollCommands
      simp only [hs, hw, hp, if_false]
      simp [MAKE_ERROR, Error.isFail]

/-- C9 (as stated, refuted): scenario 6.  With request 42 of handler 7 in flight,
the poll reports status -9; the state machine is torn down and the facade's
disconnectedHandler gets the error, but no execute handler is invoked. -/
theorem inflight_handler_on_failure_counterexample :
    sampleBusyImpl.state_ = State.Connected ∧ sampleBusyImpl.isBusy = true ∧
    sampleBusyImpl.executeHandler_ = some 7 ∧
    (step sampleBusyBase (Op.pollCommandsCallback (-9) 0 sampleResponses)).2
      = [Effect.connectTimerStop, Effect.closeFd 5, Effect.PQfinish, Effect.uvPollStop,
         Effect.uvClose, Effect.disconnectedHandler (some 11) (Error.Fail "Bad status -9")] ∧
    handlerCalls (step sampleBusyBase (Op.pollCommandsCallback (-9) 0 sampleResponses)).2 = [] ∧
    (step sampleBusyBase (Op.pollCommandsCallback (-9) 0 sampleResponses)).1.connectionImpl_
      = none := by
  decide

/-- C9 (amended): for every state machine (Connected or not) that is attached
and busy with an accepted asynchronous execute, when the connection fails in the
command phase (a negative poll status, a flush failure, a consume-input
failure or a second result), the state machine is torn down through
reconnect: no execute handler is invoked, the in-flight handler is still
stored in the state machine that is deleted, the facade is left without a
state machine, and a set disconnectedHandler is the last thing called, with a
failing error.  The state machine created by the reconnect timer starts idle
(not busy, no handler) and only arms the connect timer and asks the resolver:
the request is not re-issued. -/
theorem failure_drops_inflight_request (self : ConnectionImpl) (base : Connection)
    (status : Int) (events : Nat) (r : Responses) (hb : self.isBusy = true)
    (hbase : self.base_ = true) (hf : CommandPollFailure status events r) :
    handlerCalls (self.pollCommandsCallback base status events r).2.2 = [] ∧
    ((self.pollCommandsCallback base status events r).1.isBusy = true ∧
      (self.pollCommandsCallback base status events r).1.executeHandler_
        = self.executeHandler_ ∧
      (self.pollCommandsCallback base status events r).1.state_ = State.Disconnecting) ∧
    (self.pollCommandsCallback base status events r).2.1.connectionImpl_ = none ∧
    (base.disconnectedHandler_.isSome = true →
      ∃ error : Error, error.isFail = true ∧
        (self.pollCommandsCallback base status events r).2.2.getLast?
          = some (Effect.disconnectedHandler base.disconnectedHandler_ error)) ∧
    (∀ c : Connection,
      c.reconnectTimerCallback.1.isBusy = false ∧
      c.reconnectTimerCallback.1.currentExecuteHandler = none ∧
      c.reconnectTimerCallback.2
        = [Effect.connectTimerRestart c.options_.connectTimeout,
           Effect.dnsResolve (c.options_.hosts.getD c.hostIndex_ "")]) := by
  obtain ⟨pre, error, hfail, hpre, heq⟩ :=
    pollCommandsCallback_of_failure self base status events r hf
  rw [heq]
  refine ⟨?_, ⟨?_, ?_, ?_⟩, ?_, ?_, ?_⟩
  · simp only [handlerCalls_append, hpre, reconnect_handlerCalls, List.append_nil]
  · simp only [reconnect_fst]
    unfold ConnectionImpl.disconnect
    simp only [hbase, if_true]
    split_ifs <;> exact hb
  · simp only [reconnect_fst]
    unfold ConnectionImpl.disconnect
    simp only [hbase, if_true]
    split_ifs <;> rfl
  · simp only [reconnect_fst]
    unfold ConnectionImpl.disconnect
    simp only [hbase, if_true]
    split_ifs <;> rfl
  · exact (reconnect_detaches self base error r hbase).1
  · intro hd
    refine ⟨error, hfail, ?_⟩
    have hlast := reconnect_reports self base error r hbase hd
    simp only
    rw [List.getLast?_append, hlast]
    rfl
  · intro c
    exact ⟨rfl, rfl, rfl⟩

/-- Witness for C9 (amended): scenario 6. -/
theorem failure_drops_inflight_request_witness :
    handlerCalls (sampleBusyImpl.pollCommandsCallback sampleBusyBase (-9) 0
      sampleResponses).2.2 = [] ∧
    (sampleBusyImpl.pollCommandsCallback sampleBusyBase (-9) 0 sampleResponses).1.executeHandler_
      = some 7 :=
  ⟨(failure_drops_inflight_request sampleBusyImpl sampleBusyBase (-9) 0 sampleResponses
      (by decide) (by decide) (Or.inl (by decide))).1,
   by decide⟩

/-! ### Completions of an accepted request -/

theorem handlerCalls_replicate (n : Nat) :
    handlerCalls (List.replicate n Effect.PQgetResult) = [] := by
  induction n with
  | zero => rfl
  | succ n ih =>
    simp only [List.replicate_succ, handlerCalls, List.filter_cons, Effect.isExecuteHandler]
    exact ih

theorem updatePollEventmask_calls (self : ConnectionImpl) (eventmask : Nat) (r : Responses) :
    handlerCalls (self.updatePollEventmask eventmask r).2.2 = [] ∧
    (self.updatePollEventmask eventmask r).2.1.executeHandler_ = self.executeHandler_ ∧
    (self.updatePollEventmask eventmask r).2.1.base_ = self.base_ := by
  unfold ConnectionImpl.updatePollEventmask
  split_ifs <;> exact ⟨rfl, rfl, rfl⟩

theorem status_ok_single (results : List PGresult)
    (h : ¬ (PQresultStatus results.head? ≠ ExecStatusType.PGRES_TUPLES_OK ∧
      PQresultStatus results.head? ≠ ExecStatusType.PGRES_COMMAND_OK))
    (ht : ¬ results.tail ≠ []) :
    ∃ p : PGresult, results = [p] ∧
      (p.status = ExecStatusType.PGRES_TUPLES_OK ∨ p.status = ExecStatusType.PGRES_COMMAND_OK) := by
  cases results with
  | nil => simp [PQresultStatus] at h
  | cons p rest =>
    have hrest : rest = [] := by
      by_contra hne
      exact ht hne
    subst hrest
    refine ⟨p, rfl, ?_⟩
    simp only [List.head?_cons, PQresultStatus] at h
    by_cases h1 : p.status = ExecStatusType.PGRES_TUPLES_OK
    · exact Or.inl h1
    · by_cases h2 : p.status = ExecStatusType.PGRES_COMMAND_OK
      · exact Or.inr h2
      · exact absurd ⟨h1, h2⟩ h

theorem finishRequest_calls (P : Error → Recordset → Prop) (self : ConnectionImpl)
    (error : Error) (result : Recordset)
    (hc : P (if error.isFail then error else Error.Success) result) :
    CallsOk P self.base_ self.executeHandler_ (self.finishRequest error result).1.executeHandler_
      (self.finishRequest error result).2 ∧
    (self.finishRequest error result).1.base_ = self.base_ := by
  unfold ConnectionImpl.finishRequest
  simp only
  by_cases hh : self.executeHandler_.isSome = true
  · rw [if_pos hh]
    by_cases hf : error.isFail = true
    · rw [if_pos hf] at hc ⊢
      exact ⟨Or.inr ⟨hh, rfl, error, result, rfl, hc⟩, rfl⟩
    · rw [if_neg hf] at hc ⊢
      exact ⟨Or.inr ⟨hh, rfl, Error.Success, result, rfl, hc⟩, rfl⟩
  · rw [if_neg hh]
    have hnone : self.executeHandler_ = none := by
      cases h : self.executeHandler_ with
      | none => rfl
      | some k => simp [h] at hh
    exact ⟨Or.inl ⟨rfl, hnone.symm⟩, rfl⟩

theorem callsOk_behind (P : Error → Recordset → Prop) (conn : Bool) (h h2 : ExecuteHandler)
    (pre trace : List Effect)
    (hpre : handlerCalls pre = []) (hc : CallsOk P conn h h2 trace) :
    CallsOk P conn h h2 (pre ++ trace) := by
  unfold CallsOk at *
  simp only [handlerCalls_append, hpre, List.nil_append]
  exact hc

theorem callsOk_ahead (P : Error → Recordset → Prop) (conn : Bool) (h h2 : ExecuteHandler)
    (trace post : List Effect)
    (hpost : handlerCalls post = []) (hc : CallsOk P conn h h2 trace) :
    CallsOk P conn h h2 (trace ++ post) := by
  unfold CallsOk at *
  simp only [handlerCalls_append, hpost, List.append_nil]
  exact hc

theorem pollCommandsReadable_calls (self : ConnectionImpl) (events eventmask : Nat)
    (r : Responses) :
    CallsOk (Completion r) self.base_ self.executeHandler_
      (self.pollCommandsReadable events eventmask r).2.1.executeHandler_
      (self.pollCommandsReadable events eventmask r).2.2 ∧
    (self.pollCommandsReadable events eventmask r).2.1.base_ = self.base_ := by
  have hu := updatePollEventmask_calls self eventmask r
  unfold ConnectionImpl.pollCommandsReadable
  simp only
  by_cases h1 : events &&& UV_READABLE ≠ 0
  · rw [if_pos h1]
    by_cases h2 : ¬ r.consumeInput = true
    · rw [if_pos h2]
      exact ⟨Or.inl ⟨rfl, rfl⟩, rfl⟩
    · rw [if_neg h2]
      by_cases h3 : ¬ r.isBusy = true
      · rw [if_pos h3]
        by_cases h4 : PQresultStatus r.results.head? ≠ ExecStatusType.PGRES_TUPLES_OK ∧
            PQresultStatus r.results.head? ≠ ExecStatusType.PGRES_COMMAND_OK
        · rw [if_pos h4]
          have hf := finishRequest_calls (Completion r) self
            (MAKE_ERROR ("Unable to execute " ++ r.errorMessage)) r.results.head?
            ⟨rfl, Or.inr ⟨rfl, h4.1, h4.2⟩⟩
          refine ⟨?_, hf.2⟩
          refine callsOk_behind _ _ _ _
            ([Effect.PQconsumeInput, Effect.PQisBusy, Effect.PQgetResult]
              ++ List.replicate (r.results.tail.length + 1) Effect.PQgetResult) _ ?_ hf.1
          rw [handlerCalls_append, handlerCalls_replicate]
          rfl
        · rw [if_neg h4]
          by_cases h5 : r.results.tail ≠ []
          · rw [if_pos h5]
            exact ⟨Or.inl ⟨rfl, rfl⟩, rfl⟩
          · rw [if_neg h5]
            have hf := finishRequest_calls (Completion r) self Error.Success r.results.head?
              ⟨rfl, Or.inl ⟨rfl, status_ok_single _ h4 h5⟩⟩
            have hu2 := updatePollEventmask_calls
              (self.finishRequest Error.Success r.results.head?).1 eventmask r
            refine ⟨?_, hu2.2.2.trans hf.2⟩
            simp only [hu2.2.1]
            refine callsOk_ahead _ _ _ _ _ _ hu2.1 ?_
            exact callsOk_behind _ _ _ _
              [Effect.PQconsumeInput, Effect.PQisBusy, Effect.PQgetResult, Effect.PQgetResult]
              _ rfl hf.1
      · rw [if_neg h3]
        refine ⟨?_, hu.2.2⟩
        simp only [hu.2.1]
        exact callsOk_behind _ _ _ _ [Effect.PQconsumeInput, Effect.PQisBusy] _ rfl
          (Or.inl ⟨hu.1, rfl⟩)
  · rw [if_neg h1]
    exact ⟨Or.inl ⟨hu.1, hu.2.1⟩, hu.2.2⟩

theorem pollCommands_calls (self : ConnectionImpl) (events : Nat) (r : Responses) :
    CallsOk (Completion r) self.base_ self.executeHandler_
      (self.pollCommands events r).2.1.executeHandler_
      (self.pollCommands events r).2.2 ∧
    (self.pollCommands events r).2.1.base_ = self.base_ := by
  unfold ConnectionImpl.pollCommands
  simp only
  by_cases h1 : events &&& UV_WRITABLE ≠ 0
  · rw [if_pos h1]
    by_cases h2 : r.flushRc = 1
    · rw [if_pos h2]
      exact ⟨callsOk_behind _ _ _ _ [Effect.PQflush] _ rfl
          (pollCommandsReadable_calls _ _ _ _).1,
        (pollCommandsReadable_calls _ _ _ _).2⟩
    · rw [if_neg h2]
      by_cases h3 : r.flushRc ≠ 0 ∧ r.flushRc = -1
      · rw [if_pos h3]
        exact ⟨Or.inl ⟨rfl, rfl⟩, rfl⟩
      · rw [if_neg h3]
        exact ⟨callsOk_behind _ _ _ _ [Effect.PQflush] _ rfl
            (pollCommandsReadable_calls _ _ _ _).1,
          (pollCommandsReadable_calls _ _ _ _).2⟩
  · rw [if_neg h1]
    exact pollCommandsReadable_calls _ _ _ _

theorem disconnect_handler (self : ConnectionImpl) (base : Connection) :
    (self.disconnect base).1.executeHandler_ = self.executeHandler_ := by
  unfold ConnectionImpl.disconnect
  simp only
  split_ifs <;> rfl

theorem pollCommandsCallback_calls (self : ConnectionImpl) (base : Connection) (status : Int)
    (events : Nat) (r : Responses) (hbase : self.base_ = true) :
    CallsOk (Completion r) true self.executeHandler_
      (self.pollCommandsCallback base status events r).1.executeHandler_
      (self.pollCommandsCallback base status events r).2.2 ∧
    (((self.pollCommandsCallback base status events r).1.base_ = true ∧
        (self.pollCommandsCallback base status events r).2.1 = base) ∨
      (self.pollCommandsCallback base status events r).2.1.connectionImpl_ = none) := by
  have hp := pollCommands_calls self events r
  rw [hbase] at hp
  unfold ConnectionImpl.pollCommandsCallback
  simp only
  by_cases h1 : status < 0
  · rw [if_pos h1]
    refine ⟨Or.inl ⟨reconnect_handlerCalls _ _ _ _, ?_⟩,
      Or.inr (reconnect_detaches _ _ _ _ hbase).1⟩
    rw [reconnect_fst, disconnect_handler]
  · rw [if_neg h1]
    by_cases h2 : (self.pollCommands events r).1.isFail = true
    · rw [if_pos h2]
      refine ⟨?_, Or.inr (reconnect_detaches _ _ _ _ hp.2).1⟩
      simp only [reconnect_fst, disconnect_handler]
      exact callsOk_ahead _ _ _ _ _ _ (reconnect_handlerCalls _ _ _ _) hp.1
    · rw [if_neg h2]
      exact ⟨hp.1, Or.inl ⟨hp.2, rfl⟩⟩

theorem step_poll_calls (c : Connection) (h : ExecuteHandler) (status : Int) (events : Nat)
    (r : Responses) (hs : c.Stores h) :
    (handlerCalls (step c (Op.pollCommandsCallback status events r)).2 = [] ∧
      (step c (Op.pollCommandsCallback status events r)).1.Stores h) ∨
    (h.isSome = true ∧ (step c (Op.pollCommandsCallback status events r)).1.Stores none ∧
      ∃ (e : Error) (res : Recordset),
        handlerCalls (step c (Op.pollCommandsCallback status events r)).2
          = [Effect.executeHandler h e res true] ∧ Completion r e res) := by
  simp only [step, Connection.onImpl]
  cases hi : c.connectionImpl_ with
  | none =>
    refine Or.inl ⟨rfl, ?_⟩
    intro impl himpl
    exact hs impl himpl
  | some impl =>
    obtain ⟨hh, hbase⟩ := hs impl hi
    obtain ⟨hcalls, hatt⟩ := pollCommandsCallback_calls impl c status events r hbase
    have hstores : ∀ g : ExecuteHandler,
        (impl.pollCommandsCallback c status events r).1.executeHandler_ = g →
        (attach (impl.pollCommandsCallback c status events r)).1.Stores g := by
      intro g hg impl2 h2
      unfold attach at h2
      by_cases hb : (impl.pollCommandsCallback c status events r).1.base_ = true
      · rw [if_pos hb] at h2
        simp only [Option.some.injEq] at h2
        subst h2
        exact ⟨hg, hb⟩
      · rw [if_neg hb] at h2
        rcases hatt with ⟨hb2, _⟩ | hnone
        · exact absurd hb2 hb
        · simp only [hnone] at h2
          cases h2
    have htrace : (attach (impl.pollCommandsCallback c status events r)).2
        = (impl.pollCommandsCallback c status events r).2.2 := by
      unfold attach
      split_ifs <;> rfl
    simp only
    rw [htrace]
    rw [hh] at hcalls
    rcases hcalls with ⟨h0, hsame⟩ | ⟨hsome, hnone, e, res, hc1, hc2⟩
    · exact Or.inl ⟨h0, hstores h hsame⟩
    · exact Or.inr ⟨hsome, hstores none hnone, e, res, hc1, hc2⟩

theorem run_polls_idle (c : Connection) (polls : List (Int × Nat × Responses))
    (hs : c.Stores none) : handlerCalls (run c (commandPolls polls)).2 = [] := by
  induction polls generalizing c with
  | nil => rfl
  | cons e es ih =>
    simp only [commandPolls, List.map_cons, run, handlerCalls_append]
    rcases step_poll_calls c none e.1 e.2.1 e.2.2 hs with ⟨h0, hst⟩ | ⟨hsome, _⟩
    · rw [h0]
      exact ih _ hst
    · cases hsome

theorem run_polls_calls (c : Connection) (h : ExecuteHandler)
    (polls : List (Int × Nat × Responses)) (hs : c.Stores h) :
    handlerCalls (run c (commandPolls polls)).2 = [] ∨
    ∃ p ∈ polls, ∃ (e : Error) (res : Recordset),
      handlerCalls (run c (commandPolls polls)).2 = [Effect.executeHandler h e res true] ∧
        Completion p.2.2 e res := by
  induction polls generalizing c with
  | nil => exact Or.inl rfl
  | cons p ps ih =>
    simp only [commandPolls, List.map_cons, run, handlerCalls_append]
    rcases step_poll_calls c h p.1 p.2.1 p.2.2 hs with ⟨h0, hst⟩ | ⟨_, hst, e, res, h1, h2⟩
    · rw [h0]
      rcases ih _ hst with hnil | ⟨q, hq, e, res, h1, h2⟩
      · exact Or.inl hnil
      · exact Or.inr ⟨q, List.mem_cons_of_mem _ hq, e, res, h1, h2⟩
    · have hidle := run_polls_idle _ ps hst
      simp only [commandPolls] at hidle
      rw [h1, hidle]
      exact Or.inr ⟨p, List.mem_cons_self _ _, e, res, rfl, h2⟩

theorem executeAsync_accepted (self : ConnectionImpl) (base : Connection) (name : String)
    (queryData : Option QueryData) (handler : ExecuteHandler) (requestId : RequestId)
    (rc : Int) (errorMessage : String)
    (hs : self.state_ = State.Connected) (hb : self.isBusy = false) (hrc : rc ≠ 0)
    (hchk : ∀ qd, queryData = some qd → checkOids self base name qd = none) :
    (self.executeAsync base name queryData handler requestId rc errorMessage).1
      = { self with executeHandler_ := handler, requestId_ := requestId, isExecuting_ := true } := by
  unfold ConnectionImpl.executeAsync
  simp only [hs, hb, hrc, ne_eq, not_true_eq_false, if_false, Bool.false_eq_true]
  cases queryData with
  | none => rfl
  | some qd => simp only [hchk qd rfl]

/-- C10 (as stated, refuted): after the accepted execute of scenario 2, the
library hands out a FATAL_ERROR result; the handler gets a failing error
together with a record set that holds that result, not the empty record
set. -/
theorem completion_counterexample :
    handlerCalls (run (Connection.new true) (sampleExecuteOps ++ commandPolls [sampleErrorPoll])).2
      = [Effect.executeHandler (some 7) (Error.Fail "Unable to execute ERROR: boom")
          (some (sampleResult ExecStatusType.PGRES_FATAL_ERROR [])) true] ∧
    (some (sampleResult ExecStatusType.PGRES_FATAL_ERROR []) : Recordset) ≠ none := by
  decide

/-- C10 (amended): for every asynchronous execute that an attached, Connected,
non-busy state machine accepts (the parameter check passes and the library
takes the query), the request id is stored and, over any sequence of later
command-poll events, at most one completion is delivered, to the handler of
that execute and with the facade as connection; each delivered completion
belongs to one of the poll events and carries the first result that the
library handed out during that event: either Success, that result being the
only one and of status TUPLES_OK or COMMAND_OK, or the error "Unable to
execute" followed by the library's message, together with the record set
that holds that first result, whose status is neither (the record set is
empty exactly when the library handed out no result at all). -/
theorem completion_at_most_once (c : Connection) (impl : ConnectionImpl) (name : String)
    (queryData : Option QueryData) (handler : ExecuteHandler) (requestId : RequestId)
    (rc : Int) (errorMessage : String) (polls : List (Int × Nat × Responses))
    (hc : c.connectionImpl_ = some impl) (hbase : impl.base_ = true)
    (hs : impl.state_ = State.Connected) (hb : impl.isBusy = false) (hrc : rc ≠ 0)
    (hchk : ∀ qd, queryData = some qd → checkOids impl c name qd = none) :
    (c.executeAsync name queryData handler requestId rc errorMessage).1.currentRequestId
      = requestId ∧
    (handlerCalls (run (c.executeAsync name queryData handler requestId rc errorMessage).1
      (commandPolls polls)).2).length ≤ 1 ∧
    ∀ eff ∈ handlerCalls (run (c.executeAsync name queryData handler requestId rc errorMessage).1
        (commandPolls polls)).2,
      ∃ p ∈ polls, ∃ (e : Error) (res : Recordset),
        eff = Effect.executeHandler handler e res true ∧ Completion p.2.2 e res ∧
        (res = none ↔ p.2.2.results = []) := by
  have hacc := executeAsync_accepted impl c name queryData handler requestId rc errorMessage
    hs hb hrc hchk
  have hfacade : (c.executeAsync name queryData handler requestId rc errorMessage).1
      = { c with connectionImpl_ := some (impl.executeAsync c name queryData handler requestId
            rc errorMessage).1 } := by
    simp only [Connection.executeAsync, hc]
  have hstores : (c.executeAsync name queryData handler requestId rc errorMessage).1.Stores
      handler := by
    rw [hfacade, hacc]
    intro impl2 h2
    simp only [Option.some.injEq] at h2
    subst h2
    exact ⟨rfl, hbase⟩
  refine ⟨?_, ?_, ?_⟩
  · rw [hfacade, hacc]
    rfl
  · rcases run_polls_calls _ handler polls hstores with h0 | ⟨p, _, e, res, h1, _⟩
    · rw [h0]
      exact Nat.zero_le 1
    · rw [h1]
      exact Nat.le_refl 1
  · intro eff heff
    rcases run_polls_calls _ handler polls hstores with h0 | ⟨p, hp, e, res, h1, h2⟩
    · rw [h0] at heff
      cases heff
    · rw [h1] at heff
      simp only [List.mem_singleton] at heff
      refine ⟨p, hp, e, res, heff, h2, ?_⟩
      rw [h2.1]
      cases p.2.2.results <;> simp

/-- Witness for C10 (amended): the execute of scenario 2 followed by two
notifications that each hand out a FATAL_ERROR result; the one completion
carries the result of the first notification. -/
theorem completion_at_most_once_witness :
    (handlerCalls (run (sampleBase.executeAsync "s1" (some (sampleParams 23)) (some 7)
        (RequestId.id 42) 1 "").1 (commandPolls [sampleErrorPoll, sampleErrorPoll])).2
      = [Effect.executeHandler (some 7) (Error.Fail "Unable to execute ERROR: boom")
          (some (sampleResult ExecStatusType.PGRES_FATAL_ERROR [])) true] ∧
      sampleErrorPoll.2.2.results.head?
        = some (sampleResult ExecStatusType.PGRES_FATAL_ERROR []) ∧
      sampleErrorPoll.2.2.errorMessage = "ERROR: boom") ∧
    (handlerCalls (run (sampleBase.executeAsync "s1" (some (sampleParams 23)) (some 7)
        (RequestId.id 42) 1 "").1 (commandPolls [sampleErrorPoll, sampleErrorPoll])).2).length
      ≤ 1 ∧
    ∃ p ∈ [sampleErrorPoll, sampleErrorPoll], ∃ (e : Error) (res : Recordset),
      Effect.executeHandler (some 7) (Error.Fail "Unable to execute ERROR: boom")
          (some (sampleResult ExecStatusType.PGRES_FATAL_ERROR [])) true
        = Effect.executeHandler (some 7) e res true ∧
      Completion p.2.2 e res ∧ (res = none ↔ p.2.2.results = []) :=
  ⟨by decide,
   (completion_at_most_once sampleBase sampleImpl "s1" (some (sampleParams 23)) (some 7)
      (RequestId.id 42) 1 "" [sampleErrorPoll, sampleErrorPoll] rfl (by decide) (by decide)
      (by decide) (by decide)
      (fun qd hqd => by
        simp only [Option.some.injEq] at hqd
        subst hqd
        decide)).2.1,
   (completion_at_most_once sampleBase sampleImpl "s1" (some (sampleParams 23)) (some 7)
      (RequestId.id 42) 1 "" [sampleErrorPoll, sampleErrorPoll] rfl (by decide) (by decide)
      (by decide) (by decide)
      (fun qd hqd => by
        simp only [Option.some.injEq] at hqd
        subst hqd
        decide)).2.2 _ (by decide)⟩

/-! ### Reconnect and destroy -/

theorem disconnect_no_report (self : ConnectionImpl) (base : Connection) :
    ∀ eff ∈ (self.disconnect base).2.2,
      eff.isDisconnectedHandler = false ∧ eff.isReconnectTimerRestart = false := by
  unfold ConnectionImpl.disconnect
  simp only
  split_ifs <;> simp [Effect.isDisconnectedHandler, Effect.isReconnectTimerRestart]

/-- C11 (as stated, refuted): with autoReconnect set but the event loop not
running, reconnect tears the state machine down and reports the error, and
the reconnect timer is neither restarted nor armed. -/
theorem reconnect_timer_counterexample :
    sampleStoppedBase.options_.isAutoReconnect = true ∧ sampleImpl.base_ = true ∧
    (sampleImpl.reconnect sampleStoppedBase (Error.Fail "boom") sampleResponses).2.2
      = [Effect.connectTimerStop, Effect.closeFd 5, Effect.PQfinish, Effect.uvPollStop,
         Effect.uvClose, Effect.disconnectedHandler (some 11) (Error.Fail "boom")] ∧
    (sampleImpl.reconnect sampleStoppedBase (Error.Fail "boom") sampleResponses).2.1.reconnectTimer_
      = false := by
  decide

/-- C11 (amended): for every error e and every state machine whose facade is
still attached, reconnect(e) first disconnects (the facade's pointer to the
state machine becomes null and the back-reference is cleared; the teardown
neither restarts the timer nor invokes the handler), then requests the restart
of the reconnect timer with reconnectInterval if and only if
options.autoReconnect is set and the event loop is running (the timer is then
armed if the restart succeeds), and then invokes the facade's
disconnectedHandler once with e if one is registered, and not at all
otherwise; when the facade is no longer attached, reconnect makes no call and
leaves the facade as it is. -/
theorem reconnect_effects (self : ConnectionImpl) (base : Connection) (error : Error)
    (r : Responses) :
    (self.base_ = true →
      (self.reconnect base error r).2.1.connectionImpl_ = none ∧
      (self.reconnect base error r).1.base_ = false ∧
      (self.reconnect base error r).2.2
        = (self.disconnect base).2.2
          ++ (if base.options_.isAutoReconnect = true ∧ base.eventLoopRunning = true then
                [Effect.reconnectTimerRestart base.options_.reconnectInterval] else [])
          ++ (if base.disconnectedHandler_.isSome = true then
                [Effect.disconnectedHandler base.disconnectedHandler_ error] else []) ∧
      (∀ eff ∈ (self.disconnect base).2.2,
        eff.isDisconnectedHandler = false ∧ eff.isReconnectTimerRestart = false) ∧
      (self.reconnect base error r).2.1.reconnectTimer_
        = (if base.options_.isAutoReconnect = true ∧ base.eventLoopRunning = true then
            r.timerRestartOk else base.reconnectTimer_)) ∧
    (self.base_ = false →
      (self.reconnect base error r).2.2 = [] ∧ (self.reconnect base error r).2.1 = base) := by
  constructor
  · intro hbase
    have hd := (disconnect_detaches self base hbase).1
    refine ⟨(reconnect_detaches self base error r hbase).1,
      (reconnect_detaches self base error r hbase).2, ?_, disconnect_no_report self base, ?_⟩
    · unfold ConnectionImpl.reconnect
      simp only [hbase, if_true]
      rw [hd]
      by_cases ha : base.options_.isAutoReconnect = true <;>
        by_cases hrun : base.eventLoopRunning = true <;>
        by_cases hok : r.timerRestartOk = true <;>
        simp [Connection.startReconnectTimer, ha, hrun, hok]
    · unfold ConnectionImpl.reconnect
      simp only [hbase, if_true]
      rw [hd]
      by_cases ha : base.options_.isAutoReconnect = true <;>
        by_cases hrun : base.eventLoopRunning = true <;>
        by_cases hok : r.timerRestartOk = true <;>
        simp [Connection.startReconnectTimer, ha, hrun, hok]
  · intro hbase
    unfold ConnectionImpl.reconnect ConnectionImpl.disconnect
    simp [hbase]

/-- Witness for C11 (amended): auto-reconnect on a running event loop. -/
theorem reconnect_effects_witness :
    (sampleImpl.reconnect sampleAutoBase (Error.Fail "boom") sampleResponses).2.2
      = (sampleImpl.disconnect sampleAutoBase).2.2
        ++ (if sampleAutoBase.options_.isAutoReconnect = true ∧
              sampleAutoBase.eventLoopRunning = true then
              [Effect.reconnectTimerRestart sampleAutoBase.options_.reconnectInterval] else [])
        ++ (if sampleAutoBase.disconnectedHandler_.isSome = true then
              [Effect.disconnectedHandler sampleAutoBase.disconnectedHandler_ (Error.Fail "boom")]
            else []) :=
  ((reconnect_effects sampleImpl sampleAutoBase (Error.Fail "boom") sampleResponses).1
    (by decide)).2.2.1

theorem disconnect_base_fields (self : ConnectionImpl) (base : Connection) :
    (self.disconnect base).2.1 = base ∨
    (self.disconnect base).2.1 = { base with connectionImpl_ := none } := by
  unfold ConnectionImpl.disconnect
  simp only
  split_ifs <;> first | exact Or.inl rfl | exact Or.inr rfl

theorem disconnect_base_handler (self : ConnectionImpl) (base : Connection) :
    (self.disconnect base).2.1.disconnectedHandler_ = base.disconnectedHandler_ := by
  rcases disconnect_base_fields self base with h | h <;> rw [h]

theorem disconnect_base_timer (self : ConnectionImpl) (base : Connection) :
    (self.disconnect base).2.1.reconnectTimer_ = base.reconnectTimer_ := by
  rcases disconnect_base_fields self base with h | h <;> rw [h]

theorem disconnect_filter_report (self : ConnectionImpl) (base : Connection) :
    (self.disconnect base).2.2.filter Effect.isDisconnectedHandler = [] := by
  rw [List.filter_eq_nil_iff]
  intro eff heff
  simp [(disconnect_no_report self base eff heff).1]

theorem disconnect_deletes (self : ConnectionImpl) (base : Connection)
    (hbase : self.base_ = true) :
    (self.handle_ = true ∧ self.pollHandle_ = true →
      Effect.uvClose ∈ (self.disconnect base).2.2 ∧
      Effect.deleteThis ∉ (self.disconnect base).2.2) ∧
    (¬ (self.handle_ = true ∧ self.pollHandle_ = true) →
      Effect.deleteThis ∈ (self.disconnect base).2.2) := by
  unfold ConnectionImpl.disconnect
  simp only [hbase, if_true]
  by_cases hh : self.handle_ = true <;> by_cases hp : self.pollHandle_ = true <;>
    by_cases hfd : self.fd_ ≥ 0 <;> by_cases hdns : self.dnsRequestId_ = true <;>
    simp [hh, hp, hfd, hdns]

theorem destroy_trace (c : Connection) :
    c.destroy.2 = Effect.reconnectTimerStop ::
      (match c.connectionImpl_ with
       | some impl =>
         (impl.disconnect { c with reconnectTimer_ := false }).2.2
           ++ (if c.disconnectedHandler_.isSome = true then
                 [Effect.disconnectedHandler c.disconnectedHandler_ Error.Success] else [])
       | none => []) := by
  unfold Connection.destroy
  cases h : c.connectionImpl_ with
  | none => simp [h]
  | some impl =>
    simp only [h, disconnect_base_handler]

/-- C12 (as stated, refuted): a facade initialised without a disconnected
handler has a state machine attached; destroy tears it down and invokes no
disconnected handler. -/
theorem destroy_handler_counterexample :
    sampleSilentBase.connectionImpl_ = some sampleImpl ∧
    sampleSilentBase.destroy.2
      = [Effect.reconnectTimerStop, Effect.connectTimerStop, Effect.closeFd 5, Effect.PQfinish,
         Effect.uvPollStop, Effect.uvClose] ∧
    sampleSilentBase.destroy.2.filter Effect.isDisconnectedHandler = [] := by
  decide

/-- C12 (amended): for every facade state, destroy() first stops the reconnect
timer, never restarts it and leaves it unarmed, tears down the attached state
machine if there is one (a state machine whose back-reference is set is
deleted: at once, or, when it has a protocol handle and a poll handle, by the
close callback that the requested `uvClose` runs later), and invokes disconnectedHandler exactly once, with Success, if and
only if a state machine was attached and a disconnected handler is registered;
afterwards no state machine is attached, isValid() is false and both handlers
are cleared, so a second destroy() only stops the timer. -/
theorem destroy_effects (c : Connection) :
    c.destroy.2.head? = some Effect.reconnectTimerStop ∧
    (∀ eff ∈ c.destroy.2, eff.isReconnectTimerRestart = false) ∧
    c.destroy.1.reconnectTimer_ = false ∧
    (∀ impl, c.connectionImpl_ = some impl →
      c.destroy.2 = Effect.reconnectTimerStop ::
        ((impl.disconnect { c with reconnectTimer_ := false }).2.2
          ++ (if c.disconnectedHandler_.isSome = true then
                [Effect.disconnectedHandler c.disconnectedHandler_ Error.Success] else [])) ∧
      (impl.base_ = true →
        (impl.handle_ = true ∧ impl.pollHandle_ = true →
          Effect.uvClose ∈ c.destroy.2 ∧ Effect.deleteThis ∈ ConnectionImpl.closeCallback) ∧
        (¬ (impl.handle_ = true ∧ impl.pollHandle_ = true) →
          Effect.deleteThis ∈ c.destroy.2))) ∧
    c.destroy.2.filter Effect.isDisconnectedHandler
      = (if c.connectionImpl_.isSome = true ∧ c.disconnectedHandler_.isSome = true then
          [Effect.disconnectedHandler c.disconnectedHandler_ Error.Success] else []) ∧
    c.destroy.1.connectionImpl_ = none ∧ c.destroy.1.isValid = false ∧
    c.destroy.1.connectedHandler_ = none ∧ c.destroy.1.disconnectedHandler_ = none ∧
    c.destroy.1.destroy.2 = [Effect.reconnectTimerStop] := by
  have ht := destroy_trace c
  refine ⟨?_, ?_, ?_, ?_, ?_, destroy_impl c, ?_, ?_, ?_, ?_⟩
  · rw [ht]
    rfl
  · intro eff heff
    rw [ht] at heff
    cases h : c.connectionImpl_ with
    | none =>
      simp only [h, List.mem_singleton] at heff
      subst heff
      rfl
    | some impl =>
      simp only [h, List.mem_cons, List.mem_append] at heff
      rcases heff with heff | heff | heff
      · subst heff
        rfl
      · exact (disconnect_no_report impl _ eff heff).2
      · split_ifs at heff
        · simp only [List.mem_singleton] at heff
          subst heff
          rfl
        · cases heff
  · unfold Connection.destroy
    cases h : c.connectionImpl_ with
    | none => rfl
    | some impl =>
      simp only [h, disconnect_base_timer]
  · intro impl h
    rw [ht]
    simp only [h, List.mem_cons, List.mem_append, true_and]
    intro hbase
    refine ⟨fun hhp => ⟨Or.inr (Or.inl ((disconnect_deletes impl _ hbase).1 hhp).1), ?_⟩,
      fun hhp => Or.inr (Or.inl ((disconnect_deletes impl _ hbase).2 hhp))⟩
    simp [ConnectionImpl.closeCallback]
  · rw [ht]
    cases h : c.connectionImpl_ with
    | none => simp [Effect.isDisconnectedHandler]
    | some impl =>
      simp only [h, Option.isSome_some, true_and, List.filter_cons, Effect.isDisconnectedHandler,
        Bool.false_eq_true, if_false, List.filter_append, disconnect_filter_report,
        List.nil_append]
      split_ifs <;> simp [Effect.isDisconnectedHandler]
  · simp [Connection.isValid, destroy_impl]
  · unfold Connection.destroy
    rfl
  · unfold Connection.destroy
    rfl
  · rw [destroy_trace, destroy_impl]

/-- Witness for C12 (amended): the facade of scenario 1 is destroyed. -/
theorem destroy_effects_witness :
    sampleBase.destroy.2 = Effect.reconnectTimerStop ::
        ((sampleImpl.disconnect { sampleBase with reconnectTimer_ := false }).2.2
          ++ (if sampleBase.disconnectedHandler_.isSome = true then
                [Effect.disconnectedHandler sampleBase.disconnectedHandler_ Error.Success]
              else [])) ∧
    (Effect.uvClose ∈ sampleBase.destroy.2 ∧
      Effect.deleteThis ∈ ConnectionImpl.closeCallback) :=
  ⟨((destroy_effects sampleBase).2.2.2.1 sampleImpl rfl).1,
   (((destroy_effects sampleBase).2.2.2.1 sampleImpl rfl).2 (by decide)).1 (by decide)⟩

/-! ### The connection keywords -/

/-- C13: for every options value and resolved address, the keyword and value
vectors composed by connect have equal length and pair, in this order, dbname
with the database name (present if and only if that name is non-empty, which
is also exactly when the expand-dbname argument is 1 and not 0), hostaddr with
the address, port, user, then with TLS allowed host with the unresolved
hostname, sslmode with verify-full followed by sslrootcert with the CA path if
a CA path is staged and sslmode with require and no sslrootcert otherwise,
sslcert, sslkey, and no password; with TLS not allowed password and none of
the TLS keywords; and last connect_timeout. -/
theorem connect_keywords (base : Connection) (address : String) :
    (connectKeywordsValues base address).1.length
      = (connectKeywordsValues base address).2.length ∧
    (connectKeywordsValues base address).1.zip (connectKeywordsValues base address).2
      = (if base.options_.databaseName ≠ "" then [("dbname", base.options_.databaseName)]
          else [])
        ++ [("hostaddr", address), ("port", toString base.options_.port),
            ("user", base.options_.userName)]
        ++ (if base.options_.sslOptions.isAllow = true then
              [("host", base.options_.hosts.getD base.hostIndex_ "")]
              ++ (if base.sslTemporaryFiles_.ca_ ≠ "" then
                    [("sslmode", "verify-full"), ("sslrootcert", base.sslTemporaryFiles_.ca_)]
                  else [("sslmode", "require")])
              ++ [("sslcert", base.sslTemporaryFiles_.certificate_),
                  ("sslkey", base.sslTemporaryFiles_.key_)]
            else [("password", base.options_.password)])
        ++ [("connect_timeout", toString (base.options_.connectTimeout / 1000))] ∧
    ("hostaddr" ∈ (connectKeywordsValues base address).1 ∧
      "port" ∈ (connectKeywordsValues base address).1 ∧
      "user" ∈ (connectKeywordsValues base address).1 ∧
      "connect_timeout" ∈ (connectKeywordsValues base address).1) ∧
    ("dbname" ∈ (connectKeywordsValues base address).1 ↔ base.options_.databaseName ≠ "") ∧
    (base.options_.sslOptions.isAllow = true →
      "host" ∈ (connectKeywordsValues base address).1 ∧
      "sslcert" ∈ (connectKeywordsValues base address).1 ∧
      "sslkey" ∈ (connectKeywordsValues base address).1 ∧
      "sslmode" ∈ (connectKeywordsValues base address).1 ∧
      "password" ∉ (connectKeywordsValues base address).1 ∧
      ("sslrootcert" ∈ (connectKeywordsValues base address).1
        ↔ base.sslTemporaryFiles_.ca_ ≠ "")) ∧
    (base.options_.sslOptions.isAllow = false →
      "password" ∈ (connectKeywordsValues base address).1 ∧
      "host" ∉ (connectKeywordsValues base address).1 ∧
      "sslmode" ∉ (connectKeywordsValues base address).1 ∧
      "sslrootcert" ∉ (connectKeywordsValues base address).1 ∧
      "sslcert" ∉ (connectKeywordsValues base address).1 ∧
      "sslkey" ∉ (connectKeywordsValues base address).1) ∧
    (∀ (self : ConnectionImpl) (r : Responses),
      (self.connect base address r).2.2.head?
        = some (Effect.PQconnectStartParams (connectKeywordsValues base address).1
            (connectKeywordsValues base address).2
            (if base.options_.databaseName ≠ "" then 1 else 0))) := by
  refine ⟨?_, ?_, ?_, ?_, ?_, ?_, ?_⟩
  · by_cases h1 : base.options_.databaseName = "" <;>
      by_cases h2 : base.options_.sslOptions.isAllow = true <;>
      by_cases h3 : base.sslTemporaryFiles_.ca_ = "" <;>
      simp [connectKeywordsValues, h1, h2, h3]
  · by_cases h1 : base.options_.databaseName = "" <;>
      by_cases h2 : base.options_.sslOptions.isAllow = true <;>
      by_cases h3 : base.sslTemporaryFiles_.ca_ = "" <;>
      simp [connectKeywordsValues, h1, h2, h3]
  · by_cases h1 : base.options_.databaseName = "" <;>
      by_cases h2 : base.options_.sslOptions.isAllow = true <;>
      by_cases h3 : base.sslTemporaryFiles_.ca_ = "" <;>
      simp [connectKeywordsValues, h1, h2, h3]
  · by_cases h1 : base.options_.databaseName = "" <;>
      by_cases h2 : base.options_.sslOptions.isAllow = true <;>
      by_cases h3 : base.sslTemporaryFiles_.ca_ = "" <;>
      simp [connectKeywordsValues, h1, h2, h3]
  · intro h2
    by_cases h1 : base.options_.databaseName = "" <;>
      by_cases h3 : base.sslTemporaryFiles_.ca_ = "" <;>
      simp [connectKeywordsValues, h1, h2, h3]
  · intro h2
    by_cases h1 : base.options_.databaseName = "" <;>
      simp [connectKeywordsValues, h1, h2]
  · intro self r
    unfold ConnectionImpl.connect
    simp only
    by_cases h1 : base.options_.databaseName = "" <;>
      simp only [h1, ne_eq, not_true_eq_false, not_false_eq_true, if_true, if_false] <;>
      split_ifs <;> rfl

/-- Witness for C13: a TLS connection with a staged CA and a database name. -/
theorem connect_keywords_witness :
    (connectKeywordsValues sampleTlsBase "1.2.3.4").1.zip
        (connectKeywordsValues sampleTlsBase "1.2.3.4").2
      = [("dbname", "db"), ("hostaddr", "1.2.3.4"), ("port", "5432"), ("user", "u"),
         ("host", "h1"), ("sslmode", "verify-full"), ("sslrootcert", "/proc/self/fd/9"),
         ("sslcert", "/proc/self/fd/7"), ("sslkey", "/proc/self/fd/8"),
         ("connect_timeout", "5")] ∧
    "password" ∉ (connectKeywordsValues sampleTlsBase "1.2.3.4").1 :=
  ⟨by decide, ((connect_keywords sampleTlsBase "1.2.3.4").2.2.2.2.1 (by decide)).2.2.2.2.1⟩

/-! ### Poll notifications -/

theorem complement32_three_testBit (i : Nat) :
    (complement32 (UV_READABLE ||| UV_WRITABLE)).testBit i = (decide (i < 32) && decide (2 ≤ i)) := by
  have h : complement32 (UV_READABLE ||| UV_WRITABLE) = 2 ^ 32 - (3 + 1) := by decide
  rw [h, Nat.testBit_two_pow_sub_succ (by decide) i]
  have h3 : (3 : Nat) = 2 ^ 2 - 1 := by decide
  rw [h3, Nat.testBit_two_pow_sub_one]
  by_cases h2 : i < 2
  · simp [h2]
  · simp [h2]
    omega

/-- The test `(events & ~(UV_READABLE | UV_WRITABLE)) != 0` on a 32-bit mask
holds exactly when some bit other than the readable and writable bits is set. -/
theorem outside_bits_iff (events : Nat) (h : events < 2 ^ 32) :
    events &&& complement32 (UV_READABLE ||| UV_WRITABLE) ≠ 0
      ↔ ∃ i, 2 ≤ i ∧ events.testBit i = true := by
  constructor
  · intro hne
    obtain ⟨i, hi⟩ := Nat.ne_zero_implies_bit_true hne
    rw [Nat.testBit_and, complement32_three_testBit] at hi
    simp only [Bool.and_eq_true, decide_eq_true_eq] at hi
    exact ⟨i, hi.2.2, hi.1⟩
  · rintro ⟨i, h2, hi⟩ hzero
    have hlt : i < 32 := by
      by_contra hge
      have : events < 2 ^ i :=
        Nat.lt_of_lt_of_le h (Nat.pow_le_pow_right (by decide) (by omega))
      rw [Nat.testBit_lt_two_pow this] at hi
      cases hi
    have hb : (events &&& complement32 (UV_READABLE ||| UV_WRITABLE)).testBit i = true := by
      rw [Nat.testBit_and, complement32_three_testBit, hi]
      simp [hlt, h2]
    rw [hzero] at hb
    simp at hb

theorem startReconnectTimer_mem (c : Connection) (r : Responses) :
    ∀ eff ∈ (c.startReconnectTimer r).2.2, ∃ n, eff = Effect.reconnectTimerRestart n := by
  unfold Connection.startReconnectTimer
  split_ifs <;> simp

theorem reconnect_mem (self : ConnectionImpl) (base : Connection) (error : Error)
    (r : Responses) :
    ∀ eff ∈ (self.reconnect base error r).2.2,
      eff ∈ (self.disconnect base).2.2 ∨ (∃ n, eff = Effect.reconnectTimerRestart n) ∨
        (∃ h, eff = Effect.disconnectedHandler h error) := by
  intro eff heff
  unfold ConnectionImpl.reconnect at heff
  simp only at heff
  split_ifs at heff <;> simp only [List.mem_append, List.mem_singleton, List.append_nil,
    List.not_mem_nil, or_false] at heff
  · rcases heff with (h | h) | h
    · exact Or.inl h
    · exact Or.inr (Or.inl (startReconnectTimer_mem _ _ eff h))
    · exact Or.inr (Or.inr ⟨_, h⟩)
  · rcases heff with h | h
    · exact Or.inl h
    · exact Or.inr (Or.inl (startReconnectTimer_mem _ _ eff h))
  · rcases heff with h | h
    · exact Or.inl h
    · exact Or.inr (Or.inr ⟨_, h⟩)
  · exact Or.inl heff
  · exact Or.inl heff

theorem disconnect_no_handshakePoll (self : ConnectionImpl) (base : Connection) :
    ∀ eff ∈ (self.disconnect base).2.2, eff.isHandshakePoll = false := by
  unfold ConnectionImpl.disconnect
  simp only
  split_ifs <;> simp [Effect.isHandshakePoll]

theorem reconnect_no_handshakePoll (self : ConnectionImpl) (base : Connection) (error : Error)
    (r : Responses) :
    ∀ eff ∈ (self.reconnect base error r).2.2, eff.isHandshakePoll = false := by
  intro eff heff
  rcases reconnect_mem self base error r eff heff with h | ⟨n, h⟩ | ⟨g, h⟩
  · exact disconnect_no_handshakePoll self base eff h
  · rw [h]
    rfl
  · rw [h]
    rfl

/-- C14 (as stated, refuted): in the command phase a notification with status 0
whose event mask is 4, a bit outside readable and writable, does not fail the
connection: nothing is called and facade and state machine stay as they are;
and status -9 is reported there as "Bad status -9". -/
theorem poll_notification_counterexample :
    4 &&& complement32 (UV_READABLE ||| UV_WRITABLE) ≠ 0 ∧
    sampleImpl.pollCommandsCallback sampleBase 0 4 sampleResponses
      = (sampleImpl, sampleBase, []) ∧
    (sampleImpl.pollCommandsCallback sampleBase (-9) 3 sampleResponses).2.2.getLast?
      = some (Effect.disconnectedHandler (some 11) (Error.Fail "Bad status -9")) := by
  decide

/-- C14 (amended): a negative status fails the connection in the handshake
phase and in the command phase alike (reconnect is taken); in the handshake
phase status -9 is reported as "Unable to connect to postgresql server." with
the library's message and any other negative status as "Bad status" with the
number, in the command phase every negative status as "Bad status" with the
number.  In the handshake phase a non-negative status whose event bitmask has
any bit outside readable and writable is reported as "Unexpected event" with
the mask and fails the connection without polling the protocol library
(neither `PQconnectPoll` nor `PQresetPoll` is called). -/
theorem poll_notification_failures (self : ConnectionImpl) (base : Connection) (status : Int)
    (events : Nat) (r : Responses) :
    (status < 0 →
      self.pollConnectionCallback base status events r
        = self.reconnect base
            (if status = -9 then
              Error.Fail ("Unable to connect to postgresql server. " ++ r.errorMessage)
             else Error.Fail ("Bad status " ++ toString status)) r ∧
      self.pollCommandsCallback base status events r
        = self.reconnect base (Error.Fail ("Bad status " ++ toString status)) r) ∧
    (0 ≤ status → events < 2 ^ 32 → (∃ i, 2 ≤ i ∧ events.testBit i = true) →
      self.pollConnectionCallback base status events r
        = self.reconnect base (Error.Fail ("Unexpected event " ++ fmtD events)) r ∧
      ∀ eff ∈ (self.pollConnectionCallback base status events r).2.2,
        eff.isHandshakePoll = false) ∧
    (self.base_ = true → ∀ error : Error,
      (self.reconnect base error r).2.1.connectionImpl_ = none) := by
  refine ⟨?_, ?_, ?_⟩
  · intro hs
    constructor
    · unfold ConnectionImpl.pollConnectionCallback
      rw [if_pos hs]
      by_cases h9 : status = -9
      · rw [if_pos h9, if_pos h9]
        rfl
      · rw [if_neg h9, if_neg h9]
        rfl
    · unfold ConnectionImpl.pollCommandsCallback
      rw [if_pos hs]
      rfl
  · intro hs hlt hbit
    have hout := (outside_bits_iff events hlt).mpr hbit
    have heq : self.pollConnectionCallback base status events r
        = self.reconnect base (Error.Fail ("Unexpected event " ++ fmtD events)) r := by
      unfold ConnectionImpl.pollConnectionCallback
      rw [if_neg (by omega), if_pos hout]
      rfl
    refine ⟨heq, ?_⟩
    rw [heq]
    exact reconnect_no_handshakePoll _ _ _ _
  · intro hbase error
    exact (reconnect_detaches self base error r hbase).1

/-- Witness for C14 (amended): a handshake notification with the event mask 4. -/
theorem poll_notification_failures_witness :
    sampleImpl.pollConnectionCallback sampleBase 0 4 sampleResponses
      = sampleImpl.reconnect sampleBase (Error.Fail ("Unexpected event " ++ fmtD 4))
          sampleResponses ∧
    ∀ eff ∈ (sampleImpl.pollConnectionCallback sampleBase 0 4 sampleResponses).2.2,
      eff.isHandshakePoll = false :=
  (poll_notification_failures sampleImpl sampleBase 0 4 sampleResponses).2.1 (by decide)
    (by decide) ⟨2, by decide, by decide⟩

/-! ### The handshake poll -/

/-- C15 (as stated, refuted): the handshake completes (POLLING_OK) on an
attached state machine but `uv_poll_start` fails; the step returns that error
and connectedHandler is not invoked. -/
theorem pollConnection_counterexample :
    sampleConnectingImpl.state_ = State.Connecting ∧ sampleConnectingImpl.base_ = true ∧
    sampleBase.connectedHandler_ = some 10 ∧
    samplePollStartFailure.connectPoll = PostgresPollingStatusType.PGRES_POLLING_OK ∧
    sampleConnectingImpl.pollConnection sampleBase samplePollStartFailure
      = (Error.Fail "Unable to start poll. invalid argument\n",
         { sampleConnectingImpl with connectTimer_ := false, state_ := State.Connected,
                                     eventmask_ := 3 },
         [Effect.PQconnectPoll, Effect.connectTimerStop,
          Effect.uvPollStart 3 PollCb.pollCommandsCallback]) := by
  decide

/-- C15 (amended): for every handshake-poll step of a state machine in
Connecting, the action is decided by the result of `PQconnectPoll`:
POLLING_READING registers readable, and POLLING_WRITING writable, with the
handshake callback and keeps the state machine as it is (state Connecting);
POLLING_OK stops the connect-timeout timer, sets state to Connected and the
event mask to readable and writable, registers both with the command-poll
callback and, if that registration succeeds, the library reports
CONNECTION_OK, the facade is still attached and a connectedHandler is
registered, invokes connectedHandler once and returns its error if it fails,
and otherwise does not invoke it; POLLING_FAILED returns the failing error
"Polling failed." with the library's message and registers nothing.  A failed
registration returns the error "Unable to start poll.". -/
theorem pollConnection_actions (self : ConnectionImpl) (base : Connection) (r : Responses)
    (hs : self.state_ = State.Connecting) :
    (r.connectPoll = PostgresPollingStatusType.PGRES_POLLING_READING →
      self.pollConnection base r
        = (if r.pollStartRc = 0 then Error.Success
            else Error.Fail ("Unable to start poll. " ++ r.errorMessage ++ "\n"),
           self,
           [Effect.PQconnectPoll, Effect.uvPollStart UV_READABLE PollCb.pollConnectionCallback]
             ++ (if r.pollStartRc = 0 then [Effect.PQstatus] else []))) ∧
    (r.connectPoll = PostgresPollingStatusType.PGRES_POLLING_WRITING →
      self.pollConnection base r
        = (if r.pollStartRc = 0 then Error.Success
            else Error.Fail ("Unable to start poll. " ++ r.errorMessage ++ "\n"),
           self,
           [Effect.PQconnectPoll, Effect.uvPollStart UV_WRITABLE PollCb.pollConnectionCallback]
             ++ (if r.pollStartRc = 0 then [Effect.PQstatus] else []))) ∧
    (r.connectPoll = PostgresPollingStatusType.PGRES_POLLING_OK →
      (self.pollConnection base r).2.1
        = { self with connectTimer_ := false, state_ := State.Connected,
                      eventmask_ := UV_WRITABLE ||| UV_READABLE } ∧
      (self.pollConnection base r).2.2
        = [Effect.PQconnectPoll, Effect.connectTimerStop,
           Effect.uvPollStart (UV_WRITABLE ||| UV_READABLE) PollCb.pollCommandsCallback]
          ++ (if r.pollStartRc = 0 then
                Effect.PQstatus ::
                  (if r.connectionOk = true ∧ self.base_ = true ∧
                      base.connectedHandler_.isSome = true then
                    [Effect.connectedHandler base.connectedHandler_] else [])
              else []) ∧
      (self.pollConnection base r).1
        = (if r.pollStartRc = 0 then
            (if r.connectionOk = true ∧ self.base_ = true ∧
                base.connectedHandler_.isSome = true ∧ r.connectedHandlerResult.isFail = true then
              r.connectedHandlerResult else Error.Success)
           else Error.Fail ("Unable to start poll. " ++ r.errorMessage ++ "\n"))) ∧
    (r.connectPoll = PostgresPollingStatusType.PGRES_POLLING_FAILED →
      self.pollConnection base r
        = (Error.Fail ("Polling failed. " ++ r.errorMessage), self, [Effect.PQconnectPoll])) := by
  unfold ConnectionImpl.pollConnection
  simp only [hs]
  unfold ConnectionImpl.pollConnectionSwitch
  refine ⟨?_, ?_, ?_, ?_⟩
  · intro hp
    simp only [hp]
    by_cases h0 : r.pollStartRc = 0 <;> simp [h0, MAKE_ERROR]
  · intro hp
    simp only [hp]
    by_cases h0 : r.pollStartRc = 0 <;> simp [h0, MAKE_ERROR]
  · intro hp
    simp only [hp]
    by_cases h0 : r.pollStartRc = 0
    · by_cases h1 : r.connectionOk = true <;> by_cases h2 : self.base_ = true <;>
        by_cases h3 : base.connectedHandler_.isSome = true <;>
        by_cases h4 : r.connectedHandlerResult.isFail = true <;>
        simp [h0, h1, h2, h3, h4]
    · simp [h0, MAKE_ERROR]
  · intro hp
    simp only [hp, MAKE_ERROR]

/-- Witness for C15 (amended): the handshake of scenario 1 completes. -/
theorem pollConnection_actions_witness :
    (sampleConnectingImpl.pollConnection sampleBase sampleResponses).2.2
      = [Effect.PQconnectPoll, Effect.connectTimerStop,
         Effect.uvPollStart (UV_WRITABLE ||| UV_READABLE) PollCb.pollCommandsCallback]
        ++ (if sampleResponses.pollStartRc = 0 then
              Effect.PQstatus ::
                (if sampleResponses.connectionOk = true ∧ sampleConnectingImpl.base_ = true ∧
                    sampleBase.connectedHandler_.isSome = true then
                  [Effect.connectedHandler sampleBase.connectedHandler_] else [])
            else []) :=
  ((pollConnection_actions sampleConnectingImpl sampleBase sampleResponses (by decide)).2.2.1
    (by decide)).2.1

/-! ### The command poll: interest mask -/

theorem testBit_of_lt_word (m i : Nat) (hm : m < 2 ^ 32) (hi : m.testBit i = true) : i < 32 := by
  by_contra hge
  have : m < 2 ^ i := Nat.lt_of_lt_of_le hm (Nat.pow_le_pow_right (by decide) (by omega))
  rw [Nat.testBit_lt_two_pow this] at hi
  cases hi

/-- On a 32-bit mask `m & ~UV_WRITABLE` is `m` with the writable bit cleared. -/
theorem without_writable_testBit (m i : Nat) (hm : m < 2 ^ 32) :
    (m &&& complement32 UV_WRITABLE).testBit i = (m.testBit i && decide (i ≠ 1)) := by
  have h : complement32 UV_WRITABLE = 2 ^ 32 - (2 + 1) := by decide
  have h2 : (2 : Nat) = 2 ^ 1 := by decide
  rw [Nat.testBit_and, h, Nat.testBit_two_pow_sub_succ (by decide) i, h2, Nat.testBit_two_pow]
  cases hb : m.testBit i with
  | false => simp
  | true =>
    have hlt := testBit_of_lt_word m i hm hb
    by_cases h1 : i = 1
    · simp [h1]
    · have h1' : ¬ 1 = i := fun h => h1 h.symm
      simp [hlt, h1, h1']

/-- The mask `m | UV_READABLE | UV_WRITABLE` is `m` with both bits set. -/
theorem with_both_testBit (m i : Nat) :
    (m ||| (UV_READABLE ||| UV_WRITABLE)).testBit i = (m.testBit i || decide (i < 2)) := by
  have h : (UV_READABLE ||| UV_WRITABLE) = 2 ^ 2 - 1 := by decide
  rw [Nat.testBit_or, h, Nat.testBit_two_pow_sub_one]

theorem updatePollEventmask_success (self : ConnectionImpl) (eventmask : Nat) (r : Responses)
    (h : (self.updatePollEventmask eventmask r).1 = Error.Success) :
    (self.updatePollEventmask eventmask r).2.1.eventmask_ = eventmask := by
  unfold ConnectionImpl.updatePollEventmask at h ⊢
  by_cases h1 : eventmask ≠ self.eventmask_
  · rw [if_pos h1] at h ⊢
    by_cases h2 : r.pollStartRc ≠ 0
    · rw [if_pos h2] at h
      cases h
    · rw [if_neg h2]
  · rw [if_neg h1]
    exact (not_not.mp h1).symm

/-- C16: for every command-poll step with the writable bit set and the
readable bit clear, and every current mask m: if flush returns 0 the step
continues with the new interest mask m without writable (on a 32-bit mask,
m with the writable bit cleared) and stores it when it succeeds; if flush
returns 1 it continues with m with both readable and writable added and
stores that when it succeeds; if flush returns -1 the step fails with the
error "Unable to flush data to server." and leaves the state machine, the
stored mask included, unchanged. -/
theorem flush_interest_mask (self : ConnectionImpl) (events : Nat) (r : Responses)
    (hw : events &&& UV_WRITABLE ≠ 0) (hr : events &&& UV_READABLE = 0) :
    (r.flushRc = 0 →
      self.pollCommands events r
        = ((self.updatePollEventmask (self.eventmask_ &&& complement32 UV_WRITABLE) r).1,
           (self.updatePollEventmask (self.eventmask_ &&& complement32 UV_WRITABLE) r).2.1,
           Effect.PQflush ::
             (self.updatePollEventmask (self.eventmask_ &&& complement32 UV_WRITABLE) r).2.2) ∧
      ((self.pollCommands events r).1 = Error.Success →
        (self.pollCommands events r).2.1.eventmask_
          = self.eventmask_ &&& complement32 UV_WRITABLE) ∧
      (self.eventmask_ < 2 ^ 32 → ∀ i,
        (self.eventmask_ &&& complement32 UV_WRITABLE).testBit i
          = (self.eventmask_.testBit i && decide (i ≠ 1)))) ∧
    (r.flushRc = 1 →
      self.pollCommands events r
        = ((self.updatePollEventmask (self.eventmask_ ||| (UV_READABLE ||| UV_WRITABLE)) r).1,
           (self.updatePollEventmask (self.eventmask_ ||| (UV_READABLE ||| UV_WRITABLE)) r).2.1,
           Effect.PQflush ::
             (self.updatePollEventmask
               (self.eventmask_ ||| (UV_READABLE ||| UV_WRITABLE)) r).2.2) ∧
      ((self.pollCommands events r).1 = Error.Success →
        (self.pollCommands events r).2.1.eventmask_
          = self.eventmask_ ||| (UV_READABLE ||| UV_WRITABLE)) ∧
      (∀ i, (self.eventmask_ ||| (UV_READABLE ||| UV_WRITABLE)).testBit i
          = (self.eventmask_.testBit i || decide (i < 2)))) ∧
    (r.flushRc = -1 →
      self.pollCommands events r
        = (Error.Fail ("Unable to flush data to server. " ++ r.errorMessage), self,
            [Effect.PQflush])) := by
  have hnr : ¬ events &&& UV_READABLE ≠ 0 := fun h => h hr
  refine ⟨?_, ?_, ?_⟩
  · intro h0
    have heq : self.pollCommands events r
        = ((self.updatePollEventmask (self.eventmask_ &&& complement32 UV_WRITABLE) r).1,
           (self.updatePollEventmask (self.eventmask_ &&& complement32 UV_WRITABLE) r).2.1,
           Effect.PQflush ::
             (self.updatePollEventmask (self.eventmask_ &&& complement32 UV_WRITABLE) r).2.2) := by
      unfold ConnectionImpl.pollCommands ConnectionImpl.pollCommandsReadable
      simp [hw, hr, h0]
    refine ⟨heq, ?_, fun hm i => without_writable_testBit _ i hm⟩
    rw [heq]
    exact updatePollEventmask_success _ _ _
  · intro h1
    have heq : self.pollCommands events r
        = ((self.updatePollEventmask (self.eventmask_ ||| (UV_READABLE ||| UV_WRITABLE)) r).1,
           (self.updatePollEventmask (self.eventmask_ ||| (UV_READABLE ||| UV_WRITABLE)) r).2.1,
           Effect.PQflush ::
             (self.updatePollEventmask
               (self.eventmask_ ||| (UV_READABLE ||| UV_WRITABLE)) r).2.2) := by
      unfold ConnectionImpl.pollCommands ConnectionImpl.pollCommandsReadable
      simp [hw, hr, h1]
    refine ⟨heq, ?_, fun i => with_both_testBit _ i⟩
    rw [heq]
    exact updatePollEventmask_success _ _ _
  · intro hm1
    unfold ConnectionImpl.pollCommands
    simp [hw, hm1, MAKE_ERROR]

/-- Witness for C16: a writable notification on the mask 3 with everything
flushed; the mask becomes 1 and the driver is re-armed with it. -/
theorem flush_interest_mask_witness :
    sampleImpl.pollCommands 2 sampleResponses
      = ((sampleImpl.updatePollEventmask
            (sampleImpl.eventmask_ &&& complement32 UV_WRITABLE) sampleResponses).1,
         (sampleImpl.updatePollEventmask
            (sampleImpl.eventmask_ &&& complement32 UV_WRITABLE) sampleResponses).2.1,
         Effect.PQflush ::
           (sampleImpl.updatePollEventmask
              (sampleImpl.eventmask_ &&& complement32 UV_WRITABLE) sampleResponses).2.2) ∧
    (sampleImpl.pollCommands 2 sampleResponses).2.1.eventmask_ = 1 ∧
    (sampleImpl.pollCommands 2 sampleResponses).2.2
      = [Effect.PQflush, Effect.uvPollStart 1 PollCb.pollCommandsCallback] :=
  ⟨((flush_interest_mask sampleImpl 2 sampleResponses (by decide) (by decide)).1
      (by decide)).1, by decide, by decide⟩

/-! ### The command poll: results -/

theorem finishRequest_eq (self : ConnectionImpl) (error : Error) (result : Recordset) :
    self.finishRequest error result
      = (self.cleared,
         completionCall self (if error.isFail = true then error else Error.Success) result) := by
  unfold ConnectionImpl.finishRequest ConnectionImpl.cleared completionCall
  simp only
  by_cases hh : self.executeHandler_.isSome = true <;> by_cases hf : error.isFail = true <;>
    simp [hh, hf]

theorem pollCommands_readable (self : ConnectionImpl) (events : Nat) (r : Responses)
    (hnf : ¬ (events &&& UV_WRITABLE ≠ 0 ∧ r.flushRc = -1)) :
    ∃ eventmask : Nat,
      self.pollCommands events r
        = ((self.pollCommandsReadable events eventmask r).1,
           (self.pollCommandsReadable events eventmask r).2.1,
           flushCall events ++ (self.pollCommandsReadable events eventmask r).2.2) := by
  unfold ConnectionImpl.pollCommands flushCall
  simp only
  by_cases hw : events &&& UV_WRITABLE ≠ 0
  · have hfl : r.flushRc ≠ -1 := fun h => hnf ⟨hw, h⟩
    rw [if_pos hw, if_pos hw]
    by_cases h1 : r.flushRc = 1
    · rw [if_pos h1]
      exact ⟨_, rfl⟩
    · rw [if_neg h1, if_neg (fun h => hfl h.2)]
      exact ⟨_, rfl⟩
  · rw [if_neg hw, if_neg hw]
    exact ⟨self.eventmask_, rfl⟩

theorem updatePollEventmask_request (self : ConnectionImpl) (eventmask : Nat) (r : Responses) :
    (self.updatePollEventmask eventmask r).2.1.isExecuting_ = self.isExecuting_ ∧
    (self.updatePollEventmask eventmask r).2.1.executeHandler_ = self.executeHandler_ ∧
    (self.updatePollEventmask eventmask r).2.1.requestId_ = self.requestId_ := by
  unfold ConnectionImpl.updatePollEventmask
  split_ifs <;> exact ⟨rfl, rfl, rfl⟩

theorem readable_error_result (self : ConnectionImpl) (events eventmask : Nat) (r : Responses)
    (hr : events &&& UV_READABLE ≠ 0) (hci : r.consumeInput = true) (hbusy : r.isBusy = false)
    (hst : PQresultStatus r.results.head? ≠ ExecStatusType.PGRES_TUPLES_OK ∧
      PQresultStatus r.results.head? ≠ ExecStatusType.PGRES_COMMAND_OK) :
    self.pollCommandsReadable events eventmask r
      = (Error.Success,
         (self.finishRequest (MAKE_ERROR ("Unable to execute " ++ r.errorMessage))
            r.results.head?).1,
         [Effect.PQconsumeInput, Effect.PQisBusy, Effect.PQgetResult]
           ++ List.replicate (r.results.tail.length + 1) Effect.PQgetResult
           ++ (self.finishRequest (MAKE_ERROR ("Unable to execute " ++ r.errorMessage))
                r.results.head?).2) := by
  unfold ConnectionImpl.pollCommandsReadable
  simp only
  rw [if_pos hr, if_neg (fun h => h hci), if_pos (by simp [hbusy]), if_pos hst]

theorem readable_more_results (self : ConnectionImpl) (events eventmask : Nat) (r : Responses)
    (hr : events &&& UV_READABLE ≠ 0) (hci : r.consumeInput = true) (hbusy : r.isBusy = false)
    (hst : ¬ (PQresultStatus r.results.head? ≠ ExecStatusType.PGRES_TUPLES_OK ∧
      PQresultStatus r.results.head? ≠ ExecStatusType.PGRES_COMMAND_OK))
    (htail : r.results.tail ≠ []) :
    self.pollCommandsReadable events eventmask r
      = (MAKE_ERROR "handling of more results is not supported", self,
         [Effect.PQconsumeInput, Effect.PQisBusy, Effect.PQgetResult, Effect.PQgetResult]) := by
  unfold ConnectionImpl.pollCommandsReadable
  simp only
  rw [if_pos hr, if_neg (fun h => h hci), if_pos (by simp [hbusy]), if_neg hst, if_pos htail]

theorem readable_single_result (self : ConnectionImpl) (events eventmask : Nat) (r : Responses)
    (hr : events &&& UV_READABLE ≠ 0) (hci : r.consumeInput = true) (hbusy : r.isBusy = false)
    (hst : ¬ (PQresultStatus r.results.head? ≠ ExecStatusType.PGRES_TUPLES_OK ∧
      PQresultStatus r.results.head? ≠ ExecStatusType.PGRES_COMMAND_OK))
    (htail : r.results.tail = []) :
    self.pollCommandsReadable events eventmask r
      = (((self.finishRequest Error.Success r.results.head?).1.updatePollEventmask
            eventmask r).1,
         ((self.finishRequest Error.Success r.results.head?).1.updatePollEventmask
            eventmask r).2.1,
         [Effect.PQconsumeInput, Effect.PQisBusy, Effect.PQgetResult, Effect.PQgetResult]
           ++ (self.finishRequest Error.Success r.results.head?).2
           ++ ((self.finishRequest Error.Success r.results.head?).1.updatePollEventmask
                eventmask r).2.2) := by
  unfold ConnectionImpl.pollCommandsReadable
  simp only
  rw [if_pos hr, if_neg (fun h => h hci), if_pos (by simp [hbusy]), if_neg hst,
    if_neg (fun h => h htail)]

theorem readable_busy (self : ConnectionImpl) (events eventmask : Nat) (r : Responses)
    (hr : events &&& UV_READABLE ≠ 0) (hci : r.consumeInput = true) (hbusy : r.isBusy = true) :
    self.pollCommandsReadable events eventmask r
      = ((self.updatePollEventmask eventmask r).1, (self.updatePollEventmask eventmask r).2.1,
         [Effect.PQconsumeInput, Effect.PQisBusy]
           ++ (self.updatePollEventmask eventmask r).2.2) := by
  unfold ConnectionImpl.pollCommandsReadable
  simp only
  rw [if_pos hr, if_neg (fun h => h hci), if_neg (fun h => h hbusy)]

/-- C17: for every command-poll step with the readable bit set in which the
flush, if any, does not fail and consume-input succeeds.  When the library
reports not busy: if the status of the first result is neither TUPLES_OK nor
COMMAND_OK, all remaining results are drained, the pending request is
completed (cleared, its handler invoked) with the failing error "Unable to
execute" and the library's message, and the step itself succeeds; if the
status is TUPLES_OK or COMMAND_OK and another result follows, the step fails
with "handling of more results is not supported" and the request stays
pending; otherwise the pending request is completed with Success and that
single result.  When the library reports busy, no request is completed and
busy, handler and request id are unchanged. -/
theorem pollCommands_results (self : ConnectionImpl) (events : Nat) (r : Responses)
    (hr : events &&& UV_READABLE ≠ 0)
    (hnf : ¬ (events &&& UV_WRITABLE ≠ 0 ∧ r.flushRc = -1))
    (hci : r.consumeInput = true) :
    (r.isBusy = false →
      ((PQresultStatus r.results.head? ≠ ExecStatusType.PGRES_TUPLES_OK ∧
          PQresultStatus r.results.head? ≠ ExecStatusType.PGRES_COMMAND_OK) →
        self.pollCommands events r
          = (Error.Success, self.cleared,
             flushCall events
               ++ ([Effect.PQconsumeInput, Effect.PQisBusy, Effect.PQgetResult]
               ++ List.replicate (r.results.tail.length + 1) Effect.PQgetResult
               ++ completionCall self (Error.Fail ("Unable to execute " ++ r.errorMessage))
                    r.results.head?))) ∧
      ((PQresultStatus r.results.head? = ExecStatusType.PGRES_TUPLES_OK ∨
          PQresultStatus r.results.head? = ExecStatusType.PGRES_COMMAND_OK) →
        r.results.tail ≠ [] →
        self.pollCommands events r
          = (Error.Fail "handling of more results is not supported", self,
             flushCall events
               ++ [Effect.PQconsumeInput, Effect.PQisBusy, Effect.PQgetResult,
                   Effect.PQgetResult])) ∧
      ((PQresultStatus r.results.head? = ExecStatusType.PGRES_TUPLES_OK ∨
          PQresultStatus r.results.head? = ExecStatusType.PGRES_COMMAND_OK) →
        r.results.tail = [] →
        (∃ res, r.results = [res]) ∧
        handlerCalls (self.pollCommands events r).2.2
          = completionCall self Error.Success r.results.head? ∧
        (self.pollCommands events r).2.1.isExecuting_ = false ∧
        (self.pollCommands events r).2.1.executeHandler_ = none ∧
        (self.pollCommands events r).2.1.requestId_ = InvalidRequestId)) ∧
    (r.isBusy = true →
      handlerCalls (self.pollCommands events r).2.2 = [] ∧
      (self.pollCommands events r).2.1.isExecuting_ = self.isExecuting_ ∧
      (self.pollCommands events r).2.1.executeHandler_ = self.executeHandler_ ∧
      (self.pollCommands events r).2.1.requestId_ = self.requestId_) := by
  obtain ⟨em, hpc⟩ := pollCommands_readable self events r hnf
  have hflush : handlerCalls (flushCall events) = [] := by
    unfold flushCall
    split_ifs <;> rfl
  rw [hpc]
  refine ⟨fun hbusy => ⟨?_, ?_, ?_⟩, ?_⟩
  · intro hst
    rw [readable_error_result self events em r hr hci hbusy hst, finishRequest_eq]
    rfl
  · intro hst htail
    have hnot : ¬ (PQresultStatus r.results.head? ≠ ExecStatusType.PGRES_TUPLES_OK ∧
        PQresultStatus r.results.head? ≠ ExecStatusType.PGRES_COMMAND_OK) := by
      rintro ⟨h1, h2⟩
      rcases hst with h | h
      · exact h1 h
      · exact h2 h
    rw [readable_more_results self events em r hr hci hbusy hnot htail]
    rfl
  · intro hst htail
    have hnot : ¬ (PQresultStatus r.results.head? ≠ ExecStatusType.PGRES_TUPLES_OK ∧
        PQresultStatus r.results.head? ≠ ExecStatusType.PGRES_COMMAND_OK) := by
      rintro ⟨h1, h2⟩
      rcases hst with h | h
      · exact h1 h
      · exact h2 h
    have hone : ∃ res, r.results = [res] := by
      cases hres : r.results with
      | nil =>
        rw [hres] at hnot
        simp [PQresultStatus] at hnot
      | cons a as =>
        rw [hres] at htail
        simp only [List.tail_cons] at htail
        exact ⟨a, by rw [htail]⟩
    have hu := updatePollEventmask_request (self.finishRequest Error.Success r.results.head?).1
      em r
    have hc := updatePollEventmask_calls (self.finishRequest Error.Success r.results.head?).1
      em r
    have hp := readable_single_result self events em r hr hci hbusy hnot htail
    rw [hp]
    refine ⟨hone, ?_, ?_, ?_, ?_⟩
    · simp only [handlerCalls_append, hflush, hc.1, List.nil_append, List.append_nil]
      rw [finishRequest_eq]
      unfold completionCall
      split_ifs <;> rfl
    · rw [hu.1, finishRequest_eq]
      rfl
    · rw [hu.2.1, finishRequest_eq]
      rfl
    · rw [hu.2.2, finishRequest_eq]
      rfl
  · intro hbusy
    have hu := updatePollEventmask_request self em r
    have hc := updatePollEventmask_calls self em r
    have hp := readable_busy self events em r hr hci hbusy
    rw [hp]
    refine ⟨?_, hu.1, hu.2.1, hu.2.2⟩
    simp only [handlerCalls_append, hflush, hc.1, List.nil_append, List.append_nil]
    rfl

/-- Witness for C17: the error result of scenario 2 completes request 42 with
a failing error, and the step succeeds. -/
theorem pollCommands_results_witness :
    sampleBusyImpl.pollCommands 1 sampleErrorPoll.2.2
      = (Error.Success, sampleBusyImpl.cleared,
         flushCall 1
           ++ ([Effect.PQconsumeInput, Effect.PQisBusy, Effect.PQgetResult]
           ++ List.replicate (sampleErrorPoll.2.2.results.tail.length + 1) Effect.PQgetResult
           ++ completionCall sampleBusyImpl
                (Error.Fail ("Unable to execute " ++ sampleErrorPoll.2.2.errorMessage))
                sampleErrorPoll.2.2.results.head?)) :=
  ((pollCommands_results sampleBusyImpl 1 sampleErrorPoll.2.2 (by decide) (by decide)
    (by decide)).1 (by decide)).1 (by decide)

/-! ### The command poll: stored mask -/

/-- C18 (the code at the failing input): the stored mask is 3, the notification
has both bits set, everything is flushed (the computed mask is 1) and the
library hands out one FATAL_ERROR result.  The step returns Success through
the early return of the error branch: the stored mask is still 3 and
`uv_poll_start` is not called.  On the same notification with a COMMAND_OK
result the step stores the mask 1 and re-arms the driver with it. -/
theorem eventmask_early_return :
    sampleBusyImpl.eventmask_ = 3 ∧
    sampleBusyImpl.eventmask_ &&& complement32 UV_WRITABLE = 1 ∧
    (sampleBusyImpl.pollCommands 3 sampleErrorResponses).1 = Error.Success ∧
    (sampleBusyImpl.pollCommands 3 sampleErrorResponses).2.1.eventmask_ = 3 ∧
    (sampleBusyImpl.pollCommands 3 sampleErrorResponses).2.2
      = [Effect.PQflush, Effect.PQconsumeInput, Effect.PQisBusy, Effect.PQgetResult,
         Effect.PQgetResult,
         Effect.executeHandler (some 7) (Error.Fail "Unable to execute ERROR: boom")
           (some (sampleResult ExecStatusType.PGRES_FATAL_ERROR [])) true] ∧
    (sampleBusyImpl.pollCommands 3 sampleResponses).1 = Error.Success ∧
    (sampleBusyImpl.pollCommands 3 sampleResponses).2.1.eventmask_ = 1 ∧
    (sampleBusyImpl.pollCommands 3 sampleResponses).2.2
      = [Effect.PQflush, Effect.PQconsumeInput, Effect.PQisBusy, Effect.PQgetResult,
         Effect.PQgetResult,
         Effect.executeHandler (some 7) Error.Success
           (some (sampleResult ExecStatusType.PGRES_COMMAND_OK [])) true,
         Effect.uvPollStart 1 PollCb.pollCommandsCallback] := by
  decide

/-! ### Teardown order -/

theorem teardownEvents_append (a b : List Effect) :
    teardownEvents (a ++ b) = teardownEvents a ++ teardownEvents b := by
  simp [teardownEvents]

theorem disconnect_full (self : ConnectionImpl) (base : Connection)
    (hbase : self.base_ = true) (hh : self.handle_ = true) (hfd : 0 ≤ self.fd_)
    (hp : self.pollHandle_ = true) :
    (self.disconnect base).2.2
      = (if self.dnsRequestId_ = true then [Effect.dnsCancelResolve false] else [])
        ++ [Effect.connectTimerStop, Effect.closeFd self.fd_, Effect.PQfinish, Effect.uvPollStop,
            Effect.uvClose] := by
  unfold ConnectionImpl.disconnect
  have hfd2 : self.fd_ ≥ 0 := hfd
  simp [hbase, hh, hfd2, hp]

theorem reconnect_trace (self : ConnectionImpl) (base : Connection) (error : Error)
    (r : Responses) (hbase : self.base_ = true) :
    (self.reconnect base error r).2.2
      = (self.disconnect base).2.2
        ++ (if base.options_.isAutoReconnect = true ∧ base.eventLoopRunning = true then
              [Effect.reconnectTimerRestart base.options_.reconnectInterval] else [])
        ++ (if base.disconnectedHandler_.isSome = true then
              [Effect.disconnectedHandler base.disconnectedHandler_ error] else []) := by
  have hd := (disconnect_detaches self base hbase).1
  unfold ConnectionImpl.reconnect
  simp only [hbase, if_true]
  rw [hd]
  by_cases ha : base.options_.isAutoReconnect = true <;>
    by_cases hrun : base.eventLoopRunning = true <;>
    by_cases hok : r.timerRestartOk = true <;>
    simp [Connection.startReconnectTimer, ha, hrun, hok]

/-- C19 (as stated, refuted): the teardown of the state machine of scenario 1
closes the fd and finalizes the protocol handle before it stops the poll; the
two deletions are made by the close callback. -/
theorem teardown_order_counterexample :
    sampleImpl.handle_ = true ∧ sampleImpl.fd_ = 5 ∧ sampleImpl.pollHandle_ = true ∧
    (sampleImpl.disconnect sampleBase).2.2
      = [Effect.connectTimerStop, Effect.closeFd 5, Effect.PQfinish, Effect.uvPollStop,
         Effect.uvClose] ∧
    teardownEvents ((sampleImpl.disconnect sampleBase).2.2 ++ ConnectionImpl.closeCallback)
      = [Effect.closeFd 5, Effect.PQfinish, Effect.uvPollStop, Effect.deletePoll,
         Effect.deleteThis] ∧
    teardownEvents ((sampleImpl.disconnect sampleBase).2.2 ++ ConnectionImpl.closeCallback)
      ≠ [Effect.uvPollStop, Effect.closeFd 5, Effect.PQfinish, Effect.deletePoll,
         Effect.deleteThis] := by
  decide

/-- C19 (amended): for every attached state machine that has a protocol
handle, a duplicated fd and a poll handle, the effect trace of its teardown
(disconnect, also when reached through reconnect or destroy) followed by the
close callback that it hands to `uvClose` contains the events fd_close,
protocol_finalize, poll_stop, poll_handle_deleted, state_machine_deleted in
exactly that order, each exactly once: the teardown itself ends with the
request to close the poll handle and deletes nothing, the two deletions are
made by the close callback, after everything that reconnect or destroy call;
when it has no poll handle, the state machine is deleted synchronously: the
close of a poll handle is never requested and the deletion of the state
machine ends the teardown. -/
theorem teardown_order (self : ConnectionImpl) (base : Connection)
    (hbase : self.base_ = true) :
    (self.handle_ = true → 0 ≤ self.fd_ → self.pollHandle_ = true →
      (self.disconnect base).2.2
        = (if self.dnsRequestId_ = true then [Effect.dnsCancelResolve false] else [])
          ++ [Effect.connectTimerStop, Effect.closeFd self.fd_, Effect.PQfinish,
              Effect.uvPollStop, Effect.uvClose] ∧
      ConnectionImpl.closeCallback = [Effect.deletePoll, Effect.deleteThis] ∧
      teardownEvents ((self.disconnect base).2.2 ++ ConnectionImpl.closeCallback)
        = [Effect.closeFd self.fd_, Effect.PQfinish, Effect.uvPollStop, Effect.deletePoll,
           Effect.deleteThis] ∧
      (∀ (error : Error) (r : Responses),
        teardownEvents ((self.reconnect base error r).2.2 ++ ConnectionImpl.closeCallback)
          = [Effect.closeFd self.fd_, Effect.PQfinish, Effect.uvPollStop, Effect.deletePoll,
             Effect.deleteThis] ∧
        teardownEvents (self.reconnect base error r).2.2
          = [Effect.closeFd self.fd_, Effect.PQfinish, Effect.uvPollStop]) ∧
      (base.connectionImpl_ = some self →
        teardownEvents (base.destroy.2 ++ ConnectionImpl.closeCallback)
          = [Effect.closeFd self.fd_, Effect.PQfinish, Effect.uvPollStop, Effect.deletePoll,
             Effect.deleteThis] ∧
        teardownEvents base.destroy.2
          = [Effect.closeFd self.fd_, Effect.PQfinish, Effect.uvPollStop])) ∧
    (self.pollHandle_ = false →
      Effect.uvClose ∉ (self.disconnect base).2.2 ∧
      Effect.deletePoll ∉ (self.disconnect base).2.2 ∧
      (self.disconnect base).2.2.getLast? = some Effect.deleteThis) := by
  constructor
  · intro hh hfd hp
    have hnow : ∀ b : Connection, teardownEvents (self.disconnect b).2.2
        = [Effect.closeFd self.fd_, Effect.PQfinish, Effect.uvPollStop] := by
      intro b
      rw [disconnect_full self b hbase hh hfd hp, teardownEvents_append]
      by_cases hdns : self.dnsRequestId_ = true <;>
        simp [hdns, teardownEvents, Effect.isTeardown]
    have hcb : teardownEvents ConnectionImpl.closeCallback
        = [Effect.deletePoll, Effect.deleteThis] := rfl
    have hrec : ∀ (error : Error) (r : Responses),
        teardownEvents (self.reconnect base error r).2.2
          = [Effect.closeFd self.fd_, Effect.PQfinish, Effect.uvPollStop] := by
      intro error r
      rw [reconnect_trace self base error r hbase, teardownEvents_append,
        teardownEvents_append, hnow base]
      by_cases h1 : base.options_.isAutoReconnect = true ∧ base.eventLoopRunning = true <;>
        by_cases h2 : base.disconnectedHandler_.isSome = true <;>
        simp [h1, h2, teardownEvents, Effect.isTeardown]
    have hdes : base.connectionImpl_ = some self →
        teardownEvents base.destroy.2
          = [Effect.closeFd self.fd_, Effect.PQfinish, Effect.uvPollStop] := by
      intro hc
      rw [destroy_trace, hc]
      simp only [teardownEvents, List.filter_cons, Effect.isTeardown, Bool.false_eq_true,
        if_false, List.filter_append]
      have hnow2 : ∀ b : Connection, List.filter Effect.isTeardown (self.disconnect b).2.2
          = [Effect.closeFd self.fd_, Effect.PQfinish, Effect.uvPollStop] := hnow
      rw [hnow2]
      by_cases h2 : base.disconnectedHandler_.isSome = true <;>
        simp [h2, Effect.isTeardown]
    refine ⟨disconnect_full self base hbase hh hfd hp, rfl, ?_, ?_, ?_⟩
    · rw [teardownEvents_append, hnow base, hcb]
      rfl
    · intro error r
      refine ⟨?_, hrec error r⟩
      rw [teardownEvents_append, hrec error r, hcb]
      rfl
    · intro hc
      refine ⟨?_, hdes hc⟩
      rw [teardownEvents_append, hdes hc, hcb]
      rfl
  · intro hp
    unfold ConnectionImpl.disconnect
    by_cases hh : self.handle_ = true <;> by_cases hfd : self.fd_ ≥ 0 <;>
      by_cases hdns : self.dnsRequestId_ = true <;>
      simp [hbase, hp, hh, hfd, hdns]

/-- Witness for C19 (amended): the teardown of the state machine of scenario 1,
reached through reconnect on a facade with auto-reconnect and a running event
loop: the timer restart and the disconnected handler come before the close
callback. -/
theorem teardown_order_witness :
    (sampleImpl.reconnect sampleAutoBase (Error.Fail "boom") sampleResponses).2.2
        ++ ConnectionImpl.closeCallback
      = [Effect.connectTimerStop, Effect.closeFd 5, Effect.PQfinish, Effect.uvPollStop,
         Effect.uvClose, Effect.reconnectTimerRestart sampleAutoBase.options_.reconnectInterval,
         Effect.disconnectedHandler (some 11) (Error.Fail "boom"),
         Effect.deletePoll, Effect.deleteThis] ∧
    (sampleImpl.disconnect sampleAutoBase).2.2
      = (if sampleImpl.dnsRequestId_ = true then [Effect.dnsCancelResolve false] else [])
        ++ [Effect.connectTimerStop, Effect.closeFd sampleImpl.fd_, Effect.PQfinish,
            Effect.uvPollStop, Effect.uvClose] ∧
    teardownEvents ((sampleImpl.reconnect sampleAutoBase (Error.Fail "boom")
        sampleResponses).2.2 ++ ConnectionImpl.closeCallback)
      = [Effect.closeFd sampleImpl.fd_, Effect.PQfinish, Effect.uvPollStop, Effect.deletePoll,
         Effect.deleteThis] :=
  ⟨by decide,
   ((teardown_order sampleImpl sampleAutoBase (by decide)).1 (by decide) (by decide)
    (by decide)).1,
   (((teardown_order sampleImpl sampleAutoBase (by decide)).1 (by decide) (by decide)
    (by decide)).2.2.2.1 (Error.Fail "boom") sampleResponses).1⟩

/-! ### Completion of the DNS lookup -/

theorem disconnect_no_connectStart (self : ConnectionImpl) (base : Connection) :
    ∀ eff ∈ (self.disconnect base).2.2, eff.isConnectStart = false := by
  unfold ConnectionImpl.disconnect
  simp only
  split_ifs <;> simp [Effect.isConnectStart]

theorem reconnect_no_connectStart (self : ConnectionImpl) (base : Connection) (error : Error)
    (r : Responses) :
    ∀ eff ∈ (self.reconnect base error r).2.2, eff.isConnectStart = false := by
  intro eff heff
  rcases reconnect_mem self base error r eff heff with h | ⟨n, h⟩ | ⟨g, h⟩
  · exact disconnect_no_connectStart self base eff h
  · rw [h]
    rfl
  · rw [h]
    rfl

theorem connect_head (self : ConnectionImpl) (base : Connection) (address : String)
    (r : Responses) :
    (self.connect base address r).2.2.head?
      = some (Effect.PQconnectStartParams (connectKeywordsValues base address).1
          (connectKeywordsValues base address).2
          (if base.options_.databaseName ≠ "" then 1 else 0)) := by
  unfold ConnectionImpl.connect
  simp only
  by_cases h1 : base.options_.databaseName = "" <;>
    simp only [h1, ne_eq, not_true_eq_false, not_false_eq_true, if_true, if_false] <;>
    split_ifs <;> rfl

/-- C20: when the DNS lookup of a state machine completes while the facade is
still attached, an empty address list leads to reconnect with the error
"Unable to resolve host address" followed by the quoted name
options.hosts[hostIndex], and to no connect attempt; a non-empty list leads to
connect with the first returned address, whatever addresses follow it, and
`PQconnectStartParams` is the first call; a completion that arrives after the
facade was detached makes no call and leaves the facade alone (the state
machine only forgets the pending lookup). -/
theorem dnsCallback_outcomes (self : ConnectionImpl) (base : Connection) (r : Responses) :
    (self.base_ = true →
      (self.dnsCallback base [] r
          = ({ self with dnsRequestId_ := false }).reconnect base
              (Error.Fail ("Unable to resolve host address \""
                ++ base.options_.hosts.getD base.hostIndex_ "" ++ "\"")) r ∧
        (∀ eff ∈ (self.dnsCallback base [] r).2.2, eff.isConnectStart = false) ∧
        (self.dnsCallback base [] r).2.1.connectionImpl_ = none) ∧
      (∀ (address : String) (more : List String),
        self.dnsCallback base (address :: more) r
          = ({ self with dnsRequestId_ := false }).connect base address r ∧
        (self.dnsCallback base (address :: more) r).2.2.head?
          = some (Effect.PQconnectStartParams (connectKeywordsValues base address).1
              (connectKeywordsValues base address).2
              (if base.options_.databaseName ≠ "" then 1 else 0)) ∧
        ("hostaddr", address) ∈ (connectKeywordsValues base address).1.zip
          (connectKeywordsValues base address).2)) ∧
    (self.base_ = false → ∀ addresses : List String,
      self.dnsCallback base addresses r = ({ self with dnsRequestId_ := false }, base, [])) := by
  constructor
  · intro hbase
    have hempty : self.dnsCallback base [] r
        = ({ self with dnsRequestId_ := false }).reconnect base
            (Error.Fail ("Unable to resolve host address \""
              ++ base.options_.hosts.getD base.hostIndex_ "" ++ "\"")) r := by
      unfold ConnectionImpl.dnsCallback
      simp [hbase, MAKE_ERROR]
    refine ⟨⟨hempty, ?_, ?_⟩, ?_⟩
    · rw [hempty]
      exact reconnect_no_connectStart _ _ _ _
    · rw [hempty]
      exact (reconnect_detaches { self with dnsRequestId_ := false } base _ r hbase).1
    · intro address more
      have hcons : self.dnsCallback base (address :: more) r
          = ({ self with dnsRequestId_ := false }).connect base address r := by
        unfold ConnectionImpl.dnsCallback
        simp [hbase]
      refine ⟨hcons, ?_, ?_⟩
      · rw [hcons]
        exact connect_head _ _ _ _
      · by_cases h1 : base.options_.databaseName = "" <;>
          by_cases h2 : base.options_.sslOptions.isAllow = true <;>
          by_cases h3 : base.sslTemporaryFiles_.ca_ = "" <;>
          simp [connectKeywordsValues, h1, h2, h3]
  · intro hbase addresses
    unfold ConnectionImpl.dnsCallback
    simp [hbase]

/-- Witness for C20: scenario 4, the resolver returns no address for "h1". -/
theorem dnsCallback_outcomes_witness :
    sampleFreshImpl.dnsCallback sampleBase [] sampleResponses
      = ({ sampleFreshImpl with dnsRequestId_ := false }).reconnect sampleBase
          (Error.Fail ("Unable to resolve host address \""
            ++ sampleBase.options_.hosts.getD sampleBase.hostIndex_ "" ++ "\"")) sampleResponses ∧
    (sampleFreshImpl.dnsCallback sampleBase [] sampleResponses).2.2
      = [Effect.connectTimerStop, Effect.deleteThis,
         Effect.disconnectedHandler (some 11)
           (Error.Fail "Unable to resolve host address \"h1\"")] :=
  ⟨((dnsCallback_outcomes sampleFreshImpl sampleBase sampleResponses).1 (by decide)).1.1,
   by decide⟩

theorem pollCommands_readable_mask (self : ConnectionImpl) (events : Nat) (r : Responses)
    (hnf : ¬ (events &&& UV_WRITABLE ≠ 0 ∧ r.flushRc = -1)) :
    self.pollCommands events r
      = ((self.pollCommandsReadable events (computedMask self events r) r).1,
         (self.pollCommandsReadable events (computedMask self events r) r).2.1,
         flushCall events
           ++ (self.pollCommandsReadable events (computedMask self events r) r).2.2) := by
  unfold ConnectionImpl.pollCommands flushCall computedMask
  simp only
  by_cases hw : events &&& UV_WRITABLE ≠ 0
  · have hfl : r.flushRc ≠ -1 := fun h => hnf ⟨hw, h⟩
    rw [if_pos hw, if_pos hw, if_pos hw]
    by_cases h1 : r.flushRc = 1
    · have h0 : ¬ r.flushRc = 0 := by omega
      rw [if_pos h1, if_pos h1, if_neg h0]
      rfl
    · rw [if_neg h1, if_neg h1, if_neg (fun h => hfl h.2)]
      rfl
  · rw [if_neg hw, if_neg hw, if_neg hw]
    rfl

theorem updatePollEventmask_rearm (self : ConnectionImpl) (eventmask : Nat) (r : Responses) :
    (self.updatePollEventmask eventmask r).2.2.filter Effect.isPollStart
      = (if eventmask ≠ self.eventmask_ then
          [Effect.uvPollStart eventmask PollCb.pollCommandsCallback] else []) := by
  unfold ConnectionImpl.updatePollEventmask
  by_cases h1 : eventmask ≠ self.eventmask_
  · rw [if_pos h1, if_pos h1]
    split_ifs <;> rfl
  · rw [if_neg h1, if_neg h1]
    rfl

/-- Every command-poll step that returns Success without taking the error
branch stores the computed mask and calls `uv_poll_start`, once and with that
mask, exactly when it differs from the mask stored before. -/
theorem eventmask_stored_elsewhere (self : ConnectionImpl) (events : Nat) (r : Responses)
    (hsucc : (self.pollCommands events r).1 = Error.Success)
    (hnot : ¬ ErrorResultBranch events r) :
    (self.pollCommands events r).2.1.eventmask_ = computedMask self events r ∧
    (self.pollCommands events r).2.2.filter Effect.isPollStart
      = (if computedMask self events r ≠ self.eventmask_ then
          [Effect.uvPollStart (computedMask self events r) PollCb.pollCommandsCallback]
         else []) := by
  have hnf : ¬ (events &&& UV_WRITABLE ≠ 0 ∧ r.flushRc = -1) := by
    rintro ⟨hw, hfl⟩
    unfold ConnectionImpl.pollCommands at hsucc
    simp [hw, hfl, MAKE_ERROR] at hsucc
  have hflush : (flushCall events).filter Effect.isPollStart = [] := by
    unfold flushCall
    split_ifs <;> rfl
  rw [pollCommands_readable_mask self events r hnf] at hsucc ⊢
  simp only [List.filter_append, hflush, List.nil_append] at hsucc ⊢
  by_cases hr : events &&& UV_READABLE ≠ 0
  · by_cases hci : r.consumeInput = true
    · by_cases hbusy : r.isBusy = true
      · rw [readable_busy self events _ r hr hci hbusy] at hsucc ⊢
        simp only [List.filter_append, updatePollEventmask_rearm] at hsucc ⊢
        exact ⟨updatePollEventmask_success _ _ _ hsucc, rfl⟩
      · have hbusy' : r.isBusy = false := by
          cases h : r.isBusy with
          | false => rfl
          | true => exact absurd h hbusy
        have hst : ¬ (PQresultStatus r.results.head? ≠ ExecStatusType.PGRES_TUPLES_OK ∧
            PQresultStatus r.results.head? ≠ ExecStatusType.PGRES_COMMAND_OK) :=
          fun h => hnot ⟨hr, hci, hbusy', h.1, h.2⟩
        by_cases htail : r.results.tail = []
        · rw [readable_single_result self events _ r hr hci hbusy' hst htail] at hsucc ⊢
          have hfin : (self.finishRequest Error.Success r.results.head?).2.filter
              Effect.isPollStart = [] := by
            rw [finishRequest_eq]
            unfold completionCall
            split_ifs <;> rfl
          have hmask : (self.finishRequest Error.Success r.results.head?).1.eventmask_
              = self.eventmask_ := by
            rw [finishRequest_eq]
            rfl
          simp only [List.filter_append, updatePollEventmask_rearm, hfin, hmask] at hsucc ⊢
          exact ⟨updatePollEventmask_success _ _ _ hsucc, rfl⟩
        · rw [readable_more_results self events _ r hr hci hbusy' hst htail] at hsucc
          simp [MAKE_ERROR] at hsucc
    · exfalso
      unfold ConnectionImpl.pollCommandsReadable at hsucc
      simp only at hsucc
      rw [if_pos hr, if_pos hci] at hsucc
      simp [MAKE_ERROR] at hsucc
  · have hq : self.pollCommandsReadable events (computedMask self events r) r
        = self.updatePollEventmask (computedMask self events r) r := by
      unfold ConnectionImpl.pollCommandsReadable
      simp only
      rw [if_neg hr]
    rw [hq] at hsucc ⊢
    exact ⟨updatePollEventmask_success _ _ _ hsucc, updatePollEventmask_rearm _ _ _⟩

end Postgresql

/-! ## Theorems about the serializer -/

namespace Serialize

/-- The sample 64-bit primitives are inverse to each other. -/
theorem sampleUnpack64_samplePack64 (v : Nat) (hv : v < 2 ^ 64) :
    sampleUnpack64 (samplePack64 v) = v := by
  have h1 : v / 2 ^ 16 = v / 2 ^ 8 / 256 := by rw [Nat.div_div_eq_div_mul]; norm_num
  have h2 : v / 2 ^ 24 = v / 2 ^ 16 / 256 := by rw [Nat.div_div_eq_div_mul]; norm_num
  have h3 : v / 2 ^ 32 = v / 2 ^ 24 / 256 := by rw [Nat.div_div_eq_div_mul]; norm_num
  have h4 : v / 2 ^ 40 = v / 2 ^ 32 / 256 := by rw [Nat.div_div_eq_div_mul]; norm_num
  have h5 : v / 2 ^ 48 = v / 2 ^ 40 / 256 := by rw [Nat.div_div_eq_div_mul]; norm_num
  have h6 : v / 2 ^ 56 = v / 2 ^ 48 / 256 := by rw [Nat.div_div_eq_div_mul]; norm_num
  have h7 : v / 2 ^ 56 < 256 := by
    rw [Nat.div_lt_iff_lt_mul (by norm_num)]
    exact hv
  simp only [sampleUnpack64, samplePack64, List.foldl_cons, List.foldl_nil]
  generalize v / 2 ^ 56 = q7 at *
  generalize v / 2 ^ 48 = q6 at *
  generalize v / 2 ^ 40 = q5 at *
  generalize v / 2 ^ 32 = q4 at *
  generalize v / 2 ^ 24 = q3 at *
  generalize v / 2 ^ 16 = q2 at *
  generalize hq : v / 2 ^ 8 = q1 at *
  have h0 : v / 256 = q1 := hq
  omega

/-- The sample primitives keep what the names promise. -/
theorem samplePrimitives_lawful : samplePrimitives.Lawful where
  pack64_length := fun _ => rfl
  pack32_length := fun _ => rfl
  pack_bytes_length := by
    intro src size h
    simp [samplePrimitives, h]
  unpack64_pack64 := sampleUnpack64_samplePack64
  unpack32_pack32 := by
    intro v hv
    simp only [samplePrimitives, sampleUnpack32, samplePack32, List.foldl_cons, List.foldl_nil,
      Nat.reducePow] at hv ⊢
    omega
  unpack_bytes_pack_bytes := by
    intro src size h
    subst h
    simp [samplePrimitives]
  unpack32_lt := fun _ => Nat.mod_lt _ (by norm_num)
  crc32c_lt := fun _ _ => Nat.mod_lt _ (by norm_num)

/-- Unpacking a buffer that consists of four fields of the right sizes. -/
theorem unpack_fields (m : Primitives) (a b c d rest : List Nat) (k i : Nat)
    (ha : a.length = 8) (hb : b.length = k) (hc : c.length = i) (hd : d.length = 4) :
    unpack_layer_block_index_record m (some (a ++ b ++ c ++ d ++ rest)) k i
      = (if m.crc32c 0 (a ++ b ++ c) % 2 ^ 32 = m.unpack32 d % 2 ^ 32 then 0 else -1,
         some (m.unpack64 a, m.unpack_bytes b k, m.unpack_bytes c i)) := by
  have h1 : ((a ++ b ++ c ++ d ++ rest).drop 0).take 8 = a := by
    simp [List.append_assoc, List.take_append_eq_append_take, ha]
  have h2 : ((a ++ b ++ c ++ d ++ rest).drop (0 + 8)).take k = b := by
    have : (a ++ b ++ c ++ d ++ rest).drop (0 + 8) = b ++ (c ++ d ++ rest) := by
      simp only [List.append_assoc, Nat.zero_add]
      exact List.drop_left' ha
    rw [this]
    exact List.take_left' hb
  have h3 : ((a ++ b ++ c ++ d ++ rest).drop (0 + 8 + k)).take i = c := by
    have : (a ++ b ++ c ++ d ++ rest).drop (0 + 8 + k) = c ++ (d ++ rest) := by
      have hl : (a ++ b).length = 0 + 8 + k := by simp [ha, hb]
      have : a ++ b ++ c ++ d ++ rest = (a ++ b) ++ (c ++ (d ++ rest)) := by
        simp only [List.append_assoc]
      rw [this]
      exact List.drop_left' hl
    rw [this]
    exact List.take_left' hc
  have h4 : ((a ++ b ++ c ++ d ++ rest).drop (0 + 8 + k + i)).take 4 = d := by
    have : (a ++ b ++ c ++ d ++ rest).drop (0 + 8 + k + i) = d ++ rest := by
      have hl : (a ++ b ++ c).length = 0 + 8 + k + i := by
        rw [List.length_append, List.length_append, ha, hb, hc, Nat.zero_add]
      have : a ++ b ++ c ++ d ++ rest = (a ++ b ++ c) ++ (d ++ rest) := by
        simp only [List.append_assoc]
      rw [this]
      exact List.drop_left' hl
    rw [this]
    exact List.take_left' hd
  have h5 : (a ++ b ++ c ++ d ++ rest).take (0 + 8 + k + i + 4 - 4) = a ++ b ++ c := by
    have hl : (a ++ b ++ c).length = 0 + 8 + k + i + 4 - 4 := by
      rw [List.length_append, List.length_append, ha, hb, hc, Nat.zero_add, Nat.add_sub_cancel]
    have : a ++ b ++ c ++ d ++ rest = (a ++ b ++ c) ++ (d ++ rest) := by
      simp only [List.append_assoc]
    rw [this]
    exact List.take_left' hl
  unfold unpack_layer_block_index_record
  simp only [h1, h2, h3, h4, h5]
  split_ifs <;> rfl

/-- The bytes stored by packing into a non-null buffer. -/
theorem pack_fields (m : Primitives) (k i block_id : Nat) (key iv : List Nat) :
    pack_layer_block_index_record m true k i block_id key iv
      = (some (m.pack64 block_id ++ m.pack_bytes key k ++ m.pack_bytes iv i
            ++ m.pack32 (m.crc32c 0 (m.pack64 block_id ++ m.pack_bytes key k ++ m.pack_bytes iv i)
                % 2 ^ 32)),
         ((m.pack64 block_id ++ m.pack_bytes key k ++ m.pack_bytes iv i
            ++ m.pack32 (m.crc32c 0 (m.pack64 block_id ++ m.pack_bytes key k ++ m.pack_bytes iv i)
                % 2 ^ 32)).length : Int)) := by
  simp [pack_layer_block_index_record]

/-- C21: with primitives that keep what their names promise, for every block
id below 2^64, every key of `cipher_key_size` bytes and every iv of
`cipher_iv_size` bytes, `pack_layer_block_index_record` on a non-null buffer
stores 8 + key size + iv size + 4 bytes and returns that number, and
`unpack_layer_block_index_record` (same sizes) applied to a buffer that starts
with these bytes returns 0 and delivers the same block id, key and iv; applied
to that buffer with the bytes before the trailing checksum replaced by bytes
of another CRC-32C, or with the trailing four bytes replaced by a different
checksum value, it returns -1. -/
theorem layer_block_index_record_roundtrip (m : Primitives) (hm : m.Lawful)
    (k i block_id : Nat) (key iv rest body trailer : List Nat)
    (hid : block_id < 2 ^ 64) (hkey : key.length = k) (hiv : iv.length = i)
    (hbody : body.length = 8 + k + i) (htrailer : trailer.length = 4) :
    ∃ written : List Nat,
      pack_layer_block_index_record m true k i block_id key iv
        = (some written, (written.length : Int)) ∧
      written.length = 8 + k + i + 4 ∧
      unpack_layer_block_index_record m (some (written ++ rest)) k i
        = (0, some (block_id, key, iv)) ∧
      (m.crc32c 0 body ≠ m.crc32c 0 (written.take (8 + k + i)) →
        (unpack_layer_block_index_record m
          (some (body ++ written.drop (8 + k + i) ++ rest)) k i).1 = -1) ∧
      (m.unpack32 trailer ≠ m.unpack32 (written.drop (8 + k + i)) →
        (unpack_layer_block_index_record m
          (some (written.take (8 + k + i) ++ trailer ++ rest)) k i).1 = -1) := by
  have ha := hm.pack64_length block_id
  have hb := hm.pack_bytes_length key k hkey
  have hc := hm.pack_bytes_length iv i hiv
  have hcrc := hm.crc32c_lt 0 (m.pack64 block_id ++ m.pack_bytes key k ++ m.pack_bytes iv i)
  have hd := hm.pack32_length
    (m.crc32c 0 (m.pack64 block_id ++ m.pack_bytes key k ++ m.pack_bytes iv i) % 2 ^ 32)
  have hlen : (m.pack64 block_id ++ m.pack_bytes key k ++ m.pack_bytes iv i).length
      = 8 + k + i := by
    rw [List.length_append, List.length_append, ha, hb, hc]
  have htake : (m.pack64 block_id ++ m.pack_bytes key k ++ m.pack_bytes iv i
      ++ m.pack32 (m.crc32c 0 (m.pack64 block_id ++ m.pack_bytes key k ++ m.pack_bytes iv i)
        % 2 ^ 32)).take (8 + k + i)
      = m.pack64 block_id ++ m.pack_bytes key k ++ m.pack_bytes iv i :=
    List.take_left' hlen
  have hdrop : (m.pack64 block_id ++ m.pack_bytes key k ++ m.pack_bytes iv i
      ++ m.pack32 (m.crc32c 0 (m.pack64 block_id ++ m.pack_bytes key k ++ m.pack_bytes iv i)
        % 2 ^ 32)).drop (8 + k + i)
      = m.pack32 (m.crc32c 0 (m.pack64 block_id ++ m.pack_bytes key k ++ m.pack_bytes iv i)
        % 2 ^ 32) :=
    List.drop_left' hlen
  have hread : m.unpack32 (m.pack32
      (m.crc32c 0 (m.pack64 block_id ++ m.pack_bytes key k ++ m.pack_bytes iv i) % 2 ^ 32))
      = m.crc32c 0 (m.pack64 block_id ++ m.pack_bytes key k ++ m.pack_bytes iv i) := by
    rw [hm.unpack32_pack32 _ (Nat.mod_lt _ (by norm_num)), Nat.mod_eq_of_lt hcrc]
  refine ⟨_, pack_fields m k i block_id key iv, ?_, ?_, ?_, ?_⟩
  · rw [List.length_append, hlen, hd]
  · rw [unpack_fields m _ _ _ _ rest k i ha hb hc hd, hread, if_pos rfl,
      hm.unpack64_pack64 block_id hid, hm.unpack_bytes_pack_bytes key k hkey,
      hm.unpack_bytes_pack_bytes iv i hiv]
  · intro hne
    rw [htake] at hne
    rw [hdrop]
    obtain ⟨a, b, c, rfl, ha2, hb2, hc2⟩ : ∃ a b c : List Nat,
        body = a ++ b ++ c ∧ a.length = 8 ∧ b.length = k ∧ c.length = i := by
      refine ⟨body.take 8, (body.drop 8).take k, body.drop (8 + k), ?_, ?_, ?_, ?_⟩
      · rw [List.append_assoc, ← List.drop_drop, List.take_append_drop, List.take_append_drop]
      · rw [List.length_take]; omega
      · rw [List.length_take, List.length_drop]; omega
      · rw [List.length_drop]; omega
    rw [unpack_fields m a b c _ rest k i ha2 hb2 hc2 hd, hread]
    simp only
    rw [if_neg]
    intro h
    rw [Nat.mod_eq_of_lt (hm.crc32c_lt _ _), Nat.mod_eq_of_lt hcrc] at h
    exact hne h
  · intro hne
    rw [hdrop, hread] at hne
    rw [htake, unpack_fields m _ _ _ trailer rest k i ha hb hc htrailer]
    simp only
    rw [if_neg]
    intro h
    rw [Nat.mod_eq_of_lt hcrc, Nat.mod_eq_of_lt (hm.unpack32_lt _)] at h
    exact hne h.symm

set_option maxRecDepth 100000

/-- Witness for C21: block 0x0102030405060708 with a two-byte key and a
three-byte iv under the sample primitives, two further bytes behind the record,
one byte of the block id changed, and a zero checksum. -/
theorem layer_block_index_record_roundtrip_witness :
    (0x0102030405060708 < 2 ^ 64 ∧ sampleKey.length = 2 ∧ sampleIv.length = 3 ∧
      sampleChangedBody.length = 8 + 2 + 3 ∧ [0, 0, 0, 0].length = 4) ∧
    (pack_layer_block_index_record samplePrimitives true 2 3 0x0102030405060708
        sampleKey sampleIv = (some sampleRecord, 17) ∧
      unpack_layer_block_index_record samplePrimitives (some (sampleRecord ++ [9, 9])) 2 3
        = (0, some (0x0102030405060708, sampleKey, sampleIv)) ∧
      (unpack_layer_block_index_record samplePrimitives
        (some (sampleChangedBody ++ sampleRecord.drop 13 ++ [9, 9])) 2 3).1 = -1 ∧
      (unpack_layer_block_index_record samplePrimitives
        (some (sampleRecord.take 13 ++ [0, 0, 0, 0] ++ [9, 9])) 2 3).1 = -1) ∧
    ∃ written : List Nat,
      pack_layer_block_index_record samplePrimitives true 2 3 0x0102030405060708
        sampleKey sampleIv = (some written, (written.length : Int)) ∧
      written.length = 8 + 2 + 3 + 4 ∧
      unpack_layer_block_index_record samplePrimitives (some (written ++ [9, 9])) 2 3
        = (0, some (0x0102030405060708, sampleKey, sampleIv)) ∧
      (samplePrimitives.crc32c 0 sampleChangedBody
          ≠ samplePrimitives.crc32c 0 (written.take (8 + 2 + 3)) →
        (unpack_layer_block_index_record samplePrimitives
          (some (sampleChangedBody ++ written.drop (8 + 2 + 3) ++ [9, 9])) 2 3).1 = -1) ∧
      (samplePrimitives.unpack32 [0, 0, 0, 0]
          ≠ samplePrimitives.unpack32 (written.drop (8 + 2 + 3)) →
        (unpack_layer_block_index_record samplePrimitives
          (some (written.take (8 + 2 + 3) ++ [0, 0, 0, 0] ++ [9, 9])) 2 3).1 = -1) :=
  ⟨by decide, by decide,
   layer_block_index_record_roundtrip samplePrimitives samplePrimitives_lawful 2 3
     0x0102030405060708 sampleKey sampleIv [9, 9] sampleChangedBody [0, 0, 0, 0]
     (by decide) (by decide) (by decide) (by decide) (by decide)⟩

end Serialize
